import Mathlib

/-!
# Flow editor of the agent builder front end

A shallow embedding of the graph-editing rules of
`src/Frontend/src/pages/Studio/FlowEditor/FlowEditor.jsx` and of the catalog
in `TriggerPalette.jsx`, together with the library calls they rely on.

React state (`useState`, `useNodesState`, `useEdgesState`) is one record,
`EditorState`; every handler is a function on that record.  A handler whose
state updater can raise a JavaScript exception returns `Except`.
-/

namespace FlowEditor

/-! ## JavaScript values -/

/-- JavaScript values that occur in node data bags.  Objects are association
lists in insertion order, read with "first binding wins"; `fn` stands for a
function value such as the `onNodeClick` callback, named by a tag.  Numbers
are integers: no claim depends on fractional values. -/
inductive JVal where
  | undefined
  | null
  | bool (b : Bool)
  | num (n : Int)
  | str (s : String)
  | fn (tag : String)
  | arr (items : List JVal)
  | obj (fields : List (String × JVal))

/-- A plain object: the bindings of its own properties. -/
abbrev JObj := List (String × JVal)

mutual
/-- Decidable equality of values (structural). -/
def JVal.decEq : (a b : JVal) → Decidable (a = b)
  | .undefined, .undefined => isTrue rfl
  | .null, .null => isTrue rfl
  | .bool a, .bool b =>
      if h : a = b then isTrue (by rw [h]) else isFalse (by intro e; cases e; exact h rfl)
  | .num a, .num b =>
      if h : a = b then isTrue (by rw [h]) else isFalse (by intro e; cases e; exact h rfl)
  | .str a, .str b =>
      if h : a = b then isTrue (by rw [h]) else isFalse (by intro e; cases e; exact h rfl)
  | .fn a, .fn b =>
      if h : a = b then isTrue (by rw [h]) else isFalse (by intro e; cases e; exact h rfl)
  | .arr a, .arr b =>
      match JVal.decEqItems a b with
      | isTrue h => isTrue (by rw [h])
      | isFalse h => isFalse (by intro e; cases e; exact h rfl)
  | .obj a, .obj b =>
      match JVal.decEqFields a b with
      | isTrue h => isTrue (by rw [h])
      | isFalse h => isFalse (by intro e; cases e; exact h rfl)
  | .undefined, .null | .undefined, .bool _ | .undefined, .num _ | .undefined, .str _
  | .undefined, .fn _ | .undefined, .arr _ | .undefined, .obj _ =>
      isFalse (by intro e; cases e)
  | .null, .undefined | .null, .bool _ | .null, .num _ | .null, .str _
  | .null, .fn _ | .null, .arr _ | .null, .obj _ =>
      isFalse (by intro e; cases e)
  | .bool _, .undefined | .bool _, .null | .bool _, .num _ | .bool _, .str _
  | .bool _, .fn _ | .bool _, .arr _ | .bool _, .obj _ =>
      isFalse (by intro e; cases e)
  | .num _, .undefined | .num _, .null | .num _, .bool _ | .num _, .str _
  | .num _, .fn _ | .num _, .arr _ | .num _, .obj _ =>
      isFalse (by intro e; cases e)
  | .str _, .undefined | .str _, .null | .str _, .bool _ | .str _, .num _
  | .str _, .fn _ | .str _, .arr _ | .str _, .obj _ =>
      isFalse (by intro e; cases e)
  | .fn _, .undefined | .fn _, .null | .fn _, .bool _ | .fn _, .num _
  | .fn _, .str _ | .fn _, .arr _ | .fn _, .obj _ =>
      isFalse (by intro e; cases e)
  | .arr _, .undefined | .arr _, .null | .arr _, .bool _ | .arr _, .num _
  | .arr _, .str _ | .arr _, .fn _ | .arr _, .obj _ =>
      isFalse (by intro e; cases e)
  | .obj _, .undefined | .obj _, .null | .obj _, .bool _ | .obj _, .num _
  | .obj _, .str _ | .obj _, .fn _ | .obj _, .arr _ =>
      isFalse (by intro e; cases e)
/-- Decidable equality of array contents. -/
def JVal.decEqItems : (a b : List JVal) → Decidable (a = b)
  | [], [] => isTrue rfl
  | [], _ :: _ => isFalse (by intro e; cases e)
  | _ :: _, [] => isFalse (by intro e; cases e)
  | x :: xs, y :: ys =>
      match JVal.decEq x y, JVal.decEqItems xs ys with
      | isTrue h1, isTrue h2 => isTrue (by rw [h1, h2])
      | isFalse h1, _ => isFalse (by intro e; cases e; exact h1 rfl)
      | _, isFalse h2 => isFalse (by intro e; cases e; exact h2 rfl)
/-- Decidable equality of object bindings. -/
def JVal.decEqFields : (a b : List (String × JVal)) → Decidable (a = b)
  | [], [] => isTrue rfl
  | [], _ :: _ => isFalse (by intro e; cases e)
  | _ :: _, [] => isFalse (by intro e; cases e)
  | (k, x) :: xs, (l, y) :: ys =>
      if hk : k = l then
        match JVal.decEq x y, JVal.decEqFields xs ys with
        | isTrue h1, isTrue h2 => isTrue (by rw [hk, h1, h2])
        | isFalse h1, _ => isFalse (by intro e; cases e; exact h1 rfl)
        | _, isFalse h2 => isFalse (by intro e; cases e; exact h2 rfl)
      else isFalse (by intro e; cases e; exact hk rfl)
end

instance : DecidableEq JVal := JVal.decEq

/-- JavaScript truthiness (`if (v)`, `v || w`, `!v`). -/
def truthy : JVal → Bool
  | .undefined => false
  | .null => false
  | .bool b => b
  | .num n => n != 0
  | .str s => s != ""
  | .fn _ => true
  | .arr _ => true
  | .obj _ => true

/-- The operator `===` where at most one operand can be a pre-existing object:
primitives compare by value, and an array, object or function is never
identical to a value obtained from a fresh JSON clone. -/
def strictEq : JVal → JVal → Bool
  | .undefined, .undefined => true
  | .null, .null => true
  | .bool a, .bool b => a == b
  | .num a, .num b => a == b
  | .str a, .str b => a == b
  | _, _ => false

/-- Property read `o[k]` on a plain object: the first binding of `k`, or
`undefined`. -/
def objGet : JObj → String → JVal
  | [], _ => .undefined
  | (k, v) :: rest, key => if k = key then v else objGet rest key

/-- Property write `o[k] = v` on a plain object: an existing key keeps its
place, a new key goes last. -/
def objSet : JObj → String → JVal → JObj
  | [], key, v => [(key, v)]
  | (k, w) :: rest, key, v =>
      if k = key then (key, v) :: rest else (k, w) :: objSet rest key v

/-- Removal of every binding of a key (the rest pattern `{ key, ...rest }`). -/
def objErase (o : JObj) (key : String) : JObj :=
  o.filter (fun p => p.1 != key)

/-- Object spread into an object under construction: `{ ...base, ...src }`. -/
def objSpread (base src : JObj) : JObj :=
  src.foldl (fun acc p => objSet acc p.1 p.2) base

/-- The keys of an object, in order. -/
def objKeys (o : JObj) : List String :=
  o.map Prod.fst

/-- Property read `v[k]` for a key that is not built in: a `TypeError` on
`undefined` and `null`, the binding on an object, the function name for
`name` on a function, `undefined` on the other primitives and on arrays. -/
def getProp : JVal → String → Except String JVal
  | .undefined, k => .error ("TypeError: Cannot read properties of undefined (reading " ++ k ++ ")")
  | .null, k => .error ("TypeError: Cannot read properties of null (reading " ++ k ++ ")")
  | .obj fs, k => .ok (objGet fs k)
  | .fn tag, k => .ok (if k = "name" then .str tag else .undefined)
  | _, _ => .ok .undefined

mutual
/-- The value `JSON.parse(JSON.stringify(v))` for a value inside an array or
object: a deep copy. -/
def jsonClone : JVal → JVal
  | .arr xs => .arr (jsonCloneItems xs)
  | .obj fs => .obj (jsonCloneFields fs)
  | v => v
/-- The deep copy of array contents: `undefined` and functions become `null`. -/
def jsonCloneItems : List JVal → List JVal
  | [] => []
  | x :: xs =>
      (match x with
        | .undefined => JVal.null
        | .fn _ => JVal.null
        | y => jsonClone y) :: jsonCloneItems xs
/-- The deep copy of an object: a property whose value is `undefined` or a
function is left out; each key is serialised once. -/
def jsonCloneFields : List (String × JVal) → List (String × JVal)
  | [] => []
  | (k, v) :: fs =>
      match v with
      | .undefined => (jsonCloneFields fs).filter (fun p => p.1 != k)
      | .fn _ => (jsonCloneFields fs).filter (fun p => p.1 != k)
      | w => (k, jsonClone w) :: (jsonCloneFields fs).filter (fun p => p.1 != k)
end

/-! ## Graph data -/

/-- A canvas coordinate. -/
structure Position where
  x : Int
  y : Int
  deriving DecidableEq, Repr

/-- A node of the flow.  `data` is always built by an object literal
(`onDrop`, `handleTriggerSelect`, `loadFlow`) or is a clone of one. -/
structure Node where
  id : String
  type : JVal
  position : Position
  data : JObj
  deriving DecidableEq

/-- The inline style of an edge. -/
structure EdgeStyle where
  stroke : String
  strokeDasharray : Option String
  deriving DecidableEq, Repr

/-- An edge of the flow. -/
structure Edge where
  id : String
  source : String
  target : String
  sourceHandle : Option String
  targetHandle : Option String
  type : String
  animated : Bool
  style : EdgeStyle
  deriving DecidableEq, Repr

/-- The connection proposal the canvas hands to `onConnect`; `none` is
`null`. -/
structure Connection where
  source : Option String
  target : Option String
  sourceHandle : Option String
  targetHandle : Option String
  deriving DecidableEq, Repr

/-- A connection proposal with the presentation fields `onConnect` adds. -/
structure EdgeParams where
  source : Option String
  target : Option String
  sourceHandle : Option String
  targetHandle : Option String
  type : String
  animated : Bool
  style : EdgeStyle
  deriving DecidableEq, Repr

/-- A toast notification. -/
structure Toast where
  title : String
  description : String
  variant : Option String
  deriving DecidableEq, Repr

/-- The React state of the `FlowEditor` component, with its `flowId` prop as
`initialFlowId`.  `reactFlowInstance` records whether `onInit` has delivered
the canvas instance (`false` is the initial `null`). -/
structure EditorState where
  nodes : List Node
  edges : List Edge
  selectedNode : Option Node
  saveDialogOpen : Bool
  flowName : String
  flowId : JVal
  isLocked : Bool
  isSaving : Bool
  showTriggerPalette : Bool
  toasts : List Toast
  reactFlowInstance : Bool
  initialFlowId : JVal
  isExecuting : Bool
  execModalOpen : Bool
  execResponse : JVal
  execError : JVal
  deriving DecidableEq

/-! ## Canvas library calls used by the editor -/

/-- Modelled from the spec: `reactFlowInstance.getNode(id)` belongs to the
canvas library, which is not under src/.  The spec resolves "source and
target nodes by id"; the library keeps the nodes of the current list in a map
keyed by id, so the last node carrying the id is the one returned, and `null`
resolves to nothing. -/
def getNode : List Node → Option String → Option Node
  | _, none => none
  | [], some _ => none
  | n :: ns, some i =>
      match getNode ns (some i) with
      | some m => some m
      | none => if n.id = i then some n else none

/-- A handle or id is falsy when it is `null` or the empty string. -/
def falsyStr : Option String → Bool
  | none => true
  | some s => s == ""

/-- Modelled from the spec: the id the canvas library gives an edge built from
a connection, `reactflow__edge-<source><sourceHandle>-<target><targetHandle>`. -/
def getEdgeId (source target : String) (sourceHandle targetHandle : Option String) : String :=
  "reactflow__edge-" ++ source ++ (if falsyStr sourceHandle then "" else sourceHandle.getD "")
    ++ "-" ++ target ++ (if falsyStr targetHandle then "" else targetHandle.getD "")

/-- Modelled from the spec: the library test whether an edge list already
holds the same connection (same endpoints, and handles equal or both empty). -/
def connectionExists (source target : String) (sourceHandle targetHandle : Option String)
    (edges : List Edge) : Bool :=
  edges.any (fun el =>
    el.source == source && el.target == target &&
    (el.sourceHandle == sourceHandle || (falsyStr el.sourceHandle && falsyStr sourceHandle)) &&
    (el.targetHandle == targetHandle || (falsyStr el.targetHandle && falsyStr targetHandle)))

/-- Modelled from the spec: `addEdge` of the canvas library, which is not
under src/.  The spec has an accepted edge appended to the edge list; the
library leaves the list as it is when the source or the target is empty and
when the same connection is already present, and otherwise appends the edge
under a generated id. -/
def addEdge (p : EdgeParams) (edges : List Edge) : List Edge :=
  match p.source, p.target with
  | some s, some t =>
      if s == "" || t == "" then edges
      else if connectionExists s t p.sourceHandle p.targetHandle edges then edges
      else edges ++ [{ id := getEdgeId s t p.sourceHandle p.targetHandle,
                       source := s, target := t,
                       sourceHandle := p.sourceHandle, targetHandle := p.targetHandle,
                       type := p.type, animated := p.animated, style := p.style }]
  | _, _ => edges

/-! ## `onConnect` (FlowEditor.jsx, lines 151-182) -/

/-- The test `['chatModel', 'memory', 'tool'].includes(targetHandle)`. -/
def isConfigHandle (targetHandle : Option String) : Bool :=
  targetHandle == some "chatModel" || targetHandle == some "memory" ||
    targetHandle == some "tool"

/-- The test `targetNode?.type === 'aiAgentNode'`. -/
def isAiAgent (targetNode : Option Node) : Bool :=
  match targetNode with
  | none => false
  | some n => strictEq n.type (.str "aiAgentNode")

/-- The call `existingTools.some(t => t.name === sourceNode.data.name)`: the
callback runs on each tool in turn until it answers true, and raises when a
tool entry is `null` or the source node did not resolve. -/
def someSameName (sourceNode : Option Node) : List JVal → Except String Bool
  | [] => .ok false
  | t :: ts =>
      match getProp t "name" with
      | .error e => .error e
      | .ok tn =>
          match sourceNode with
          | none => .error "TypeError: Cannot read properties of undefined (reading data)"
          | some s =>
              if strictEq tn (objGet s.data "name") then .ok true
              else someSameName sourceNode ts

/-- The expression `updatedData.tools || []` followed by the use of `.some`:
a falsy value gives the empty list, an array its items, and any other value
has no `some` method. -/
def existingToolsOf (updatedData : JObj) : Except String (List JVal) :=
  match objGet updatedData "tools" with
  | .arr xs => .ok xs
  | v => if truthy v then .error "TypeError: existingTools.some is not a function" else .ok []

/-- The body of the `nds.map` callback for a node whose id is the target:
lines 160-169. -/
def attachConfig (targetHandle : Option String) (sourceNode : Option Node) (node : Node) :
    Except String Node :=
  let updatedData := jsonCloneFields node.data
  if targetHandle = some "tool" then
    match existingToolsOf updatedData with
    | .error e => .error e
    | .ok existingTools =>
        match someSameName sourceNode existingTools with
        | .error e => .error e
        | .ok true => .ok { node with data := updatedData }
        | .ok false =>
            match sourceNode with
            | none => .error "TypeError: Cannot read properties of undefined (reading data)"
            | some s =>
                .ok { node with
                      data := objSet updatedData "tools" (.arr (existingTools ++ [.obj s.data])) }
  else
    match sourceNode with
    | none => .error "TypeError: Cannot read properties of undefined (reading data)"
    | some s => .ok { node with data := objSet updatedData (targetHandle.getD "null") (.obj s.data) }

/-- The call `nds.map(f)` for a callback that can raise: the first exception
ends the traversal. -/
def mapNodes (f : Node → Except String Node) : List Node → Except String (List Node)
  | [] => .ok []
  | n :: ns =>
      match f n with
      | .error e => .error e
      | .ok m =>
          match mapNodes f ns with
          | .error e => .error e
          | .ok ms => .ok (m :: ms)

/-- The edge `{ ...params, type: 'step', style: { stroke: '#aaa',
strokeDasharray: '5 5' }, animated: false }`. -/
def configEdge (params : Connection) : EdgeParams :=
  { source := params.source, target := params.target,
    sourceHandle := params.sourceHandle, targetHandle := params.targetHandle,
    type := "step", animated := false,
    style := { stroke := "#aaa", strokeDasharray := some "5 5" } }

/-- The edge `{ ...params, type: 'smoothstep', animated: true, style:
{ stroke: '#555' } }`. -/
def defaultEdge (params : Connection) : EdgeParams :=
  { source := params.source, target := params.target,
    sourceHandle := params.sourceHandle, targetHandle := params.targetHandle,
    type := "smoothstep", animated := true,
    style := { stroke := "#555", strokeDasharray := none } }

/-- The handler `onConnect(params)`.  An exception raised by the handler or
inside its `setNodes` updater is the result `.error`. -/
def onConnect (params : Connection) (st : EditorState) : Except String EditorState :=
  if !st.reactFlowInstance then
    .error "TypeError: Cannot read properties of null (reading getNode)"
  else
  let targetNode := getNode st.nodes params.target
  let sourceNode := getNode st.nodes params.source
  if isAiAgent targetNode && isConfigHandle params.targetHandle then
    match mapNodes (fun node =>
        if some node.id = params.target then attachConfig params.targetHandle sourceNode node
        else .ok node) st.nodes with
    | .error e => .error e
    | .ok nds => .ok { st with nodes := nds, edges := addEdge (configEdge params) st.edges }
  else
    .ok { st with edges := addEdge (defaultEdge params) st.edges }

/-! ## Reading an agent's tool list -/

/-- The entries of `data.tools` when it is an array, and no entries otherwise. -/
def toolsOf (d : JObj) : List JVal :=
  match objGet d "tools" with
  | .arr xs => xs
  | _ => []

/-- Whether the tool entry `t` has `t.name === n` for the string `n`. -/
def isNamed (n : String) (t : JVal) : Bool :=
  match getProp t "name" with
  | .ok (.str m) => m == n
  | _ => false

/-- The number of entries of a tool list named `n`. -/
def countNamed (n : String) (ts : List JVal) : Nat :=
  ts.countP (isNamed n)

/-- Whether a value is an object. -/
def isObj : JVal → Bool
  | .obj _ => true
  | _ => false

/-- The data model of an agent's `tools` field: absent (or falsy), or a list
of tool snapshots, each an object. -/
def toolsListed (d : JObj) : Bool :=
  match objGet d "tools" with
  | .arr xs => xs.all isObj
  | v => !truthy v

/-- The value a property has after the deep copy of its object: `undefined`
when it was `undefined` or a function, its own deep copy otherwise. -/
def cloneTop : JVal → JVal
  | .undefined => .undefined
  | .fn _ => .undefined
  | w => jsonClone w

/-- The `data.tools` value of the node an id resolves to. -/
def toolsField (st : EditorState) (id : String) : Option JVal :=
  (getNode st.nodes (some id)).map (fun a => objGet a.data "tools")

/-! ## Sample graphs -/

/-- An agent node as `onDrop` builds it from the palette entry `AI Agent`. -/
def sampleAgent : Node :=
  { id := "aiAgentNode_1a2b3c4d"
    type := .str "aiAgentNode"
    position := { x := 400, y := 120 }
    data := [("label", .str "AI Agent"),
             ("description", .str "Configurable agent that uses a model, memory, and tools."),
             ("nodeType", .str "aiAgent"),
             ("systemMessage", .str "You are a helpful AI assistant."),
             ("chatModel", .null), ("memory", .null), ("tools", .arr []),
             ("onNodeClick", .fn "onNodeClick"),
             ("onSettingsClick", .fn "onSettingsClick")] }

/-- A tool node as `onDrop` builds it from a palette entry of the tool
`search_apis`. -/
def sampleTool : Node :=
  { id := "toolNode_9f8e7d6c"
    type := .str "toolNode"
    position := { x := 100, y := 300 }
    data := [("label", .str "Search Apis"),
             ("description", .str "Searches the API catalogue."),
             ("nodeType", .str "tool"),
             ("name", .str "search_apis"),
             ("onNodeClick", .fn "onNodeClick"),
             ("onSettingsClick", .fn "onSettingsClick")] }

/-- An editor holding the sample agent and the sample tool, unconnected. -/
def sampleEditor : EditorState :=
  { nodes := [sampleAgent, sampleTool]
    edges := []
    selectedNode := none
    saveDialogOpen := false
    flowName := "Untitled Agentflow"
    flowId := .undefined
    isLocked := false
    isSaving := false
    showTriggerPalette := false
    toasts := []
    reactFlowInstance := true
    initialFlowId := .undefined
    isExecuting := false
    execModalOpen := false
    execResponse := .null
    execError := .null }

/-- The proposal that plugs the sample tool into the agent's `tool` socket. -/
def sampleToolConnection : Connection :=
  { source := some "toolNode_9f8e7d6c"
    target := some "aiAgentNode_1a2b3c4d"
    sourceHandle := some "output"
    targetHandle := some "tool" }

/-- The handler applied to the outcome of an earlier handler. -/
def andThen (r : Except String EditorState) (f : EditorState → Except String EditorState) :
    Except String EditorState :=
  match r with
  | .error e => .error e
  | .ok st => f st

/-- The state a run ended in, when it raised nothing. -/
def outcome (r : Except String EditorState) : Option EditorState :=
  match r with
  | .error _ => none
  | .ok st => some st

/-- The relation between a node and its image under one `tool` attachment of
the source `S`, named `n`, to the target id `tgt`. -/
def ToolStep (tgt : String) (S : Node) (n : String) (a b : Node) : Prop :=
  b.id = a.id ∧ b.type = a.type ∧ (a.id ≠ tgt → b = a) ∧
  (a.id = tgt → toolsListed a.data = true ∧ toolsListed b.data = true ∧
    toolsOf b.data =
      (if 0 < countNamed n (toolsOf a.data) then jsonCloneItems (toolsOf a.data)
       else jsonCloneItems (toolsOf a.data) ++ [.obj S.data]) ∧
    objGet b.data "name" = cloneTop (objGet a.data "name"))

/-- The relation between a node and its image under one attachment of the
source `S` to the single-slot socket `h` of the target id `tgt`. -/
def SlotStep (tgt h : String) (S : Node) (a b : Node) : Prop :=
  b.id = a.id ∧ b.type = a.type ∧ (a.id ≠ tgt → b = a) ∧
  (a.id = tgt → objGet b.data h = .obj S.data)

/-! ## Node creation (FlowEditor.jsx, lines 186-227) -/

/-- The call `s.substring(a, b)` for `a ≤ b`, on a string of one-unit
characters. -/
def jsSubstring (s : String) (a b : Nat) : String :=
  ⟨(s.data.drop a).take (b - a)⟩

mutual
/-- The string a template literal inserts for a value. -/
def toTemplateString : JVal → String
  | .undefined => "undefined"
  | .null => "null"
  | .bool b => if b then "true" else "false"
  | .num n => toString n
  | .str s => s
  | .fn tag => tag
  | .arr xs => joinItems xs
  | .obj _ => "[object Object]"
/-- The call `xs.join(',')`: `null` and `undefined` items give the empty
string. -/
def joinItems : List JVal → String
  | [] => ""
  | [x] =>
      (match x with
        | .undefined => ""
        | .null => ""
        | y => toTemplateString y)
  | x :: y :: rest =>
      (match x with
        | .undefined => ""
        | .null => ""
        | z => toTemplateString z) ++ "," ++ joinItems (y :: rest)
end

/-- The id of a new node: the template literal of its type, an underscore and
`uuidv4().substring(0, 8)`. -/
def newNodeId (type : JVal) (uuid : String) : String :=
  toTemplateString type ++ "_" ++ jsSubstring uuid 0 8

/-- What `event.dataTransfer.getData('application/reactflow')` holds: nothing
(a falsy string), a text `JSON.parse` rejects, or a text it parses to a
value. -/
inductive Transfer where
  | empty
  | malformed
  | json (v : JVal)
  deriving DecidableEq

/-- A drop on the canvas: the transfer data, the flow position the canvas
computes from the pointer, and the value `uuidv4()` returns. -/
structure DropEvent where
  transfer : Transfer
  position : Position
  uuid : String
  deriving DecidableEq

/-- The own enumerable properties a rest pattern copies from a parsed value. -/
def ownEntries : JVal → JObj
  | .obj fs => fs
  | .arr xs => (List.range xs.length).zipWith (fun i x => (toString i, x)) xs
  | .str s => (List.range s.data.length).zipWith (fun i c => (toString i, .str ⟨[c]⟩)) s.data
  | _ => []

/-- The toast of the `catch` branch of `onDrop`. -/
def dropErrorToast : Toast :=
  { title := "Error adding node", description := "Invalid data from palette.",
    variant := some "destructive" }

/-- The node `onDrop` builds from a parsed payload: `{ type, ...nodeData }` is
taken apart and the callbacks are added to the data. -/
def dropNode (v : JVal) (position : Position) (uuid : String) : Node :=
  let type := objGet (ownEntries v) "type"
  let nodeData := objErase (ownEntries v) "type"
  { id := newNodeId type uuid
    type := type
    position := position
    data := objSet (objSet (objSpread [] nodeData) "onNodeClick" (.fn "onNodeClick"))
              "onSettingsClick" (.fn "onSettingsClick") }

/-- The handler `onDrop(event)`. -/
def onDrop (ev : DropEvent) (st : EditorState) : EditorState :=
  match ev.transfer with
  | .empty => st
  | .malformed =>
      if st.reactFlowInstance then { st with toasts := st.toasts ++ [dropErrorToast] } else st
  | .json v =>
      if !st.reactFlowInstance then st
      else
        match v with
        | .null => { st with toasts := st.toasts ++ [dropErrorToast] }
        | w => { st with nodes := st.nodes ++ [dropNode w ev.position ev.uuid] }

/-- An entry of the trigger catalog as `DraggableTrigger.handleClick` passes it
on: `{ type, label, description, initialData }`. -/
structure TriggerEntry where
  type : String
  label : String
  description : String
  initialData : JObj
  deriving DecidableEq

/-- The node `handleTriggerSelect` builds. -/
def triggerNode (trigger : TriggerEntry) (uuid : String) : Node :=
  { id := newNodeId (.str trigger.type) uuid
    type := .str trigger.type
    position := { x := 250, y := 50 }
    data := objSet (objSet (objSet (objSet (objSpread [] trigger.initialData)
              "label" (.str trigger.label)) "description" (.str trigger.description))
              "onNodeClick" (.fn "onNodeClick")) "onSettingsClick" (.fn "onSettingsClick") }

/-- The handler `handleTriggerSelect(trigger)`, with the value `uuidv4()`
returns. -/
def handleTriggerSelect (trigger : TriggerEntry) (uuid : String) (st : EditorState) :
    EditorState :=
  { st with nodes := [triggerNode trigger uuid]
            showTriggerPalette := false
            selectedNode := some (triggerNode trigger uuid) }

/-- The catalog entry `On form submission` of `TriggerPalette.jsx`. -/
def formTriggerEntry : TriggerEntry :=
  { type := "formTriggerNode"
    label := "On form submission"
    description := "Generate webforms and pass their responses to the workflow."
    initialData := [("nodeType", .str "formTrigger"), ("formTitle", .str "New Form"),
                    ("formDescription", .str "Fill out this form."),
                    ("formElements", .arr []), ("respondWhen", .str "Submitted")] }

/-- The trigger catalog of `TriggerPalette.jsx` (category `General`), without
the icons. -/
def triggerCatalog : List TriggerEntry :=
  [ { type := "chatTriggerNode", label := "On chat message",
      description := "Runs the flow when a user sends a chat message. For use with AI nodes.",
      initialData := [("nodeType", .str "chatTrigger")] },
    formTriggerEntry,
    { type := "webhookTriggerNode", label := "On webhook call",
      description := "Runs the flow on receiving an HTTP request.",
      initialData := [("nodeType", .str "webhookTrigger")] },
    { type := "scheduleTriggerNode", label := "On a schedule",
      description := "Runs the flow every day, hour, or custom interval.",
      initialData := [("nodeType", .str "scheduleTrigger")] },
    { type := "apiTriggerNode", label := "Trigger manually",
      description := "Runs the flow on clicking a button in n8n. Good for getting started quickly",
      initialData := [("nodeType", .str "manualTrigger")] },
    { type := "executedTriggerNode", label := "When executed by another workflow",
      description := "Runs the flow when called by the Execute Workflow node from a different workflow.",
      initialData := [("nodeType", .str "executedTrigger")] } ]

/-- The palette the editor renders (lines 327-334): the trigger palette when
the node list is empty and `showTriggerPalette` is set, the regular sidebar
otherwise. -/
inductive Palette where
  | triggerPalette
  | paletteSidebar
  deriving DecidableEq, Repr

/-- The ternary of lines 327-334. -/
def renderedPalette (st : EditorState) : Palette :=
  if st.nodes.length == 0 && st.showTriggerPalette then .triggerPalette else .paletteSidebar

/-- The `onClose` handler given to the trigger palette (line 328). -/
def closeTriggerPalette (st : EditorState) : EditorState :=
  { st with showTriggerPalette := false }

/-- The editor after it has mounted without a flow id: the initial values of
the state hooks, the canvas instance delivered. -/
def mountedEditor : EditorState :=
  { nodes := []
    edges := []
    selectedNode := none
    saveDialogOpen := false
    flowName := "Untitled Agentflow"
    flowId := .undefined
    isLocked := false
    isSaving := false
    showTriggerPalette := true
    toasts := []
    reactFlowInstance := true
    initialFlowId := .undefined
    isExecuting := false
    execModalOpen := false
    execResponse := .null
    execError := .null }

/-- One node addition: a trigger selection or a drop. -/
inductive AddOp where
  | select (trigger : TriggerEntry) (uuid : String)
  | drop (ev : DropEvent)
  deriving DecidableEq

/-- The handler an addition runs. -/
def applyAdd (op : AddOp) (st : EditorState) : EditorState :=
  match op with
  | .select t u => handleTriggerSelect t u st
  | .drop ev => onDrop ev st

/-- A sequence of additions, run in order. -/
def runAdds (ops : List AddOp) (st : EditorState) : EditorState :=
  ops.foldl (fun s op => applyAdd op s) st

/-- The two parts an addition builds its id from: the text of the node type
and the first 8 characters of the uuid it drew; `none` for a drop that cannot
build a node. -/
def addKey : AddOp → Option (String × String)
  | .select t u => some (t.type, jsSubstring u 0 8)
  | .drop ev =>
      match ev.transfer with
      | .json .null => none
      | .json v => some (toTemplateString (objGet (ownEntries v) "type"), jsSubstring ev.uuid 0 8)
      | _ => none

/-- The uuid an addition drew. -/
def addUuid : AddOp → String
  | .select _ u => u
  | .drop ev => ev.uuid

/-! ## Node update and save (FlowEditor.jsx, lines 144-149 and 229-251) -/

/-- The handler `onNodeUpdate(id, data)`. -/
def onNodeUpdate (id : String) (data : JObj) (st : EditorState) : EditorState :=
  { st with
    nodes := st.nodes.map (fun node => if node.id = id then { node with data := data } else node)
    selectedNode :=
      match st.selectedNode with
      | none => none
      | some sel => if sel.id = id then some { sel with data := data } else some sel }

/-- The body of a save request: `{ name, description, definition: { nodes,
edges } }`. -/
structure FlowData where
  name : String
  description : String
  nodes : List Node
  edges : List Edge
  deriving DecidableEq

/-- A request sent to the backend. -/
structure HttpRequest where
  method : String
  url : String
  body : FlowData
  deriving DecidableEq

/-- The request of `createWorkflow(workflowData)` (api.js, lines 102-105). -/
def createWorkflow (workflowData : FlowData) : HttpRequest :=
  { method := "POST", url := "/api/workflows", body := workflowData }

/-- The request of `updateWorkflow(workflowId, workflowData)` (api.js, lines
107-110). -/
def updateWorkflow (workflowId : JVal) (workflowData : FlowData) : HttpRequest :=
  { method := "PUT", url := "/api/workflows/" ++ toTemplateString workflowId,
    body := workflowData }

/-- The characters `String.prototype.trim` removes: white space and line
terminators. -/
def jsWhitespace (c : Char) : Bool :=
  c.toNat ∈ [0x9, 0xA, 0xB, 0xC, 0xD, 0x20, 0xA0, 0x1680, 0x2000, 0x2001, 0x2002, 0x2003,
    0x2004, 0x2005, 0x2006, 0x2007, 0x2008, 0x2009, 0x200A, 0x2028, 0x2029, 0x202F, 0x205F,
    0x3000, 0xFEFF]

/-- The test `!flowName.trim()`: the name is blank. -/
def isBlank (s : String) : Bool :=
  s.data.all jsWhitespace

/-- The body `handleSave` builds from the current state. -/
def saveBody (st : EditorState) : FlowData :=
  { name := st.flowName, description := "An agentic workflow.",
    nodes := st.nodes, edges := st.edges }

/-- A destructive toast. -/
def errorToast (title description : String) : Toast :=
  { title := title, description := description, variant := some "destructive" }

/-- The double quote character as a string. -/
def dquote : String :=
  String.singleton (Char.ofNat 34)

/-- The toast of a successful save, for the `name` field of the reply. -/
def savedToast (name : JVal) : Toast :=
  { title := "Flow Saved"
    description := "Flow " ++ dquote ++ toTemplateString name ++ dquote ++ " saved successfully."
    variant := none }

/-- The handler `handleSave()`, run to completion against a backend that
answers a request with the response data or rejects it with an error message.
The result is the final state and the requests issued, in order. -/
def handleSave (backend : HttpRequest → Except String JVal) (st : EditorState) :
    EditorState × List HttpRequest :=
  if isBlank st.flowName then
    ({ st with toasts := st.toasts ++ [errorToast "Error" "Flow name cannot be empty."] }, [])
  else
    let flowData := saveBody st
    let request :=
      if truthy st.flowId then updateWorkflow st.flowId flowData else createWorkflow flowData
    let failed (message : String) : EditorState :=
      { st with
        isSaving := false
        toasts := st.toasts ++ [errorToast "Error Saving Flow"
          (if message = "" then "An unknown error occurred." else message)] }
    match backend request with
    | .error message => (failed message, [request])
    | .ok result =>
        match getProp result "id" with
        | .error message => (failed message, [request])
        | .ok id =>
            match getProp result "name" with
            | .error message => (failed message, [request])
            | .ok name =>
                ({ st with
                   flowId := id
                   isSaving := false
                   saveDialogOpen := false
                   toasts := st.toasts ++ [savedToast name] }, [request])

/-! ## Node removal -/

/-- Modelled from the spec: the removal of a node is carried out by the canvas
library, which is not under src/; the editor only passes it `onNodesChange`
and `onEdgesChange`, and passes neither while the canvas is locked (lines
303-304).  The spec: `removeNode(id)` "removes the node and any edges
referencing it as source or target". -/
def removeNode (id : String) (st : EditorState) : EditorState :=
  if st.isLocked then st
  else
    { st with
      edges := st.edges.filter (fun e => !(e.source == id || e.target == id))
      nodes := st.nodes.filter (fun n => n.id != id) }

/-! ## More sample graphs -/

/-- The sample agent with two tool entries of the same name already in its
list. -/
def sampleAgentTwice : Node :=
  { sampleAgent with
    data := [("label", .str "AI Agent"), ("nodeType", .str "aiAgent"),
             ("tools", .arr [.obj [("name", .str "search_apis")],
                             .obj [("name", .str "search_apis")]])] }

/-- An editor holding the agent with the doubled tool entry and the sample
tool. -/
def sampleEditorTwice : EditorState :=
  { sampleEditor with nodes := [sampleAgentTwice, sampleTool] }

/-- A proposal that plugs the agent into a `tool` socket named on the tool
node, which is not an agent. -/
def sampleMisplacedConnection : Connection :=
  { source := some "aiAgentNode_1a2b3c4d"
    target := some "toolNode_9f8e7d6c"
    sourceHandle := some "output"
    targetHandle := some "tool" }

/-- A proposal whose target id names no node of the sample editor. -/
def sampleDanglingConnection : Connection :=
  { source := some "toolNode_9f8e7d6c"
    target := some "memoryNode_00000000"
    sourceHandle := some "output"
    targetHandle := some "input" }

/-- A proposal on the agent's `tool` socket whose source id names no node of
the sample editor. -/
def sampleSourcelessConnection : Connection :=
  { source := some "toolNode_00000000"
    target := some "aiAgentNode_1a2b3c4d"
    sourceHandle := some "output"
    targetHandle := some "tool" }

/-- Whether a run raised an exception. -/
def raised (r : Except String EditorState) : Bool :=
  match r with
  | .error _ => true
  | .ok _ => false

/-- Two nodes `A` and `B` joined by one edge `A -> B`, in an unlocked editor. -/
def sampleLinked : EditorState :=
  { sampleEditor with
    nodes := [{ sampleAgent with id := "A" }, { sampleTool with id := "B" }]
    edges := [{ id := "reactflow__edge-Aoutput-Binput", source := "A", target := "B",
                sourceHandle := some "output", targetHandle := some "input",
                type := "smoothstep", animated := true,
                style := { stroke := "#555", strokeDasharray := none } }] }

/-- A drop of the palette entry of the tool `search_apis`: the payload
`DraggableNode.onDragStart` serialises, parsed. -/
def sampleToolDrop : DropEvent :=
  { transfer := .json (.obj [("type", .str "toolNode"), ("label", .str "Search Apis"),
                             ("description", .str "Searches the API catalogue."),
                             ("nodeType", .str "tool"), ("name", .str "search_apis")])
    position := { x := 100, y := 300 }
    uuid := "9f8e7d6c-1111-4222-8333-444444444444" }

/-- A second drop of the same palette entry; its uuid differs from the first
one after the eighth character. -/
def sampleToolDropAgain : DropEvent :=
  { sampleToolDrop with
    position := { x := 180, y := 340 }
    uuid := "9f8e7d6c-5555-4666-8777-888888888888" }

/-- The text an id is built from: type text, underscore, uuid head. -/
def keyId (key : String × String) : String :=
  key.1 ++ "_" ++ key.2

/-- The invariant of a run of additions: node ids are pairwise distinct and
each is built from one of the keys drawn so far, with a uuid head of 8
characters. -/
def IdsFromKeys (keys : List (String × String)) (st : EditorState) : Prop :=
  (st.nodes.map (fun n => n.id)).Nodup ∧
  ∀ n ∈ st.nodes, ∃ key ∈ keys, key.2.length = 8 ∧ n.id = keyId key

/-- A backend that stores nothing and answers every request with the flow id
`wf-42`. -/
def sampleBackend (_ : HttpRequest) : Except String JVal :=
  .ok (.obj [("id", .str "wf-42"), ("name", .str "Untitled Agentflow")])

/-- A run of additions: the form trigger is selected, then the sample tool is
dropped. -/
def sampleAdds : List AddOp :=
  [.select formTriggerEntry "0a1b2c3d-1111-4222-8333-444444444444", .drop sampleToolDrop]

/-- A run of additions: the sample tool is dropped twice, under two uuids with
the same first 8 characters. -/
def sampleAddsClash : List AddOp :=
  [.drop sampleToolDrop, .drop sampleToolDropAgain]

/-! ## Loading a flow (FlowEditor.jsx, lines 78-138) -/

/-- The `definition` of a fetched flow; `none` stands for a field that is
missing or falsy, which `|| []` turns into the empty list. -/
structure FlowDefinition where
  nodes : Option (List Node)
  edges : Option (List Edge)
  deriving DecidableEq

/-- The data of a fetched flow; `definition` is `none` when the reply has no
(truthy) definition. -/
structure FlowDetails where
  id : JVal
  name : String
  definition : Option FlowDefinition
  deriving DecidableEq

/-- How `await fetchWorkflowDetails(id)` ends: it rejects with an error message,
resolves with a falsy value, or resolves with flow data. -/
inductive FetchResult where
  | rejected (message : String)
  | nothing
  | details (flowData : FlowDetails)
  deriving DecidableEq

/-- The callback of `processedNodes`: the node with `onNodeClick` and
`onSettingsClick` set in its data. -/
def processNode (node : Node) : Node :=
  { node with
    data := objSet (objSet (objSpread [] node.data) "onNodeClick" (.fn "onNodeClick"))
              "onSettingsClick" (.fn "onSettingsClick") }

/-- The `catch` and `finally` branches of `loadFlow`. -/
def loadFailed (message : String) (st : EditorState) : EditorState :=
  { st with
    nodes := []
    edges := []
    flowId := .null
    flowName := "Untitled Agentflow"
    showTriggerPalette := true
    isSaving := false
    toasts := st.toasts ++
      [errorToast "Error" (if message = "" then "Failed to load flow." else message)] }

/-- The toast of a successful load. -/
def loadedToast (name : String) : Toast :=
  { title := "Flow Loaded"
    description := "Flow " ++ dquote ++ name ++ dquote ++ " loaded successfully."
    variant := none }

/-- The handler `loadFlow(id)`, run to completion against the outcome of the
fetch. -/
def loadFlow (id : JVal) (fetched : FetchResult) (st : EditorState) : EditorState :=
  if !truthy id then st
  else
    let notFound : String :=
      "Flow with ID " ++ toTemplateString id ++ " not found or has an invalid format."
    match fetched with
    | .rejected message => loadFailed message st
    | .nothing => loadFailed notFound st
    | .details flowData =>
        match flowData.definition with
        | none => loadFailed notFound st
        | some definition =>
            { st with
              flowName := flowData.name
              flowId := flowData.id
              nodes := (definition.nodes.getD []).map processNode
              edges := definition.edges.getD []
              showTriggerPalette := false
              isSaving := false
              toasts := st.toasts ++ [loadedToast flowData.name] }

/-- The effect on `[nodes.length, initialFlowId]` (lines 132-138), which runs
after a render in which the node count or the prop has changed. -/
def paletteEffect (st : EditorState) : EditorState :=
  if st.nodes.length > 0 then { st with showTriggerPalette := false }
  else if !truthy st.initialFlowId then { st with showTriggerPalette := true }
  else st

/-- Modelled from the spec: the body of a save request goes over the wire as
JSON, so what the backend receives of a node is its JSON form: a type that is
`undefined` is left out and the data is the deep copy without functions. -/
def wireNode (n : Node) : Node :=
  { n with type := cloneTop n.type, data := jsonCloneFields n.data }

/-- Modelled from the spec: a backend "that stores the definition it is given
and returns it unchanged", answering the fetch of flow `id` after the save
request `req`. -/
def storedDetails (id : JVal) (req : HttpRequest) : FetchResult :=
  .details { id := id
             name := req.body.name
             definition := some { nodes := some (req.body.nodes.map wireNode)
                                  edges := some req.body.edges } }

/-- A save as an update followed by a load of the same id, against the storing
backend: the node and edge lists of the editor afterwards. -/
def saveThenLoad (backend : HttpRequest → Except String JVal) (st : EditorState) :
    List Node × List Edge :=
  match handleSave backend st with
  | (st1, [req]) =>
      ((loadFlow st.flowId (storedDetails st.flowId req) st1).nodes,
       (loadFlow st.flowId (storedDetails st.flowId req) st1).edges)
  | (st1, _) => (st1.nodes, st1.edges)

/-! ## Executing a flow (FlowEditor.jsx, lines 253-272; ExecuteWorkflowModal.jsx,
lines 13-47) -/

/-- The JavaScript expression `a || b`. -/
def jsOr (a b : JVal) : JVal :=
  if truthy a then a else b

/-- A rejected execute request: `error.response?.data?.detail` (`undefined`
when a link is missing) and `error.message`. -/
structure RequestError where
  detail : JVal
  message : JVal
  deriving DecidableEq

/-- How `await executeWorkflow(flowId, inputData)` ends. -/
inductive ExecOutcome where
  | resolved (result : JVal)
  | rejected (error : RequestError)
  deriving DecidableEq

/-- The handler `handleExecute(inputData)`, run to completion against the
outcome of the request. -/
def handleExecute (outcome : ExecOutcome) (st : EditorState) : EditorState :=
  if !truthy st.flowId then
    { st with toasts := st.toasts ++
        [errorToast "Error" "Please save the flow before executing."] }
  else
    match outcome with
    | .resolved result =>
        { st with
          isExecuting := false
          execResponse := result
          execError := .null
          toasts := st.toasts ++ [{ title := "Execution Successful"
                                    description := "Workflow finished running."
                                    variant := none }] }
    | .rejected error =>
        { st with
          isExecuting := false
          execResponse := .null
          execError := jsOr error.detail error.message
          toasts := st.toasts ++
            [errorToast "Execution Failed" "Check the execution modal for details."] }

/-- An entry of the modal's chat history. -/
structure ChatEntry where
  type : String
  content : String
  deriving DecidableEq, Repr

/-- Property read on a value that is known to be truthy, so that the read
cannot raise. -/
def readProp (v : JVal) (k : String) : JVal :=
  match getProp v k with
  | .ok x => x
  | .error _ => .undefined

/-- The state update of the `response` branch of the modal effect (lines
25-36). -/
def responseEntries (response : JVal) : List ChatEntry :=
  if truthy response then
    match jsOr (readProp response "result") (readProp response "answer") with
    | .str agentMessage =>
        if agentMessage ≠ "" then [{ type := "ai", content := agentMessage }] else []
    | _ => []
  else []

/-- The state update of the `error` branch of the modal effect (lines 39-46). -/
def errorEntries (error : JVal) : List ChatEntry :=
  if truthy error then
    let errorMessage :=
      jsOr (readProp error "detail")
        (match error with
          | .str s => .str s
          | _ => .str "An unknown error occurred.")
    [{ type := "ai", content := "⚠️ Error: " ++ toTemplateString errorMessage }]
  else []

/-- The effect of `ExecuteWorkflowModal` on `[response, error]`, as a function
of the chat history. -/
def modalEffect (response error : JVal) (chatHistory : List ChatEntry) : List ChatEntry :=
  (chatHistory ++ responseEntries response) ++ errorEntries error

/-- The chat history the modal shows when it opens. -/
def initialChatHistory : List ChatEntry :=
  [{ type := "ai", content := "👋 Hi! What would you like me to do?" }]

/-- An editor opened on the stored flow `wf-42`, holding one trigger node,
as `loadFlow` leaves it. -/
def sampleOpenedEditor : EditorState :=
  { sampleEditor with
    nodes := [triggerNode formTriggerEntry "0a1b2c3d-1111-4222-8333-444444444444"]
    flowId := .str "wf-42"
    initialFlowId := .str "wf-42"
    showTriggerPalette := false }

/-- A reply of the execute endpoint that carries a structured `result` next to
a textual `answer`. -/
def sampleStructuredResponse : JVal :=
  .obj [("result", .obj [("rows", .num 3)]), ("answer", .str "Done.")]

/-- A rejected execute request whose `detail` is a list of validation errors. -/
def sampleValidationError : RequestError :=
  { detail := .arr [.obj [("loc", .arr [.str "body", .str "input_data"]),
                          ("msg", .str "field required")]]
    message := .str "Request failed with status code 422" }

/-- A rejected execute request whose `detail` is a sentence. -/
def sampleNotFoundError : RequestError :=
  { detail := .str "Flow not found"
    message := .str "Request failed with status code 404" }

/-- The sample editor, saved as `wf-42`, after the sample tool has been plugged
into the agent. -/
def sampleConnectedEditor : EditorState :=
  match onConnect sampleToolConnection { sampleEditor with flowId := .str "wf-42" } with
  | .ok st => st
  | .error _ => sampleEditor

/-- The opened sample editor after the field `email` has been added to its
form trigger. -/
def sampleFormEditor : EditorState :=
  onNodeUpdate "formTriggerNode_0a1b2c3d"
    (objSet (triggerNode formTriggerEntry "0a1b2c3d-1111-4222-8333-444444444444").data
      "formElements"
      (.arr [.obj [("name", .str "email"), ("label", .str "Email"), ("type", .str "email"),
                   ("required", .bool true)]]))
    sampleOpenedEditor

/-- The data of the first node of a list under a key. -/
def firstNodeField (nodes : List Node) (key : String) : JVal :=
  match nodes with
  | [] => .undefined
  | n :: _ => objGet n.data key

/-! ## Chat components (ChatInterface.jsx, ChatInterface2.jsx,
SuperAgentBuilder_1.jsx) -/

/-- The call `s.toLowerCase()` on a string of ASCII characters: the letters
`A` to `Z` are lowered and every other character is kept.  It is also the case
folding of a regular expression with the flag `i` and without the flag `u`,
which never identifies a non-ASCII character with an ASCII one. -/
def asciiLower (s : String) : String :=
  ⟨s.data.map Char.toLower⟩

/-- The case conversion of the JavaScript engine: `toLowerCase s` is the value
of `s.toLowerCase()`.  The Unicode tables it follows belong to the engine and
not to the repository, so the conversion is a parameter of the model; the
empty string has no character to convert. -/
structure Engine where
  toLowerCase : String → String
  lower_empty : toLowerCase "" = ""

/-- An engine for the samples, whose strings are ASCII. -/
def asciiEngine : Engine :=
  { toLowerCase := asciiLower, lower_empty := rfl }

/-- The `readyState` of a WebSocket. -/
inductive ReadyState where
  | CONNECTING
  | OPEN
  | CLOSING
  | CLOSED
  deriving DecidableEq, Repr

/-- A WebSocket a component has created. -/
structure Socket where
  url : String
  readyState : ReadyState
  deriving DecidableEq, Repr

/-- The number of sockets that are connecting or open. -/
def liveSockets (sockets : List Socket) : Nat :=
  sockets.countP (fun s => s.readyState = .CONNECTING ∨ s.readyState = .OPEN)

/-- A transcript message, without its timestamp. -/
structure Message where
  role : String
  content : JVal
  deriving DecidableEq

/-- An inbound frame: `event.data` and the value `JSON.parse(event.data)`,
`none` when the parse raises. -/
structure Frame where
  data : String
  parsed : Option JVal
  deriving DecidableEq

/-- What a handler sends out: a frame on the socket with the given index, or
an HTTP POST. -/
inductive Outbound where
  | frame (socket : Nat) (text : String)
  | post (url : String) (payload : JObj)
  deriving DecidableEq

/-- The state of a chat component: its React state, every socket it has
created (oldest first) and `ws.current` as an index into them. -/
structure ChatState where
  messages : List Message
  input : String
  isLoading : Bool
  conversationStarted : Bool
  sessionId : JVal
  isInteractiveSession : Bool
  sockets : List Socket
  ws : Option Nat
  deriving DecidableEq

/-- What a chat component takes from its props and from the auth context. -/
structure ChatProps where
  token : JVal
  isAuthenticated : Bool
  agentId : JVal
  deriving DecidableEq

/-- The test `ws.current && ws.current.readyState === WebSocket.OPEN`. -/
def currentOpen (sockets : List Socket) (ws : Option Nat) : Bool :=
  match ws with
  | none => false
  | some i =>
      match sockets.get? i with
      | some s => s.readyState = .OPEN
      | none => false

/-- The expression `parsed.sender?.toLowerCase() || "assistant"`; `none` when
it raises a `TypeError` (`parsed` is `null`, or `sender` has no
`toLowerCase`). -/
def senderRole (E : Engine) (parsed : JVal) : Option String :=
  match getProp parsed "sender" with
  | .error _ => none
  | .ok .undefined => some "assistant"
  | .ok .null => some "assistant"
  | .ok (.str s) => some (if E.toLowerCase s = "" then "assistant" else E.toLowerCase s)
  | .ok _ => none

/-- The message of the `catch` branch of `onmessage`. -/
def rawMessage (data : String) : Message :=
  { role := "assistant", content := .obj [("type", .str "answer"), ("text", .str data)] }

/-- The message `ws.onclose` appends. -/
def sessionEndedMessage : Message :=
  { role := "system", content := .obj [("text", .str "The interactive session has ended.")] }

/-- The message `ws.onerror` appends. -/
def connectionLostMessage : Message :=
  { role := "assistant"
    content := .obj [("text", .str "Sorry, I lost connection with my team. Please try again.")] }

namespace ChatInterface

/-- The constant `WS_BASE_URL`. -/
def WS_BASE_URL : String := "ws://localhost:8000/ws"

/-- The constant `API_ASK_URL`. -/
def API_ASK_URL : String := "http://localhost:8000/api/ask"

/-- The constant `API_RAG_URL`. -/
def API_RAG_URL : String := "http://localhost:8000/api/rag"

/-- The function `connectWebSocket(newSessionId)` (lines 66-71; the same code
is at ChatInterface2.jsx, lines 77-91). -/
def connectWebSocket (props : ChatProps) (newSessionId : JVal) (st : ChatState) : ChatState :=
  if !truthy props.token then st
  else if currentOpen st.sockets st.ws then st
  else
    { st with
      sockets := st.sockets ++
        [{ url := WS_BASE_URL ++ "?session_id=" ++ toTemplateString newSessionId ++
                  "&token=" ++ toTemplateString props.token
           readyState := .CONNECTING }]
      ws := some st.sockets.length }

/-- The message `ws.onmessage` builds (lines 79-93). -/
def inboundMessage (E : Engine) (frame : Frame) : Message :=
  match frame.parsed with
  | none => rawMessage frame.data
  | some parsed =>
      match senderRole E parsed with
      | none => rawMessage frame.data
      | some role =>
          { role := role
            content := .obj [("type", .str "answer"),
                             ("text", jsOr (readProp parsed "text") (.str frame.data))] }

/-- The handler `ws.onmessage` (lines 78-96). -/
def onMessage (E : Engine) (frame : Frame) (st : ChatState) : ChatState :=
  { st with messages := st.messages ++ [inboundMessage E frame], isLoading := false }

/-- The handler `ws.onclose` (lines 98-107). -/
def onClose (st : ChatState) : ChatState :=
  { st with
    isInteractiveSession := false
    isLoading := false
    messages := st.messages ++ [sessionEndedMessage] }

/-- The handler `ws.onerror` (lines 109-117). -/
def onError (st : ChatState) : ChatState :=
  { st with isLoading := false, messages := st.messages ++ [connectionLostMessage] }

/-- The handler `handleSendMessage(query)` up to the frame or request it sends
(lines 121-151); the reply to a request is handled after the `await`. -/
def handleSendMessage (props : ChatProps) (query : String) (st : ChatState) :
    ChatState × List Outbound :=
  if isBlank query || !props.isAuthenticated then (st, [])
  else
    let st1 : ChatState :=
      { st with
        conversationStarted := true
        messages := st.messages ++ [{ role := "user", content := .obj [("text", .str query)] }]
        input := "" }
    if st.isInteractiveSession && currentOpen st.sockets st.ws then
      (st1, [.frame (st.ws.getD 0) query])
    else
      ({ st1 with isLoading := true },
        [.post (if truthy props.agentId then API_ASK_URL else API_RAG_URL)
          [("query", .str query), ("lang", .str "en"), ("agent_id", props.agentId)]])

end ChatInterface

namespace ChatInterface2

/-- The message `ws.onmessage` builds (ChatInterface2.jsx, lines 101-130). -/
def inboundMessage (E : Engine) (frame : Frame) : Message :=
  match frame.parsed with
  | none => rawMessage frame.data
  | some parsed =>
      match senderRole E parsed with
      | none => rawMessage frame.data
      | some role =>
          if strictEq (readProp parsed "type") (.str "final_answer") ||
              strictEq (readProp parsed "type") (.str "agent_message") then
            { role := role
              content := .obj [("type", .str "answer"),
                               ("text", jsOr (readProp parsed "text") (.str "")),
                               ("citations", jsOr (readProp parsed "citations") (.arr [])),
                               ("follow_ups", jsOr (readProp parsed "follow_ups") (.arr []))] }
          else
            { role := role
              content := .obj [("type", .str "answer"),
                               ("text", jsOr (readProp parsed "text") (.str frame.data))] }

/-- The handler `ws.onmessage` (ChatInterface2.jsx, lines 99-136). -/
def onMessage (E : Engine) (frame : Frame) (st : ChatState) : ChatState :=
  { st with messages := st.messages ++ [inboundMessage E frame], isLoading := false }

/-- The handler `ws.onclose` (ChatInterface2.jsx, lines 138-148). -/
def onClose (st : ChatState) : ChatState :=
  { st with
    isInteractiveSession := false
    isLoading := false
    messages := st.messages ++ [sessionEndedMessage] }

/-- The handler `ws.onerror` (ChatInterface2.jsx, lines 150-159). -/
def onError (st : ChatState) : ChatState :=
  { st with isLoading := false, messages := st.messages ++ [connectionLostMessage] }

end ChatInterface2

namespace SuperAgentBuilder

/-- A message of the builder's chat history. -/
structure BuilderMessage where
  sender : JVal
  content : JVal
  role : String
  deriving DecidableEq

/-- The state of the builder that its socket handlers touch. -/
structure BuilderState where
  chatHistory : List BuilderMessage
  userInput : String
  isLoading : Bool
  isRunning : Bool
  alerts : List String
  sockets : List Socket
  ws : Option Nat
  deriving DecidableEq

/-- The function `connectWebSocket(newSessionId)` up to the point where the
handlers are attached (SuperAgentBuilder_1.jsx, lines 297-306), for the
outcome of `getWebSocketUrl(newSessionId)`: the url, or the message of the
error it throws. -/
def connectWebSocket (url : Except String String) (st : BuilderState) : BuilderState :=
  match url with
  | .error message =>
      { st with
        alerts := st.alerts ++ ["Authentication error: " ++ message]
        isLoading := false
        isRunning := false }
  | .ok u =>
      { st with
        sockets := st.sockets ++ [{ url := u, readyState := .CONNECTING }]
        ws := some st.sockets.length }

/-- The handler `handleUserReply()` (SuperAgentBuilder_1.jsx, lines 321-327). -/
def handleUserReply (st : BuilderState) : BuilderState × List Outbound :=
  if isBlank st.userInput || !currentOpen st.sockets st.ws then (st, [])
  else
    ({ st with
       chatHistory := st.chatHistory ++
         [{ sender := .str "UserProxy", content := .str st.userInput, role := "user" }]
       userInput := "" },
     [.frame (st.ws.getD 0) st.userInput])

end SuperAgentBuilder

/-- A chat whose interactive session is being set up: one socket, still
connecting. -/
def sampleConnectingChat : ChatState :=
  { messages := []
    input := "hello"
    isLoading := false
    conversationStarted := true
    sessionId := .str "s-1"
    isInteractiveSession := false
    sockets := [{ url := "ws://localhost:8000/ws?session_id=s-1&token=t0", readyState := .CONNECTING }]
    ws := some 0 }

/-- The props of a signed-in chat without an agent. -/
def sampleChatProps : ChatProps :=
  { token := .str "t0", isAuthenticated := true, agentId := .null }

/-- A builder whose agent team is running: one socket, open. -/
def sampleRunningBuilder : SuperAgentBuilder.BuilderState :=
  { chatHistory := []
    userInput := ""
    isLoading := false
    isRunning := false
    alerts := []
    sockets := [{ url := "ws://localhost:8000/ws?session_id=s-1&token=t0", readyState := .OPEN }]
    ws := some 0 }

/-- The text of a transcript message: `content.text`. -/
def messageText (m : Message) : JVal :=
  readProp m.content "text"

/-- A frame of the agent team: `{"sender": "Planner", "text": "Step 1"}`. -/
def samplePlannerFrame : Frame :=
  { data := "\x7b" ++ dquote ++ "sender" ++ dquote ++ ": " ++ dquote ++ "Planner" ++ dquote ++
            ", " ++ dquote ++ "text" ++ dquote ++ ": " ++ dquote ++ "Step 1" ++ dquote ++ "\x7d"
    parsed := some (.obj [("sender", .str "Planner"), ("text", .str "Step 1")]) }

/-- A frame that is not JSON. -/
def samplePlainFrame : Frame :=
  { data := "pong", parsed := none }

/-- A frame with an empty sender: `{"sender": "", "text": "Step 1"}`. -/
def sampleNoSenderFrame : Frame :=
  { data := "\x7b" ++ dquote ++ "sender" ++ dquote ++ ": " ++ dquote ++ dquote ++
            ", " ++ dquote ++ "text" ++ dquote ++ ": " ++ dquote ++ "Step 1" ++ dquote ++ "\x7d"
    parsed := some (.obj [("sender", .str ""), ("text", .str "Step 1")]) }

/-- A frame with an empty text: `{"sender": "Planner", "text": ""}`. -/
def sampleNoTextFrame : Frame :=
  { data := "\x7b" ++ dquote ++ "sender" ++ dquote ++ ": " ++ dquote ++ "Planner" ++ dquote ++
            ", " ++ dquote ++ "text" ++ dquote ++ ": " ++ dquote ++ dquote ++ "\x7d"
    parsed := some (.obj [("sender", .str "Planner"), ("text", .str "")]) }

/-- Whether a parsed frame has `type === "final_answer"` or
`type === "agent_message"`. -/
def isAnswerFrame (parsed : JVal) : Bool :=
  strictEq (readProp parsed "type") (.str "final_answer") ||
    strictEq (readProp parsed "type") (.str "agent_message")

/-! ## Palette search (TriggerPalette.jsx, lines 86-92; PaletteSidebar.jsx,
lines 74-163) -/

/-- Whether a list of characters occurs in another as a contiguous run. -/
def includesChars : List Char → List Char → Bool
  | [], sub => sub.isPrefixOf []
  | c :: cs, sub => sub.isPrefixOf (c :: cs) || includesChars cs sub

/-- The call `s.includes(sub)`. -/
def jsIncludes (s sub : String) : Bool :=
  includesChars s.data sub.data

/-- An entry of the regular palette.  The description of a static entry is a
string; the description of a dynamic tool is whatever the backend sent as
`tool.description`. -/
structure PaletteEntry where
  type : String
  label : String
  description : JVal
  initialData : JObj
  deriving DecidableEq

/-- The callback of the trigger filter: the lower-cased label or the
lower-cased description includes the lower-cased search term. -/
def matchesSearch (E : Engine) (searchTerm : String) (entry : TriggerEntry) : Bool :=
  jsIncludes (E.toLowerCase entry.label) (E.toLowerCase searchTerm) ||
    jsIncludes (E.toLowerCase entry.description) (E.toLowerCase searchTerm)

/-- The callback of the node filter of `PaletteSidebar.jsx`: the description
is read only when the label does not match, and a description that is not a
string has no `toLowerCase`, which raises. -/
def matchesNode (E : Engine) (searchTerm : String) (node : PaletteEntry) :
    Except String Bool :=
  if jsIncludes (E.toLowerCase node.label) (E.toLowerCase searchTerm) then .ok true
  else
    match node.description with
    | .str d => .ok (jsIncludes (E.toLowerCase d) (E.toLowerCase searchTerm))
    | _ => .error "TypeError: node.description.toLowerCase is not a function"

/-- The call `cat.nodes.filter(node => ...)` with the callback `matchesNode`:
the first exception ends the traversal. -/
def filterNodes (E : Engine) (searchTerm : String) :
    List PaletteEntry → Except String (List PaletteEntry)
  | [] => .ok []
  | node :: rest =>
      match matchesNode E searchTerm node with
      | .error e => .error e
      | .ok keep =>
          match filterNodes E searchTerm rest with
          | .error e => .error e
          | .ok kept => .ok (if keep then node :: kept else kept)

/-- A category of the trigger palette. -/
structure TriggerCategory where
  category : String
  triggers : List TriggerEntry
  deriving DecidableEq

/-- A section of the regular palette; `sectionTitle` is the field `section`. -/
structure PaletteSection where
  category : String
  sectionTitle : String
  nodes : List PaletteEntry
  deriving DecidableEq

/-- The constant `triggerNodes` of `TriggerPalette.jsx`. -/
def triggerNodes : List TriggerCategory :=
  [{ category := "General", triggers := triggerCatalog }]

/-- The value `filteredTriggers` of `TriggerPalette.jsx`. -/
def filteredTriggers (E : Engine) (searchTerm : String) (cats : List TriggerCategory) :
    List TriggerCategory :=
  (cats.map (fun cat =>
      { cat with triggers := cat.triggers.filter (matchesSearch E searchTerm) })).filter
    (fun cat => cat.triggers.length > 0)

/-- The constant `paletteNodes` of `PaletteSidebar.jsx`, for the tools passed
in as a prop. -/
def paletteNodes (dynamicTools : List PaletteEntry) : List PaletteSection :=
  [ { category := "LangChain"
      sectionTitle := "Agents"
      nodes := [{ type := "aiAgentNode"
                  label := "AI Agent"
                  description := .str "Configurable agent that uses a model, memory, and tools."
                  initialData := [("nodeType", .str "aiAgent"), ("label", .str "AI Agent"),
                    ("systemMessage", .str "You are a helpful AI assistant."),
                    ("chatModel", .null), ("memory", .null), ("tools", .arr [])] }] },
    { category := "LangChain"
      sectionTitle := "Chat Models"
      nodes := [{ type := "chatModelNode"
                  label := "Google Gemini"
                  description := .str "Connect to Google Gemini models."
                  initialData := [("nodeType", .str "chatModel"),
                    ("label", .str "Google Gemini"), ("provider", .str "Google Gemini"),
                    ("model_name", .str "gemini-1.5-pro-latest"), ("credentials_id", .null)] },
                { type := "chatModelNode"
                  label := "OpenAI Chat"
                  description := .str "Connect to OpenAI GPT models."
                  initialData := [("nodeType", .str "chatModel"),
                    ("label", .str "OpenAI Chat"), ("provider", .str "OpenAI"),
                    ("model_name", .str "gpt-4o"), ("credentials_id", .null)] }] },
    { category := "LangChain"
      sectionTitle := "Memory"
      nodes := [{ type := "memoryNode"
                  label := "Conversation Memory"
                  description := .str "Remembers the last few messages in a conversation."
                  initialData := [("nodeType", .str "memory"),
                    ("label", .str "Conversation Memory"),
                    ("memory_type", .str "ConversationBufferWindowMemory"),
                    ("k", .num 5)] }] },
    { category := "LangChain"
      sectionTitle := "Tools"
      nodes := dynamicTools } ]

/-- The call `.map(cat => ({ ...cat, nodes: cat.nodes.filter(...) }))` of
`filteredPaletteNodes`. -/
def searchSections (E : Engine) (searchTerm : String) :
    List PaletteSection → Except String (List PaletteSection)
  | [] => .ok []
  | cat :: rest =>
      match filterNodes E searchTerm cat.nodes with
      | .error e => .error e
      | .ok nodes =>
          match searchSections E searchTerm rest with
          | .error e => .error e
          | .ok cats => .ok ({ cat with nodes := nodes } :: cats)

/-- The value `filteredPaletteNodes` of `PaletteSidebar.jsx`, or the
exception its callback raises. -/
def filteredPaletteNodes (E : Engine) (activeCategory searchTerm : String)
    (sections : List PaletteSection) : Except String (List PaletteSection) :=
  match searchSections E searchTerm
      (sections.filter (fun cat => cat.category == activeCategory)) with
  | .error e => .error e
  | .ok cats => .ok (cats.filter (fun cat => cat.nodes.length > 0 || cat.sectionTitle == "Tools"))

/-- The sections a filter returned, when it raised nothing. -/
def sectionsShown (r : Except String (List PaletteSection)) : Option (List PaletteSection) :=
  match r with
  | .ok cats => some cats
  | .error _ => none

/-- A character of the class `\w`. -/
def isWordChar (c : Char) : Bool :=
  c.isAlphanum || c = '_'

/-- The call `s.replace(/\b\w/g, l => l.toUpperCase())`: the first character
of every run of word characters is raised; `prev` says that the character
before the list is a word character. -/
def capitalizeWords : List Char → Bool → List Char
  | [], _ => []
  | c :: rest, prev =>
      (if !prev && isWordChar c then c.toUpper else c) :: capitalizeWords rest (isWordChar c)

/-- The label of a dynamic tool:
`tool.name.replace(/_/g, ' ').replace(/\b\w/g, l => l.toUpperCase())`. -/
def toolLabel (name : String) : String :=
  ⟨capitalizeWords (name.data.map (fun c => if c = '_' then ' ' else c)) false⟩

/-- The callback of `fetchedTools.map` in `refreshToolsForPalette`
(FlowEditor.jsx, lines 56-62); a tool without a string `name` raises. -/
def paletteTool (tool : JVal) : Except String PaletteEntry :=
  match tool with
  | .obj fields =>
      match objGet fields "name" with
      | .str name =>
          .ok { type := "toolNode"
                label := toolLabel name
                description := objGet fields "description"
                initialData := objSpread [("nodeType", .str "tool")] fields }
      | _ => .error "TypeError: tool.name.replace is not a function"
  | _ => .error "TypeError: Cannot read properties of undefined (reading replace)"

/-- The list `refreshToolsForPalette` hands to `setDynamicTools` for the
tools the backend returned, when the mapping raises nothing. -/
def refreshToolsForPalette : List JVal → Option (List PaletteEntry)
  | [] => some []
  | tool :: rest =>
      match paletteTool tool with
      | .error _ => none
      | .ok entry =>
          match refreshToolsForPalette rest with
          | none => none
          | some entries => some (entry :: entries)

/-- In the words of the spec: `lowercase(text)` contains `lowercase(s)`. -/
def containsLowered (E : Engine) (s text : String) : Bool :=
  decide ((E.toLowerCase s).data <:+: (E.toLowerCase text).data)

/-- In the words of the spec: an entry is kept when its lower-cased label or
its lower-cased description contains the lower-cased search term. -/
def keptBySearch (E : Engine) (s label : String) (description : JVal) : Bool :=
  containsLowered E s label ||
    (match description with
      | .str d => containsLowered E s d
      | _ => false)

/-- A tool as the backend lists it when it was stored without a description. -/
def sampleBareTool : JVal :=
  .obj [("name", .str "search_apis"), ("endpoint", .str "https://example.com/search")]

/-- The entries of a list of trigger categories, in order. -/
def allTriggers (cats : List TriggerCategory) : List TriggerEntry :=
  (cats.map (fun cat => cat.triggers)).flatten

/-- The entries of a list of palette sections, in order. -/
def allNodes (sections : List PaletteSection) : List PaletteEntry :=
  (sections.map (fun cat => cat.nodes)).flatten

/-! ## WebSocket url (api.js, lines 227-235; api/chat.js, lines 10-18) -/

/-- The call `s.startsWith(p)`. -/
def jsStartsWith (s p : String) : Bool :=
  p.data.isPrefixOf s.data

/-- The expression `API_BASE_URL.startsWith('https') ? 'wss' : 'ws'`. -/
def wsProtocol (API_BASE_URL : String) : String :=
  if jsStartsWith API_BASE_URL "https" then "wss" else "ws"

/-- The call `s.replace(/^(http|https):\/\//, '')`: a leading `http://` or
`https://` is removed. -/
def stripProtocol (s : String) : String :=
  if jsStartsWith s "http://" then ⟨s.data.drop 7⟩
  else if jsStartsWith s "https://" then ⟨s.data.drop 8⟩
  else s

/-- The call `s.split('//')` on the characters of `s`, read left to right:
`pending` says that the character just read was a slash not yet placed, `cur`
is the segment read so far (reversed). -/
def splitDoubleSlash : List Char → Bool → List Char → List (List Char)
  | [], pending, cur => [(if pending then '/' :: cur else cur).reverse]
  | c :: rest, pending, cur =>
      if pending then
        if c = '/' then cur.reverse :: splitDoubleSlash rest false []
        else splitDoubleSlash rest false (c :: '/' :: cur)
      else if c = '/' then splitDoubleSlash rest true cur
      else splitDoubleSlash rest false (c :: cur)

/-- The text a template literal inserts for `s.split('//')[1]`: the second
segment, or `undefined` when there is none. -/
def secondSegment (s : String) : String :=
  match (splitDoubleSlash s.data false []).get? 1 with
  | some seg => ⟨seg⟩
  | none => "undefined"

/-- Whether a list of characters holds two slashes in a row; `prev` says that
the character before the list is a slash. -/
def hasDoubleSlash : List Char → Bool → Bool
  | [], _ => false
  | c :: rest, prev => (prev && decide (c = '/')) || hasDoubleSlash rest (decide (c = '/'))

namespace Api

/-- The function `getWebSocketUrl(sessionId)` of api.js, for the constant
`API_BASE_URL` and the value of `localStorage.getItem('authToken')` (`none` is
`null`); `.error` carries the message of the error it throws. -/
def getWebSocketUrl (API_BASE_URL : String) (token : Option String) (sessionId : JVal) :
    Except String String :=
  match token with
  | none => .error "Authentication token not found for an interactive session."
  | some t =>
      if t = "" ∨ t = "undefined" then
        .error "Authentication token not found for an interactive session."
      else
        .ok (wsProtocol API_BASE_URL ++ "://" ++ stripProtocol API_BASE_URL ++
          "/ws?session_id=" ++ toTemplateString sessionId ++ "&token=" ++ t)

end Api

namespace ApiChat

/-- The function `getWebSocketUrl(sessionId)` of api/chat.js, for the constant
`API_BASE_URL` and the value of `localStorage.getItem('authToken')`. -/
def getWebSocketUrl (API_BASE_URL : String) (token : Option String) (sessionId : JVal) :
    Except String String :=
  match token with
  | none => .error "No valid token found. Please log in again."
  | some t =>
      if t = "" then .error "No valid token found. Please log in again."
      else
        .ok ((wsProtocol API_BASE_URL ++ "://" ++ secondSegment API_BASE_URL) ++
          "/ws?session_id=" ++ toTemplateString sessionId ++ "&token=" ++ t)

end ApiChat

/-- The url a call returned, when it threw nothing. -/
def returnedUrl (r : Except String String) : Option String :=
  match r with
  | .ok u => some u
  | .error _ => none

/-! ## Tool parameters (TaskManager.jsx, lines 11-86; the same handlers are
repeated in SuperAgentBuilder_1.jsx, lines 93-144) -/

/-- The `params_schema` of a tool: `properties` maps a parameter name to its
`{type, description}` object, `required` lists parameter names. -/
structure ParamsSchema where
  type : String
  properties : JObj
  required : List String
  deriving DecidableEq

/-- A tool definition as `addTask` builds it. -/
structure ToolDefinition where
  name : String
  description : String
  endpoint : String
  params_schema : ParamsSchema
  deriving DecidableEq

namespace TaskManager

/-- The list `JSON.parse(JSON.stringify(tasks))`. -/
def cloneTasks (tasks : List ToolDefinition) : List ToolDefinition :=
  tasks.map (fun t =>
    { t with params_schema :=
        { t.params_schema with properties := jsonCloneFields t.params_schema.properties } })

/-- The task `addTask` appends. -/
def newTask : ToolDefinition :=
  { name := ""
    description := ""
    endpoint := ""
    params_schema := { type := "object", properties := [], required := [] } }

/-- The handler `addTask()`. -/
def addTask (tasks : List ToolDefinition) : List ToolDefinition :=
  tasks ++ [newTask]

/-- The value of a new parameter: `{ type: "string", description: "" }`. -/
def newParameter : JVal :=
  .obj [("type", .str "string"), ("description", .str "")]

/-- The handler `addParameter(taskIndex)`: the list passed to `onTasksChange`,
or the `TypeError` of reading `params_schema` on `undefined`. -/
def addParameter (tasks : List ToolDefinition) (taskIndex : Nat) :
    Except String (List ToolDefinition) :=
  let newTasks := cloneTasks tasks
  match newTasks.get? taskIndex with
  | none => .error "TypeError: Cannot read properties of undefined (reading params_schema)"
  | some t =>
      let newParamName :=
        "param" ++ toTemplateString (.num ((objKeys t.params_schema.properties).length + 1))
      .ok (newTasks.set taskIndex
        { t with params_schema :=
            { t.params_schema with
              properties := objSet t.params_schema.properties newParamName newParameter } })

/-- The handler `removeParameter(taskIndex, paramName)`. -/
def removeParameter (tasks : List ToolDefinition) (taskIndex : Nat) (paramName : String) :
    Except String (List ToolDefinition) :=
  let newTasks := cloneTasks tasks
  match newTasks.get? taskIndex with
  | none => .error "TypeError: Cannot read properties of undefined (reading params_schema)"
  | some t =>
      .ok (newTasks.set taskIndex
        { t with params_schema :=
            { t.params_schema with
              properties := objErase t.params_schema.properties paramName
              required := t.params_schema.required.filter (fun p => p != paramName) } })

/-- The handler `handleParamChange(taskIndex, oldParamName, newParamName,
field, value)`. -/
def handleParamChange (tasks : List ToolDefinition) (taskIndex : Nat)
    (oldParamName newParamName field : String) (value : JVal) :
    Except String (List ToolDefinition) :=
  let newTasks := cloneTasks tasks
  match newTasks.get? taskIndex with
  | none => .error "TypeError: Cannot read properties of undefined (reading params_schema)"
  | some t =>
      let properties := t.params_schema.properties
      let required := t.params_schema.required
      let paramData := objGet properties oldParamName
      if field = "name" then
        .ok (newTasks.set taskIndex
          { t with params_schema :=
              { t.params_schema with
                properties := objSet (objErase properties oldParamName) newParamName paramData
                required :=
                  if required.contains oldParamName then
                    required.map (fun p => if p = oldParamName then newParamName else p)
                  else required } })
      else
        match paramData with
        | .obj fields =>
            .ok (newTasks.set taskIndex
              { t with params_schema :=
                  { t.params_schema with
                    properties := objSet properties oldParamName (.obj (objSet fields field value)) } })
        | _ => .error "TypeError: Cannot set properties of undefined"

/-- The handler `handleRequiredChange(taskIndex, paramName, isChecked)`. -/
def handleRequiredChange (tasks : List ToolDefinition) (taskIndex : Nat) (paramName : String)
    (isChecked : Bool) : Except String (List ToolDefinition) :=
  let newTasks := cloneTasks tasks
  match newTasks.get? taskIndex with
  | none => .error "TypeError: Cannot read properties of undefined (reading params_schema)"
  | some t =>
      let required := t.params_schema.required
      .ok (newTasks.set taskIndex
        { t with params_schema :=
            { t.params_schema with
              required :=
                if isChecked && !required.contains paramName then required ++ [paramName]
                else if !isChecked then required.filter (fun p => p != paramName)
                else required } })

end TaskManager

/-- The list a handler passed to `onTasksChange`, when it raised nothing. -/
def tasksChanged (r : Except String (List ToolDefinition)) : Option (List ToolDefinition) :=
  match r with
  | .ok ts => some ts
  | .error _ => none

/-- Whether the `required` list of a tool has no duplicate and names only keys
of `properties`. -/
def requiredIsSet (t : ToolDefinition) : Bool :=
  decide t.params_schema.required.Nodup &&
    t.params_schema.required.all (fun p => (objKeys t.params_schema.properties).contains p)

/-- A tool with the parameters `city` and `country`, both required. -/
def sampleWeatherTool : ToolDefinition :=
  { name := "get_weather"
    description := "Current weather of a place."
    endpoint := "https://example.com/weather"
    params_schema :=
      { type := "object"
        properties := [("city", .obj [("type", .str "string"), ("description", .str "City name")]),
                       ("country", .obj [("type", .str "string"), ("description", .str "")])]
        required := ["city", "country"] } }

/-- A tool whose only parameter is `param2`, of type integer: the state after
two calls of `addParameter`, the removal of `param1` and an edit of the type
and description of `param2`. -/
def sampleCounterTool : ToolDefinition :=
  { name := "count_items"
    description := ""
    endpoint := ""
    params_schema :=
      { type := "object"
        properties := [("param2", .obj [("type", .str "integer"), ("description", .str "limit")])]
        required := [] } }

/-! ## Form elements (PropertiesPanel.jsx, lines 92-112) -/

/-- The expression `prevData.formElements || []`, for a value that is an
array when it is truthy. -/
def formElementsOf (prevData : JObj) : List JVal :=
  match objGet prevData "formElements" with
  | .arr xs => xs
  | _ => []

/-- The updater of `addFormElement()`. -/
def addFormElement (prevData : JObj) : JObj :=
  objSet prevData "formElements"
    (.arr (formElementsOf prevData ++
      [.obj [("name", .str ("field" ++ toTemplateString (.num ((formElementsOf prevData).length + 1)))),
             ("label", .str ""), ("type", .str "text"), ("required", .bool false)]]))

/-- The updater of `removeFormElement(index)`:
`filter((_, i) => i !== index)`. -/
def removeFormElement (index : Nat) (prevData : JObj) : JObj :=
  objSet prevData "formElements"
    (.arr (((formElementsOf prevData).enum.filter (fun p => p.1 != index)).map Prod.snd))

/-- An edit of the element list of a form trigger. -/
inductive FormEdit where
  | add
  | remove (index : Nat)
  deriving DecidableEq

/-- The node data after a sequence of edits. -/
def runFormEdits (edits : List FormEdit) (nodeData : JObj) : JObj :=
  edits.foldl (fun d e =>
    match e with
    | .add => addFormElement d
    | .remove i => removeFormElement i d) nodeData

/-- The `name` of every form element, in order. -/
def formElementNames (nodeData : JObj) : List JVal :=
  (formElementsOf nodeData).map (fun e => readProp e "name")

/-! ## Registered node kinds (CustomNodes.jsx, lines 161-173) -/

/-- The keys of the `nodeTypes` object handed to ReactFlow. -/
def nodeTypeKeys : List String :=
  ["chatTriggerNode", "formTriggerNode", "aiAgentNode", "chatModelNode", "memoryNode",
   "toolNode"]

/-- Whether ReactFlow has a component registered for a node type. -/
def isRegistered (type : String) : Bool :=
  nodeTypeKeys.contains type

/-! ## Preview chat (AgentPreviewChat.jsx, lines 39-89; api.js, lines 58-64
and 183-192) -/

/-- A request of the preview chat: the url and the JSON payload. -/
structure AskRequest where
  url : String
  payload : JObj
  deriving DecidableEq

/-- The value a parameter is bound to in a call with the argument list
`args`: the argument at its position, or the default when that argument is
missing or `undefined`.  Arguments beyond the parameters are dropped. -/
def argAt (args : List JVal) (i : Nat) (dflt : JVal) : JVal :=
  match args.get? i with
  | some .undefined => dflt
  | some v => v
  | none => dflt

namespace Api

/-- The request of `askQuestion(query, lang = 'en', sessionId = null,
agentId = null)` of api.js, called with the argument list `args`. -/
def askQuestion (args : List JVal) : AskRequest :=
  let query := argAt args 0 .undefined
  let lang := argAt args 1 (.str "en")
  let sessionId := argAt args 2 .null
  let agentId := argAt args 3 .null
  let payload : JObj := [("query", query), ("lang", lang)]
  let payload := if truthy sessionId then objSet payload "session_id" sessionId else payload
  let payload := if truthy agentId then objSet payload "agent_id" agentId else payload
  { url := "/api/ask", payload := payload }

/-- The request of `publicAskQuestion(query, sessionId, apiKey, agentId)` of
api.js for the constant `API_BASE_URL`, or the message of the error it
throws. -/
def publicAskQuestion (API_BASE_URL : String) (query sessionId apiKey agentId : JVal) :
    Except String AskRequest :=
  if !truthy apiKey || !truthy agentId then
    .error "API Key and Agent ID are required for public chat interaction."
  else
    let payload : JObj := [("query", query)]
    let payload := if truthy sessionId then objSet payload "session_id" sessionId else payload
    .ok { url := API_BASE_URL ++ "/api/ask/public/" ++ toTemplateString agentId,
          payload := payload }

end Api

namespace AgentPreviewChat

/-- The props and state `handleSendMessage` reads: the `agent` prop, the
`isEmbedded` and `apiKey` props, the `token` of the auth context and the
`sessionId` state. -/
structure Preview where
  agent : JVal
  isEmbedded : Bool
  apiKey : JVal
  token : JVal
  sessionId : JVal
  deriving DecidableEq

/-- The optional read `agent?.k`. -/
def optProp (agent : JVal) (k : String) : JVal :=
  match agent with
  | .undefined => .undefined
  | .null => .undefined
  | v => readProp v k

/-- The requests `handleSendMessage(query)` issues: none for a blank query or
when a guard of the `try` block throws, one otherwise. -/
def handleSendMessage (API_BASE_URL : String) (p : Preview) (query : String) :
    List AskRequest :=
  if isBlank query then []
  else
    let agentId := jsOr (optProp p.agent "id") (optProp p.agent "_id")
    if p.isEmbedded then
      if !truthy p.apiKey then []
      else if !truthy agentId then []
      else
        match Api.publicAskQuestion API_BASE_URL (.str query) p.sessionId p.apiKey agentId with
        | .ok r => [r]
        | .error _ => []
    else
      if !truthy p.token then []
      else [Api.askQuestion [.str query, .str "en", p.sessionId, .null, agentId]]

end AgentPreviewChat

/-- An authenticated preview of the agent with id `agent-7`, before the first
turn. -/
def samplePreview : AgentPreviewChat.Preview :=
  { agent := .obj [("id", .str "agent-7"), ("name", .str "Helper")]
    isEmbedded := false
    apiKey := .null
    token := .str "t0"
    sessionId := .null }

/-! ## Source normalisation (SourceDisplay.jsx, lines 10-62) -/

/-- An entry of the normalised source list. -/
structure SourceEntry where
  id : JVal
  raw : String
  display : String
  title : JVal
  snippet : JVal
  type : String
  deriving DecidableEq

/-- The test `/^https?:\/\//i.test(raw)`. -/
def isHttpUrl (raw : String) : Bool :=
  jsStartsWith (asciiLower raw) "http://" || jsStartsWith (asciiLower raw) "https://"

/-- The call `s.split(sep)` for a separator of one character, on the
characters of `s`; `cur` is the segment read so far (reversed). -/
def splitChar (sep : Char) : List Char → List Char → List (List Char)
  | [], cur => [cur.reverse]
  | c :: rest, cur =>
      if c = sep then cur.reverse :: splitChar sep rest []
      else splitChar sep rest (c :: cur)

/-- The expression `raw.split('/').pop()`. -/
def lastSegment (raw : String) : String :=
  match (splitChar '/' raw.data []).getLast? with
  | some seg => ⟨seg⟩
  | none => ""

/-- The test `/\.pdf$/i.test(display)`. -/
def isPdfName (display : String) : Bool :=
  ".pdf".data.isSuffixOf (asciiLower display).data

/-- The value `raw` of a source: the source itself when it is a string, the
first truthy of `source`, `url`, `id`, `name` (or the empty string) when it is
an object, and `String(s)` otherwise. -/
def rawOf (s : JVal) : JVal :=
  match s with
  | .str x => .str x
  | .obj _ => jsOr (jsOr (jsOr (jsOr (readProp s "source") (readProp s "url")) (readProp s "id"))
      (readProp s "name")) (.str "")
  | .arr _ => jsOr (jsOr (jsOr (jsOr (readProp s "source") (readProp s "url")) (readProp s "id"))
      (readProp s "name")) (.str "")
  | v => .str (toTemplateString v)

/-- The expression `a ?? b`. -/
def jsNullish (a b : JVal) : JVal :=
  match a with
  | .undefined => b
  | .null => b
  | v => v

/-- The body of the `forEach` callback up to the test of `seen`: nothing for
a source that is skipped (`!s`, `!raw`, `!key`), the key and the entry that
would be pushed otherwise.  A truthy `raw` that is not a string has neither
`split` nor `toLowerCase`, which raises.  The function `hostname` gives
`new URL(raw).hostname`, and nothing when the constructor throws. -/
def normalizeOne (E : Engine) (hostname : String → Option String) (s : JVal) :
    Except String (Option (String × SourceEntry)) :=
  if !truthy s then .ok none
  else
    let raw := rawOf s
    let title := match s with
      | .obj _ => jsOr (jsOr (readProp s "title") (readProp s "name")) .null
      | .arr _ => jsOr (jsOr (readProp s "title") (readProp s "name")) .null
      | _ => .null
    let snippet := match s with
      | .obj _ => jsOr (jsOr (readProp s "snippet") (readProp s "preview")) .null
      | .arr _ => jsOr (jsOr (readProp s "snippet") (readProp s "preview")) .null
      | _ => .null
    let id := match s with
      | .obj _ => jsNullish (readProp s "id") raw
      | .arr _ => jsNullish (readProp s "id") raw
      | _ => .null
    if !truthy raw then .ok none
    else
      match raw with
      | .str r =>
          let isUrl := isHttpUrl r
          let display :=
            if isUrl then
              match hostname r with
              | some host => host
              | none => r
            else lastSegment r
          let key := if isUrl then E.toLowerCase r else E.toLowerCase display
          if key = "" then .ok none
          else
            .ok (some (key,
              { id := jsOr id (.str key)
                raw := r
                display := display
                title := title
                snippet := snippet
                type := if isUrl then "url" else if isPdfName display then "pdf" else "file" }))
      | _ => .error "TypeError: raw.split is not a function"

/-- The `forEach` loop over the sources, with the set `seen` and the list
`out` built so far. -/
def normalizeLoop (E : Engine) (hostname : String → Option String) :
    List JVal → List String → List SourceEntry → Except String (List SourceEntry)
  | [], _, out => .ok out
  | s :: rest, seen, out =>
      match normalizeOne E hostname s with
      | .error e => .error e
      | .ok none => normalizeLoop E hostname rest seen out
      | .ok (some (key, entry)) =>
          if seen.contains key then normalizeLoop E hostname rest seen out
          else normalizeLoop E hostname rest (key :: seen) (out ++ [entry])

/-- The memo `normalized` of `SourceDisplay` for the prop `sources`. -/
def normalized (E : Engine) (hostname : String → Option String) (sources : List JVal) :
    Except String (List SourceEntry) :=
  normalizeLoop E hostname sources [] []

/-- The list a run of `normalized` returned, when it raised nothing. -/
def entriesShown (r : Except String (List SourceEntry)) : Option (List SourceEntry) :=
  match r with
  | .ok out => some out
  | .error _ => none

/-- In the words of the claim: the last path segment, that is the text after
the last slash (the whole text when it has no slash). -/
def afterLastSlash : List Char → List Char
  | [] => []
  | c :: rest =>
      if '/' ∈ rest then afterLastSlash rest
      else if c = '/' then rest
      else c :: rest

/-- In the words of the claim: the raw string is an http(s) url, in any
case of the letters. -/
def startsWithHttp (raw : String) : Bool :=
  (asciiLower raw).data.take 7 == "http://".data ||
    (asciiLower raw).data.take 8 == "https://".data

/-- In the words of the claim: the key on which sources are deduplicated, the
lower-cased raw string for an http(s) url and the lower-cased last path
segment otherwise. -/
def sourceKey (E : Engine) (raw : String) : String :=
  if startsWithHttp raw then E.toLowerCase raw else E.toLowerCase ⟨afterLastSlash raw.data⟩

/-- A source whose `raw` value is a string when it is truthy: a string, a
number, a boolean, or an object whose first truthy field among `source`,
`url`, `id`, `name` is a string. -/
def textual (s : JVal) : Bool :=
  match rawOf s with
  | .str _ => true
  | v => !truthy v

/-- The raw string of a source that passes the guards `!s` and `!raw`. -/
def rawText (s : JVal) : Option String :=
  if truthy s then
    match rawOf s with
    | .str r => if r = "" then none else some r
    | _ => none
  else none

/-- The raw strings the sources contribute, in input order: those of the
sources that pass the guards `!s`, `!raw` and `!key`. -/
def keyedRaws (E : Engine) (sources : List JVal) : List String :=
  (sources.filterMap rawText).filter (fun r => sourceKey E r != "")

/-- The raw strings of a list that are kept when the keys `seen` are taken:
a string is dropped when its key is in `seen` or is the key of an earlier
string of the list. -/
def keepUnseen (E : Engine) : List String → List String → List String
  | _, [] => []
  | seen, r :: rs =>
      if seen.contains (sourceKey E r) then keepUnseen E seen rs
      else r :: keepUnseen E (sourceKey E r :: seen) rs

/-- A url parser for the sample: it knows one address. -/
def sampleHostname (raw : String) : Option String :=
  if asciiLower raw = "https://docs.example.com/guide" then some "docs.example.com" else none

/-- A source list with a repeated url (in another case), a repeated file name
(under another path) and an empty source. -/
def sampleSources : List JVal :=
  [.str "https://docs.example.com/guide",
   .obj [("source", .str "uploads/report.pdf"), ("title", .str "Report")],
   .str "HTTPS://docs.example.com/guide",
   .str "",
   .obj [("url", .str "archive/Report.PDF")]]

/-- A source that names its document by a numeric `id` only. -/
def sampleNumberedSource : JVal :=
  .obj [("id", .num 42), ("title", .str "Report")]

/-! ## JSON-serialisable values -/

mutual
/-- Whether a value inside an array or object is its own JSON clone: no
function, no `undefined`, no repeated key. -/
def plainVal : JVal → Bool
  | .undefined => false
  | .fn _ => false
  | .arr xs => plainItems xs
  | .obj fs => plainFields fs
  | _ => true
/-- Every item is plain. -/
def plainItems : List JVal → Bool
  | [] => true
  | x :: xs => plainVal x && plainItems xs
/-- Every value is plain and no key is repeated. -/
def plainFields : List (String × JVal) → Bool
  | [] => true
  | (k, v) :: fs => plainVal v && !(fs.any (fun p => p.1 == k)) && plainFields fs
end

/-- The key of `data` a configuration socket writes: `tools` for the socket
`tool`, the socket name otherwise. -/
def slotKey (targetHandle : Option String) : String :=
  if targetHandle = some "tool" then "tools" else targetHandle.getD "null"

/-- The relation between a node and its image under a configuration attach on
the target id `target`: identity, kind and place are kept, a node with another
id is returned as it is, and every JSON-serialisable field other than the
slot keeps its value. -/
def AttachFrame (target targetHandle : Option String) (a b : Node) : Prop :=
  b.id = a.id ∧ b.type = a.type ∧ b.position = a.position ∧
  (some a.id ≠ target → b = a) ∧
  (∀ k, k ≠ slotKey targetHandle → plainVal (objGet a.data k) = true →
    objGet b.data k = objGet a.data k)

/-- A proposal to connect the sample tool node to the `chatModel` socket of
the sample agent. -/
def sampleKindMismatch : Connection :=
  { source := some "toolNode_9f8e7d6c"
    target := some "aiAgentNode_1a2b3c4d"
    sourceHandle := some "output"
    targetHandle := some "chatModel" }

/-- The sample editor after the sample tool was connected to the `tool`
socket of the sample agent. -/
def sampleToolAttached : EditorState :=
  (outcome (onConnect sampleToolConnection sampleEditor)).getD sampleEditor

/-! # Theorems -/

theorem objGet_filter_ne (l : JObj) (k key : String) :
    objGet (l.filter (fun p => p.1 != k)) key = if k = key then .undefined else objGet l key := by
  induction l with
  | nil => simp [objGet]
  | cons p rest ih =>
    obtain ⟨k1, v1⟩ := p
    by_cases h1 : k1 = k
    · subst h1
      simp only [List.filter, bne_self_eq_false, ih]
      by_cases h2 : k1 = key
      · simp [h2]
      · simp [h2, objGet]
    · have : (k1 != k) = true := by simpa using h1
      simp only [List.filter, this, objGet, ih]
      by_cases h2 : k = key
      · subst h2; simp [h1]
      · simp [h2]

theorem objGet_jsonCloneFields (fs : JObj) (key : String) :
    objGet (jsonCloneFields fs) key = cloneTop (objGet fs key) := by
  induction fs with
  | nil => simp [jsonCloneFields, objGet, cloneTop]
  | cons p rest ih =>
    obtain ⟨k, v⟩ := p
    by_cases h : k = key
    · subst h
      cases v <;> simp [jsonCloneFields, objGet, objGet_filter_ne, cloneTop]
    · cases v <;> simp [jsonCloneFields, objGet, objGet_filter_ne, h, ih]

theorem objGet_objSet_same (o : JObj) (k : String) (v : JVal) :
    objGet (objSet o k v) k = v := by
  induction o with
  | nil => simp [objSet, objGet]
  | cons p rest ih =>
    obtain ⟨k1, v1⟩ := p
    by_cases h : k1 = k
    · simp [objSet, objGet, h]
    · simp [objSet, objGet, h, ih]

theorem objGet_objSet_other (o : JObj) (k key : String) (v : JVal) (hk : k ≠ key) :
    objGet (objSet o k v) key = objGet o key := by
  induction o with
  | nil => simp [objSet, objGet, hk]
  | cons p rest ih =>
    obtain ⟨k1, v1⟩ := p
    by_cases h : k1 = k
    · subst h; simp [objSet, objGet, hk]
    · by_cases h2 : k1 = key
      · subst h2; simp [objSet, objGet, h]
      · simp [objSet, objGet, h, h2, ih]

theorem cloneTop_eq_str (v : JVal) (n : String) : cloneTop v = .str n ↔ v = .str n := by
  cases v <;> simp [cloneTop, jsonClone]

theorem isNamed_jsonClone_obj (n : String) (fs : JObj) :
    isNamed n (jsonClone (.obj fs)) = isNamed n (.obj fs) := by
  simp only [jsonClone, isNamed, getProp, objGet_jsonCloneFields]
  cases h : objGet fs "name" <;> simp [cloneTop, jsonClone]

theorem jsonCloneItems_objs (xs : List JVal) (h : xs.all isObj = true) :
    jsonCloneItems xs = xs.map jsonClone ∧ (jsonCloneItems xs).all isObj = true := by
  induction xs with
  | nil => simp [jsonCloneItems]
  | cons x rest ih =>
    simp only [List.all_cons, Bool.and_eq_true] at h
    obtain ⟨hx, hr⟩ := h
    obtain ⟨ih1, ih2⟩ := ih hr
    cases x <;> simp [isObj] at hx
    simp [jsonCloneItems, ih1, jsonClone, isObj]
    simpa [ih1] using ih2

theorem jsonCloneItems_length (xs : List JVal) : (jsonCloneItems xs).length = xs.length := by
  induction xs with
  | nil => simp [jsonCloneItems]
  | cons x rest ih => simp [jsonCloneItems, ih]

theorem countNamed_jsonCloneItems (n : String) (xs : List JVal) (h : xs.all isObj = true) :
    countNamed n (jsonCloneItems xs) = countNamed n xs := by
  induction xs with
  | nil => simp [jsonCloneItems]
  | cons x rest ih =>
    simp only [List.all_cons, Bool.and_eq_true] at h
    obtain ⟨hx, hr⟩ := h
    cases x <;> simp [isObj] at hx
    rename_i fs
    have := isNamed_jsonClone_obj n fs
    simp only [countNamed, jsonCloneItems, List.countP_cons, this] at *
    rw [ih hr]

theorem someSameName_objs (S : Node) (n : String) (hn : objGet S.data "name" = .str n)
    (ts : List JVal) (h : ts.all isObj = true) :
    someSameName (some S) ts = .ok (decide (0 < countNamed n ts)) := by
  induction ts with
  | nil => simp [someSameName, countNamed]
  | cons t rest ih =>
    simp only [List.all_cons, Bool.and_eq_true] at h
    obtain ⟨hx, hr⟩ := h
    cases t <;> simp [isObj] at hx
    rename_i fs
    have hstep : isNamed n (.obj fs) = strictEq (objGet fs "name") (.str n) := by
      simp only [isNamed, getProp]
      cases objGet fs "name" <;> simp [strictEq]
    simp only [someSameName, getProp, hn, ih hr, countNamed, List.countP_cons, hstep]
    cases strictEq (objGet fs "name") (.str n) <;> simp

theorem toolsOf_objs (d : JObj) (h : toolsListed d = true) : (toolsOf d).all isObj = true := by
  unfold toolsListed at h
  unfold toolsOf
  cases hv : objGet d "tools" <;> simp [hv] at h ⊢
  simpa using h

theorem existingToolsOf_clone (d : JObj) (h : toolsListed d = true) :
    existingToolsOf (jsonCloneFields d) = .ok (jsonCloneItems (toolsOf d)) := by
  unfold toolsListed at h
  unfold existingToolsOf toolsOf
  rw [objGet_jsonCloneFields]
  cases hv : objGet d "tools" <;> simp [hv, truthy] at h ⊢ <;>
    simp [cloneTop, jsonClone, jsonCloneItems, truthy, h]

theorem toolsOf_clone (d : JObj) : toolsOf (jsonCloneFields d) = jsonCloneItems (toolsOf d) := by
  unfold toolsOf
  rw [objGet_jsonCloneFields]
  cases hv : objGet d "tools" <;> simp [cloneTop, jsonClone, jsonCloneItems]

theorem toolsListed_clone (d : JObj) (h : toolsListed d = true) :
    toolsListed (jsonCloneFields d) = true := by
  unfold toolsListed at h ⊢
  rw [objGet_jsonCloneFields]
  cases hv : objGet d "tools" <;> simp [hv, truthy] at h ⊢ <;>
    simp [cloneTop, jsonClone, truthy, h]
  rename_i xs
  have := (jsonCloneItems_objs xs (by simpa using h)).2
  simpa using this

theorem toolsListed_of_arr (d : JObj) (xs : List JVal) (h : objGet d "tools" = .arr xs)
    (hx : xs.all isObj = true) : toolsListed d = true := by
  unfold toolsListed
  rw [h]
  exact hx

/-- What one `tool` attachment of a source named `n` does to a target node. -/
theorem attachConfig_tool (node S : Node) (n : String)
    (hwf : toolsListed node.data = true) (hn : objGet S.data "name" = .str n) :
    ∃ m, attachConfig (some "tool") (some S) node = .ok m ∧ m.id = node.id ∧
      m.type = node.type ∧ toolsListed m.data = true ∧
      toolsOf m.data =
        (if 0 < countNamed n (toolsOf node.data) then jsonCloneItems (toolsOf node.data)
         else jsonCloneItems (toolsOf node.data) ++ [.obj S.data]) ∧
      objGet m.data "name" = cloneTop (objGet node.data "name") := by
  have hobjs := toolsOf_objs node.data hwf
  have hcl := jsonCloneItems_objs (toolsOf node.data) hobjs
  have hsome := someSameName_objs S n hn (jsonCloneItems (toolsOf node.data)) hcl.2
  rw [countNamed_jsonCloneItems n _ hobjs] at hsome
  unfold attachConfig
  simp only [if_true, existingToolsOf_clone node.data hwf, hsome]
  by_cases hc : 0 < countNamed n (toolsOf node.data)
  · simp only [hc, decide_True, if_true]
    refine ⟨_, rfl, rfl, rfl, ?_, ?_, ?_⟩
    · exact toolsListed_clone node.data hwf
    · exact toolsOf_clone node.data
    · exact objGet_jsonCloneFields _ _
  · simp only [hc, decide_False, if_false]
    refine ⟨_, rfl, rfl, rfl, ?_, ?_, ?_⟩
    · apply toolsListed_of_arr _ _ (objGet_objSet_same _ _ _)
      simp [List.all_append, hcl.2, isObj]
    · unfold toolsOf
      rw [objGet_objSet_same]
    · simp only []
      rw [objGet_objSet_other _ _ _ _ (by decide), objGet_jsonCloneFields]

theorem countNamed_attached (S : Node) (n : String) (hn : objGet S.data "name" = .str n)
    (xs : List JVal) (hx : xs.all isObj = true) :
    countNamed n (if 0 < countNamed n xs then jsonCloneItems xs
      else jsonCloneItems xs ++ [.obj S.data]) = max 1 (countNamed n xs) := by
  by_cases hc : 0 < countNamed n xs
  · simp only [hc, if_true, countNamed_jsonCloneItems n xs hx]
    omega
  · have h0 : countNamed n xs = 0 := by omega
    have hS : isNamed n (.obj S.data) = true := by simp [isNamed, getProp, hn]
    simp only [hc, if_false]
    unfold countNamed at *
    rw [List.countP_append, ← countNamed, countNamed_jsonCloneItems n xs hx, countNamed, h0]
    simp [List.countP_cons, hS]

theorem mapNodes_forall2 (f : Node → Except String Node) (P : Node → Node → Prop)
    (l : List Node) (h : ∀ a ∈ l, ∃ b, f a = .ok b ∧ P a b) :
    ∃ l2, mapNodes f l = .ok l2 ∧ List.Forall₂ P l l2 := by
  induction l with
  | nil => exact ⟨[], rfl, List.Forall₂.nil⟩
  | cons a rest ih =>
    obtain ⟨b, hb, hp⟩ := h a (List.mem_cons_self _ _)
    obtain ⟨l2, hl2, hrel⟩ := ih (fun x hx => h x (List.mem_cons_of_mem _ hx))
    exact ⟨b :: l2, by simp [mapNodes, hb, hl2], List.Forall₂.cons hp hrel⟩

theorem getNode_forall2 (R : Node → Node → Prop) (hid : ∀ a b, R a b → b.id = a.id)
    (i : String) (l l2 : List Node) (h : List.Forall₂ R l l2) :
    (∀ a, getNode l (some i) = some a → ∃ b, getNode l2 (some i) = some b ∧ R a b) ∧
    (getNode l (some i) = none → getNode l2 (some i) = none) := by
  induction h with
  | nil => simp [getNode]
  | @cons a b l l2 hab _ ih =>
    obtain ⟨ih1, ih2⟩ := ih
    have hidab := hid a b hab
    constructor
    · intro x hx
      simp only [getNode] at hx ⊢
      cases hg : getNode l (some i) with
      | some m =>
        rw [hg] at hx
        obtain ⟨m2, hm2, hr⟩ := ih1 m hg
        simp only [hm2]
        simp only [Option.some.injEq] at hx
        subst hx
        exact ⟨m2, rfl, hr⟩
      | none =>
        rw [hg] at hx
        simp only [ih2 hg, hidab]
        by_cases hai : a.id = i
        · simp only [hai, if_true, Option.some.injEq] at hx ⊢
          subst hx
          exact ⟨b, rfl, hab⟩
        · simp [hai] at hx
    · intro hx
      simp only [getNode] at hx ⊢
      cases hg : getNode l (some i) with
      | some m => rw [hg] at hx; simp at hx
      | none =>
        rw [hg] at hx
        simp only [ih2 hg, hidab]
        by_cases hai : a.id = i
        · simp [hai] at hx
        · simp [hai]

theorem getNode_mem (l : List Node) (i : String) (a : Node) (h : getNode l (some i) = some a) :
    a ∈ l ∧ a.id = i := by
  induction l with
  | nil => simp [getNode] at h
  | cons x rest ih =>
    simp only [getNode] at h
    cases hg : getNode rest (some i) with
    | some m =>
      rw [hg] at h
      simp only [Option.some.injEq] at h
      subst h
      exact ⟨List.mem_cons_of_mem _ (ih hg).1, (ih hg).2⟩
    | none =>
      rw [hg] at h
      by_cases hx : x.id = i
      · simp only [hx, if_true, Option.some.injEq] at h
        subst h
        exact ⟨List.mem_cons_self _ _, hx⟩
      · simp [hx] at h

theorem forall2_mem_right (R : Node → Node → Prop) (l l2 : List Node)
    (h : List.Forall₂ R l l2) : ∀ b ∈ l2, ∃ a ∈ l, R a b := by
  induction h with
  | nil => simp
  | @cons a b l l2 hab _ ih =>
    intro x hx
    rcases List.mem_cons.mp hx with rfl | hx
    · exact ⟨a, List.mem_cons_self _ _, hab⟩
    · obtain ⟨y, hy, hr⟩ := ih x hx
      exact ⟨y, List.mem_cons_of_mem _ hy, hr⟩

theorem forall2_comp (R Q : Node → Node → Prop) (l1 l2 l3 : List Node)
    (h1 : List.Forall₂ R l1 l2) (h2 : List.Forall₂ Q l2 l3) :
    List.Forall₂ (fun a c => ∃ b, R a b ∧ Q b c) l1 l3 := by
  induction h1 generalizing l3 with
  | nil => cases h2; exact List.Forall₂.nil
  | @cons a b l l2 hab _ ih =>
    cases h2 with
    | cons hbc hrest => exact List.Forall₂.cons ⟨b, hab, hbc⟩ (ih _ hrest)

theorem isAiAgent_forall2 (R : Node → Node → Prop)
    (hid : ∀ a b, R a b → b.id = a.id) (hty : ∀ a b, R a b → b.type = a.type)
    (i : String) (l l2 : List Node) (h : List.Forall₂ R l l2)
    (hA : isAiAgent (getNode l (some i)) = true) : isAiAgent (getNode l2 (some i)) = true := by
  cases hg : getNode l (some i) with
  | none => rw [hg] at hA; simp [isAiAgent] at hA
  | some a =>
    obtain ⟨b, hb, hr⟩ := (getNode_forall2 R hid i l l2 h).1 a hg
    rw [hg] at hA
    rw [hb]
    simpa [isAiAgent, hty a b hr] using hA

theorem onConnect_tool (st : EditorState) (src tgt : String) (sh : Option String)
    (S : Node) (n : String)
    (hI : st.reactFlowInstance = true)
    (hA : isAiAgent (getNode st.nodes (some tgt)) = true)
    (hS : getNode st.nodes (some src) = some S)
    (hn : objGet S.data "name" = .str n)
    (hwf : ∀ a ∈ st.nodes, a.id = tgt → toolsListed a.data = true) :
    ∃ st1, onConnect ⟨some src, some tgt, sh, some "tool"⟩ st = .ok st1 ∧
      List.Forall₂ (ToolStep tgt S n) st.nodes st1.nodes ∧ st1.reactFlowInstance = true := by
  have hall : ∀ a ∈ st.nodes, ∃ b,
      (fun node : Node => if some node.id = some tgt
        then attachConfig (some "tool") (some S) node else .ok node) a = .ok b ∧
      ToolStep tgt S n a b := by
    intro a ha
    by_cases hai : a.id = tgt
    · obtain ⟨m, hm, h1, h2, h3, h4, h5⟩ := attachConfig_tool a S n (hwf a ha hai) hn
      exact ⟨m, by simp [hai, hm], h1, h2, fun hne => absurd hai hne,
        fun _ => ⟨hwf a ha hai, h3, h4, h5⟩⟩
    · exact ⟨a, by simp [hai], rfl, rfl, fun _ => rfl, fun h => absurd h hai⟩
  obtain ⟨l2, hl2, hrel⟩ := mapNodes_forall2 _ _ st.nodes hall
  refine ⟨{ st with nodes := l2, edges := addEdge (configEdge ⟨some src, some tgt, sh, some "tool"⟩) st.edges }, ?_, hrel, hI⟩
  unfold onConnect
  simp only [hI, hA, hS, isConfigHandle, hl2]
  simp

/-- C1 (amended).  For an agent resolved by the target id whose `tools` field
is absent or a list of objects, and a source whose `data.name` is the string
`n`: two successive `tool` connections both succeed; an agent that held at
most one entry named `n` ends with exactly one; and a connection whose name is
already present leaves the tool list equal to its JSON copy, of the same
length. -/
theorem tool_attach_idempotent_by_name (st : EditorState) (src tgt : String)
    (sh : Option String) (S : Node) (n : String)
    (hI : st.reactFlowInstance = true)
    (hA : isAiAgent (getNode st.nodes (some tgt)) = true)
    (hS : getNode st.nodes (some src) = some S)
    (hn : objGet S.data "name" = .str n)
    (hwf : ∀ a ∈ st.nodes, a.id = tgt → toolsListed a.data = true) :
    ∃ st1 st2,
      onConnect ⟨some src, some tgt, sh, some "tool"⟩ st = .ok st1 ∧
      onConnect ⟨some src, some tgt, sh, some "tool"⟩ st1 = .ok st2 ∧
      List.Forall₂ (fun a b => a.id = tgt → 0 < countNamed n (toolsOf a.data) →
          toolsOf b.data = jsonCloneItems (toolsOf a.data) ∧
          (toolsOf b.data).length = (toolsOf a.data).length) st.nodes st1.nodes ∧
      List.Forall₂ (fun a c => c.id = a.id ∧
          (a.id = tgt → countNamed n (toolsOf a.data) ≤ 1 →
            countNamed n (toolsOf c.data) = 1)) st.nodes st2.nodes := by
  obtain ⟨st1, h1, hrel1, hI1⟩ := onConnect_tool st src tgt sh S n hI hA hS hn hwf
  have hid : ∀ a b, ToolStep tgt S n a b → b.id = a.id := fun a b h => h.1
  have hty : ∀ a b, ToolStep tgt S n a b → b.type = a.type := fun a b h => h.2.1
  have hA1 := isAiAgent_forall2 _ hid hty tgt _ _ hrel1 hA
  obtain ⟨S1, hS1, hSrel⟩ := (getNode_forall2 _ hid src _ _ hrel1).1 S hS
  have hn1 : objGet S1.data "name" = .str n := by
    by_cases hst : S.id = tgt
    · rw [(hSrel.2.2.2 hst).2.2.2, hn]; simp [cloneTop, jsonClone]
    · rw [hSrel.2.2.1 hst]; exact hn
  have hwf1 : ∀ b ∈ st1.nodes, b.id = tgt → toolsListed b.data = true := by
    intro b hb hbt
    obtain ⟨a, _, hab⟩ := forall2_mem_right _ _ _ hrel1 b hb
    exact (hab.2.2.2 (by rw [← hab.1]; exact hbt)).2.1
  obtain ⟨st2, h2, hrel2, _⟩ := onConnect_tool st1 src tgt sh S1 n hI1 hA1 hS1 hn1 hwf1
  refine ⟨st1, st2, h1, h2, ?_, ?_⟩
  · refine List.Forall₂.imp ?_ hrel1
    intro a b hab hat hc
    have h := (hab.2.2.2 hat).2.2.1
    simp only [hc, if_true] at h
    exact ⟨h, by rw [h, jsonCloneItems_length]⟩
  · refine List.Forall₂.imp ?_ (forall2_comp _ _ _ _ _ hrel1 hrel2)
    rintro a c ⟨b, hab, hbc⟩
    refine ⟨by rw [hbc.1, hab.1], ?_⟩
    intro hat hle
    have hbt : b.id = tgt := by rw [hab.1]; exact hat
    obtain ⟨hwa, hwb, hta, _⟩ := hab.2.2.2 hat
    obtain ⟨_, _, htb, _⟩ := hbc.2.2.2 hbt
    have e1 := countNamed_attached S n hn _ (toolsOf_objs _ hwa)
    have e2 := countNamed_attached S1 n hn1 _ (toolsOf_objs _ hwb)
    rw [← hta] at e1
    rw [← htb] at e2
    rw [e2, e1]
    omega

theorem attachConfig_slot (h : String) (hh : h = "chatModel" ∨ h = "memory") (S node : Node) :
    attachConfig (some h) (some S) node =
      .ok { node with data := objSet (jsonCloneFields node.data) h (.obj S.data) } := by
  rcases hh with rfl | rfl <;> simp [attachConfig]

theorem onConnect_slot (st : EditorState) (src tgt h : String) (sh : Option String) (S : Node)
    (hh : h = "chatModel" ∨ h = "memory")
    (hI : st.reactFlowInstance = true)
    (hA : isAiAgent (getNode st.nodes (some tgt)) = true)
    (hS : getNode st.nodes (some src) = some S) :
    ∃ st1, onConnect ⟨some src, some tgt, sh, some h⟩ st = .ok st1 ∧
      List.Forall₂ (SlotStep tgt h S) st.nodes st1.nodes ∧ st1.reactFlowInstance = true ∧
      st1.edges = addEdge (configEdge ⟨some src, some tgt, sh, some h⟩) st.edges := by
  have hall : ∀ a ∈ st.nodes, ∃ b,
      (fun node : Node => if some node.id = some tgt
        then attachConfig (some h) (some S) node else .ok node) a = .ok b ∧
      SlotStep tgt h S a b := by
    intro a _
    by_cases hai : a.id = tgt
    · refine ⟨{ a with data := objSet (jsonCloneFields a.data) h (.obj S.data) }, ?_, rfl, rfl,
        fun hne => absurd hai hne, fun _ => objGet_objSet_same _ _ _⟩
      have hst : some a.id = some tgt := by rw [hai]
      simp only [if_pos hst]
      exact attachConfig_slot h hh S a
    · exact ⟨a, by simp [hai], rfl, rfl, fun _ => rfl, fun h => absurd h hai⟩
  obtain ⟨l2, hl2, hrel⟩ := mapNodes_forall2 _ _ st.nodes hall
  refine ⟨{ st with nodes := l2, edges := addEdge (configEdge ⟨some src, some tgt, sh, some h⟩) st.edges }, ?_, hrel, hI, rfl⟩
  have hc : isConfigHandle (some h) = true := by
    rcases hh with rfl | rfl <;> decide
  unfold onConnect
  simp only [hI, hA, hS, hc, hl2]
  simp

/-- C2.  Single-slot sockets replace: after a connection of `S1` and then one
of `S2` to the socket `h` (`chatModel` or `memory`) of an agent, both
connections succeed and every node carrying the target id holds in `data[h]`
exactly the data of the node the second source id resolved to; that node is
`S2` itself unless `S2` is the agent. -/
theorem single_slot_replaces (st : EditorState) (s1 s2 tgt h : String)
    (sh1 sh2 : Option String) (S1 S2 : Node)
    (hh : h = "chatModel" ∨ h = "memory")
    (hI : st.reactFlowInstance = true)
    (hA : isAiAgent (getNode st.nodes (some tgt)) = true)
    (hS1 : getNode st.nodes (some s1) = some S1)
    (hS2 : getNode st.nodes (some s2) = some S2) :
    ∃ st1 st2 R2,
      onConnect ⟨some s1, some tgt, sh1, some h⟩ st = .ok st1 ∧
      onConnect ⟨some s2, some tgt, sh2, some h⟩ st1 = .ok st2 ∧
      getNode st1.nodes (some s2) = some R2 ∧ (s2 ≠ tgt → R2 = S2) ∧
      st2.nodes.length = st.nodes.length ∧
      (∃ c, getNode st2.nodes (some tgt) = some c) ∧
      ∀ c ∈ st2.nodes, c.id = tgt → objGet c.data h = .obj R2.data := by
  obtain ⟨st1, h1, hrel1, hI1, _⟩ := onConnect_slot st s1 tgt h sh1 S1 hh hI hA hS1
  have hid : ∀ S a b, SlotStep tgt h S a b → b.id = a.id := fun _ a b x => x.1
  have hty : ∀ S a b, SlotStep tgt h S a b → b.type = a.type := fun _ a b x => x.2.1
  have hA1 := isAiAgent_forall2 _ (hid S1) (hty S1) tgt _ _ hrel1 hA
  obtain ⟨R2, hR2, hRrel⟩ := (getNode_forall2 _ (hid S1) s2 _ _ hrel1).1 S2 hS2
  obtain ⟨st2, h2, hrel2, _, _⟩ := onConnect_slot st1 s2 tgt h sh2 R2 hh hI1 hA1 hR2
  have hA2 := isAiAgent_forall2 _ (hid R2) (hty R2) tgt _ _ hrel2 hA1
  refine ⟨st1, st2, R2, h1, h2, hR2, ?_, ?_, ?_, ?_⟩
  · intro hne
    have := (getNode_mem _ _ _ hS2).2
    exact hRrel.2.2.1 (by rw [this]; exact hne)
  · rw [← hrel2.length_eq, ← hrel1.length_eq]
  · cases hg : getNode st2.nodes (some tgt) with
    | none => rw [hg] at hA2; simp [isAiAgent] at hA2
    | some c => exact ⟨c, rfl⟩
  · intro c hc hct
    obtain ⟨b, _, hbc⟩ := forall2_mem_right _ _ _ hrel2 c hc
    exact hbc.2.2.2 (by rw [← hbc.1]; exact hct)

theorem onConnect_default (st : EditorState) (c : Connection)
    (hI : st.reactFlowInstance = true)
    (h : (isAiAgent (getNode st.nodes c.target) && isConfigHandle c.targetHandle) = false) :
    onConnect c st = .ok { st with edges := addEdge (defaultEdge c) st.edges } := by
  unfold onConnect
  simp [hI, h]

theorem addEdge_appends (p : EdgeParams) (s t : String) (edges : List Edge)
    (hs : p.source = some s) (ht : p.target = some t) (hs0 : s ≠ "") (ht0 : t ≠ "")
    (hne : connectionExists s t p.sourceHandle p.targetHandle edges = false) :
    addEdge p edges = edges ++ [{ id := getEdgeId s t p.sourceHandle p.targetHandle,
                                  source := s, target := t,
                                  sourceHandle := p.sourceHandle, targetHandle := p.targetHandle,
                                  type := p.type, animated := p.animated, style := p.style }] := by
  unfold addEdge
  simp [hs, ht, hs0, ht0, hne]

/-- C3 (amended).  A proposal on a `chatModel`, `memory` or `tool` socket whose
target resolves to a node that is not an `aiAgentNode` raises nothing and
leaves every node as it is; `onConnect` hands it to `addEdge` as a data-flow
edge, which appends it with the default style when both ids are non-empty and
the connection is not yet in the list. -/
theorem config_socket_on_other_node (st : EditorState) (c : Connection) (T : Node)
    (hI : st.reactFlowInstance = true)
    (_hh : isConfigHandle c.targetHandle = true)
    (hT : getNode st.nodes c.target = some T)
    (hty : strictEq T.type (.str "aiAgentNode") = false) :
    ∃ st1, onConnect c st = .ok st1 ∧ st1.nodes = st.nodes ∧
      st1.edges = addEdge (defaultEdge c) st.edges ∧
      ∀ s t, c.source = some s → c.target = some t → s ≠ "" → t ≠ "" →
        connectionExists s t c.sourceHandle c.targetHandle st.edges = false →
        st1.edges = st.edges ++ [{ id := getEdgeId s t c.sourceHandle c.targetHandle,
                                   source := s, target := t,
                                   sourceHandle := c.sourceHandle,
                                   targetHandle := c.targetHandle,
                                   type := "smoothstep", animated := true,
                                   style := { stroke := "#555", strokeDasharray := none } }] := by
  have h : (isAiAgent (getNode st.nodes c.target) && isConfigHandle c.targetHandle) = false := by
    simp [hT, isAiAgent, hty]
  refine ⟨_, onConnect_default st c hI h, rfl, rfl, ?_⟩
  intro s t hs ht hs0 ht0 hne
  exact addEdge_appends (defaultEdge c) s t st.edges hs ht hs0 ht0 hne

/-- C4 (amended).  A proposal whose target id resolves to no node, or whose
source id resolves to no node while the target is not a configuration socket
of an `aiAgentNode`, raises nothing and leaves every node as it is;
`onConnect` hands it to `addEdge` as a data-flow edge, which appends it with
the default style when both ids are non-empty and the connection is not yet
in the list. -/
theorem unresolved_endpoint_connect (st : EditorState) (c : Connection)
    (hI : st.reactFlowInstance = true)
    (hmiss : getNode st.nodes c.target = none ∨
      (getNode st.nodes c.source = none ∧
        (isAiAgent (getNode st.nodes c.target) && isConfigHandle c.targetHandle) = false)) :
    ∃ st1, onConnect c st = .ok st1 ∧ st1.nodes = st.nodes ∧
      st1.edges = addEdge (defaultEdge c) st.edges ∧
      ∀ s t, c.source = some s → c.target = some t → s ≠ "" → t ≠ "" →
        connectionExists s t c.sourceHandle c.targetHandle st.edges = false →
        st1.edges = st.edges ++ [{ id := getEdgeId s t c.sourceHandle c.targetHandle,
                                   source := s, target := t,
                                   sourceHandle := c.sourceHandle,
                                   targetHandle := c.targetHandle,
                                   type := "smoothstep", animated := true,
                                   style := { stroke := "#555", strokeDasharray := none } }] := by
  have h : (isAiAgent (getNode st.nodes c.target) && isConfigHandle c.targetHandle) = false := by
    rcases hmiss with h1 | ⟨_, h2⟩
    · simp [h1, isAiAgent]
    · exact h2
  refine ⟨_, onConnect_default st c hI h, rfl, rfl, ?_⟩
  intro s t hs ht hs0 ht0 hne
  exact addEdge_appends (defaultEdge c) s t st.edges hs ht hs0 ht0 hne

/-- C1, witness: the theorem at the sample editor, for the tool `search_apis`. -/
theorem tool_attach_idempotent_by_name_witness :
    sampleEditor.reactFlowInstance = true ∧
    isAiAgent (getNode sampleEditor.nodes (some "aiAgentNode_1a2b3c4d")) = true ∧
    getNode sampleEditor.nodes (some "toolNode_9f8e7d6c") = some sampleTool ∧
    objGet sampleTool.data "name" = .str "search_apis" ∧
    (∀ a ∈ sampleEditor.nodes, a.id = "aiAgentNode_1a2b3c4d" → toolsListed a.data = true) ∧
    ∃ st1 st2,
      onConnect ⟨some "toolNode_9f8e7d6c", some "aiAgentNode_1a2b3c4d", some "output",
        some "tool"⟩ sampleEditor = .ok st1 ∧
      onConnect ⟨some "toolNode_9f8e7d6c", some "aiAgentNode_1a2b3c4d", some "output",
        some "tool"⟩ st1 = .ok st2 ∧
      List.Forall₂ (fun a b => a.id = "aiAgentNode_1a2b3c4d" →
          0 < countNamed "search_apis" (toolsOf a.data) →
          toolsOf b.data = jsonCloneItems (toolsOf a.data) ∧
          (toolsOf b.data).length = (toolsOf a.data).length) sampleEditor.nodes st1.nodes ∧
      List.Forall₂ (fun a c => c.id = a.id ∧
          (a.id = "aiAgentNode_1a2b3c4d" → countNamed "search_apis" (toolsOf a.data) ≤ 1 →
            countNamed "search_apis" (toolsOf c.data) = 1)) sampleEditor.nodes st2.nodes :=
  ⟨by decide, by decide, by decide, by decide, by decide,
    tool_attach_idempotent_by_name sampleEditor "toolNode_9f8e7d6c" "aiAgentNode_1a2b3c4d"
      (some "output") sampleTool "search_apis" (by decide) (by decide) (by decide) (by decide)
      (by decide)⟩

/-- C1, counterexample.  After the sample tool is connected once, the agent
holds the tool's data with its callbacks; connecting the same tool again
leaves a different `tools` value (the entry has lost `onNodeClick` and
`onSettingsClick`), so the list is not left unchanged.  And an agent that
already holds two entries named `search_apis` still holds two after the tool
is connected twice. -/
theorem tool_reattach_changes_tools :
    (outcome (onConnect sampleToolConnection sampleEditor)).bind
        (fun s => toolsField s "aiAgentNode_1a2b3c4d")
      = some (.arr [.obj [("label", .str "Search Apis"),
                          ("description", .str "Searches the API catalogue."),
                          ("nodeType", .str "tool"), ("name", .str "search_apis"),
                          ("onNodeClick", .fn "onNodeClick"),
                          ("onSettingsClick", .fn "onSettingsClick")]]) ∧
    (outcome (andThen (onConnect sampleToolConnection sampleEditor)
        (onConnect sampleToolConnection))).bind
        (fun s => toolsField s "aiAgentNode_1a2b3c4d")
      = some (.arr [.obj [("label", .str "Search Apis"),
                          ("description", .str "Searches the API catalogue."),
                          ("nodeType", .str "tool"), ("name", .str "search_apis")]]) ∧
    (outcome (andThen (onConnect sampleToolConnection sampleEditorTwice)
        (onConnect sampleToolConnection))).bind
        (fun s => (getNode s.nodes (some "aiAgentNode_1a2b3c4d")).map
          (fun a => countNamed "search_apis" (toolsOf a.data)))
      = some 2 := by
  decide

/-- C2, witness: the theorem at the sample editor, connecting the sample tool
node twice to the `chatModel` socket. -/
theorem single_slot_replaces_witness :
    ("chatModel" = "chatModel" ∨ "chatModel" = "memory") ∧
    sampleEditor.reactFlowInstance = true ∧
    isAiAgent (getNode sampleEditor.nodes (some "aiAgentNode_1a2b3c4d")) = true ∧
    getNode sampleEditor.nodes (some "toolNode_9f8e7d6c") = some sampleTool ∧
    ∃ st1 st2 R2,
      onConnect ⟨some "toolNode_9f8e7d6c", some "aiAgentNode_1a2b3c4d", none,
        some "chatModel"⟩ sampleEditor = .ok st1 ∧
      onConnect ⟨some "toolNode_9f8e7d6c", some "aiAgentNode_1a2b3c4d", none,
        some "chatModel"⟩ st1 = .ok st2 ∧
      getNode st1.nodes (some "toolNode_9f8e7d6c") = some R2 ∧
      ("toolNode_9f8e7d6c" ≠ "aiAgentNode_1a2b3c4d" → R2 = sampleTool) ∧
      st2.nodes.length = sampleEditor.nodes.length ∧
      (∃ c, getNode st2.nodes (some "aiAgentNode_1a2b3c4d") = some c) ∧
      ∀ c ∈ st2.nodes, c.id = "aiAgentNode_1a2b3c4d" →
        objGet c.data "chatModel" = .obj R2.data :=
  ⟨by decide, by decide, by decide, by decide,
    single_slot_replaces sampleEditor "toolNode_9f8e7d6c" "toolNode_9f8e7d6c"
      "aiAgentNode_1a2b3c4d" "chatModel" none none sampleTool sampleTool
      (by decide) (by decide) (by decide) (by decide) (by decide)⟩

/-- C3, witness: the theorem at the sample editor, for a proposal on the
`tool` socket of the tool node. -/
theorem config_socket_on_other_node_witness :
    sampleEditor.reactFlowInstance = true ∧
    isConfigHandle sampleMisplacedConnection.targetHandle = true ∧
    getNode sampleEditor.nodes sampleMisplacedConnection.target = some sampleTool ∧
    strictEq sampleTool.type (.str "aiAgentNode") = false ∧
    ∃ st1, onConnect sampleMisplacedConnection sampleEditor = .ok st1 ∧
      st1.nodes = sampleEditor.nodes ∧
      st1.edges = addEdge (defaultEdge sampleMisplacedConnection) sampleEditor.edges ∧
      ∀ s t, sampleMisplacedConnection.source = some s →
        sampleMisplacedConnection.target = some t → s ≠ "" → t ≠ "" →
        connectionExists s t sampleMisplacedConnection.sourceHandle
          sampleMisplacedConnection.targetHandle sampleEditor.edges = false →
        st1.edges = sampleEditor.edges ++
          [{ id := getEdgeId s t sampleMisplacedConnection.sourceHandle
                     sampleMisplacedConnection.targetHandle,
             source := s, target := t,
             sourceHandle := sampleMisplacedConnection.sourceHandle,
             targetHandle := sampleMisplacedConnection.targetHandle,
             type := "smoothstep", animated := true,
             style := { stroke := "#555", strokeDasharray := none } }] :=
  ⟨by decide, by decide, by decide, by decide,
    config_socket_on_other_node sampleEditor sampleMisplacedConnection sampleTool
      (by decide) (by decide) (by decide) (by decide)⟩

/-- C3, counterexample.  In the sample editor a proposal on the `tool` socket
of the tool node, which is not an agent, is not rejected: the edge list, empty
before, holds the new edge afterwards. -/
theorem config_socket_on_other_node_adds_edge :
    getNode sampleEditor.nodes sampleMisplacedConnection.target = some sampleTool ∧
    sampleTool.type = .str "toolNode" ∧
    isConfigHandle sampleMisplacedConnection.targetHandle = true ∧
    sampleEditor.edges = [] ∧
    (outcome (onConnect sampleMisplacedConnection sampleEditor)).map (fun s => s.edges)
      = some [{ id := "reactflow__edge-aiAgentNode_1a2b3c4doutput-toolNode_9f8e7d6ctool",
                source := "aiAgentNode_1a2b3c4d", target := "toolNode_9f8e7d6c",
                sourceHandle := some "output", targetHandle := some "tool",
                type := "smoothstep", animated := true,
                style := { stroke := "#555", strokeDasharray := none } }] := by
  decide

/-- C4, witness: the theorem at the sample editor, for a proposal whose target
id names no node. -/
theorem unresolved_endpoint_connect_witness :
    sampleEditor.reactFlowInstance = true ∧
    (getNode sampleEditor.nodes sampleDanglingConnection.target = none ∨
      (getNode sampleEditor.nodes sampleDanglingConnection.source = none ∧
        (isAiAgent (getNode sampleEditor.nodes sampleDanglingConnection.target) &&
          isConfigHandle sampleDanglingConnection.targetHandle) = false)) ∧
    ∃ st1, onConnect sampleDanglingConnection sampleEditor = .ok st1 ∧
      st1.nodes = sampleEditor.nodes ∧
      st1.edges = addEdge (defaultEdge sampleDanglingConnection) sampleEditor.edges ∧
      ∀ s t, sampleDanglingConnection.source = some s →
        sampleDanglingConnection.target = some t → s ≠ "" → t ≠ "" →
        connectionExists s t sampleDanglingConnection.sourceHandle
          sampleDanglingConnection.targetHandle sampleEditor.edges = false →
        st1.edges = sampleEditor.edges ++
          [{ id := getEdgeId s t sampleDanglingConnection.sourceHandle
                     sampleDanglingConnection.targetHandle,
             source := s, target := t,
             sourceHandle := sampleDanglingConnection.sourceHandle,
             targetHandle := sampleDanglingConnection.targetHandle,
             type := "smoothstep", animated := true,
             style := { stroke := "#555", strokeDasharray := none } }] :=
  ⟨by decide, by decide,
    unresolved_endpoint_connect sampleEditor sampleDanglingConnection (by decide) (by decide)⟩

/-- C4, counterexample.  In the sample editor a proposal whose target id names
no node is not rejected: the edge list, empty before, holds the new edge
afterwards.  And a proposal on the agent's `tool` socket whose source id names
no node raises an exception. -/
theorem unresolved_endpoint_not_rejected :
    getNode sampleEditor.nodes sampleDanglingConnection.target = none ∧
    sampleEditor.edges = [] ∧
    (outcome (onConnect sampleDanglingConnection sampleEditor)).map (fun s => s.edges)
      = some [{ id := "reactflow__edge-toolNode_9f8e7d6coutput-memoryNode_00000000input",
                source := "toolNode_9f8e7d6c", target := "memoryNode_00000000",
                sourceHandle := some "output", targetHandle := some "input",
                type := "smoothstep", animated := true,
                style := { stroke := "#555", strokeDasharray := none } }] ∧
    getNode sampleEditor.nodes sampleSourcelessConnection.source = none ∧
    raised (onConnect sampleSourcelessConnection sampleEditor) = true := by
  decide

/-- C5.  Cascading delete: in an unlocked editor, after `removeNode id` no node
carries the id and no edge has it as source or target, while every edge that
did not reference the id is kept. -/
theorem remove_node_cascades (st : EditorState) (id : String) (hL : st.isLocked = false) :
    (∀ n ∈ (removeNode id st).nodes, n.id ≠ id) ∧
    (∀ e ∈ (removeNode id st).edges, e.source ≠ id ∧ e.target ≠ id) ∧
    (∀ e ∈ st.edges, e.source ≠ id → e.target ≠ id → e ∈ (removeNode id st).edges) ∧
    (∀ n ∈ st.nodes, n.id ≠ id → n ∈ (removeNode id st).nodes) := by
  unfold removeNode
  simp only [hL]
  refine ⟨?_, ?_, ?_, ?_⟩
  · intro n hn
    simpa using (List.mem_filter.mp hn).2
  · intro e he
    have := (List.mem_filter.mp he).2
    simpa using this
  · intro e he h1 h2
    exact List.mem_filter.mpr ⟨he, by simp [h1, h2]⟩
  · intro n hn h1
    exact List.mem_filter.mpr ⟨hn, by simp [h1]⟩

/-- C5, witness: nodes `A` and `B` with the edge `A -> B`; removing `A` leaves
no edge. -/
theorem remove_node_cascades_witness :
    sampleLinked.isLocked = false ∧
    (removeNode "A" sampleLinked).edges = [] ∧
    ((∀ n ∈ (removeNode "A" sampleLinked).nodes, n.id ≠ "A") ∧
    (∀ e ∈ (removeNode "A" sampleLinked).edges, e.source ≠ "A" ∧ e.target ≠ "A") ∧
    (∀ e ∈ sampleLinked.edges, e.source ≠ "A" → e.target ≠ "A" →
      e ∈ (removeNode "A" sampleLinked).edges) ∧
    (∀ n ∈ sampleLinked.nodes, n.id ≠ "A" → n ∈ (removeNode "A" sampleLinked).nodes)) :=
  ⟨by decide, by decide, remove_node_cascades sampleLinked "A" (by decide)⟩

/-- C9.  `onNodeUpdate(id, data)` is the reference update: with no node of that
id the node list is returned as it is; in general the result pairs off with
the old list in order, each node keeping id, type and position, a node with
the id holding exactly `data` and every other node unchanged; the edge list is
untouched. -/
theorem onNodeUpdate_replaces_data (st : EditorState) (id : String) (data : JObj) :
    ((∀ n ∈ st.nodes, n.id ≠ id) → (onNodeUpdate id data st).nodes = st.nodes) ∧
    List.Forall₂ (fun n m => m.id = n.id ∧ m.type = n.type ∧ m.position = n.position ∧
        (n.id = id → m.data = data) ∧ (n.id ≠ id → m = n))
      st.nodes (onNodeUpdate id data st).nodes ∧
    (onNodeUpdate id data st).nodes.length = st.nodes.length ∧
    (onNodeUpdate id data st).edges = st.edges := by
  refine ⟨?_, ?_, ?_, rfl⟩
  · intro h
    simp only [onNodeUpdate]
    conv => rhs; rw [← List.map_id st.nodes]
    apply List.map_congr_left
    intro n hn
    simp [h n hn]
  · simp only [onNodeUpdate]
    generalize st.nodes = l
    induction l with
    | nil => exact List.Forall₂.nil
    | cons n rest ih =>
      refine List.Forall₂.cons ?_ ih
      by_cases hn : n.id = id
      · simp [hn]
      · simp [hn]
  · simp [onNodeUpdate]

/-- C9, witness: the update of the sample tool node in the sample editor, and
an update under an id no node carries. -/
theorem onNodeUpdate_replaces_data_witness :
    (onNodeUpdate "toolNode_9f8e7d6c" [("name", .str "lookup")] sampleEditor).nodes
      = [sampleAgent, { sampleTool with data := [("name", .str "lookup")] }] ∧
    (onNodeUpdate "memoryNode_00000000" [("name", .str "lookup")] sampleEditor).nodes
      = sampleEditor.nodes :=
  ⟨by decide,
    (onNodeUpdate_replaces_data sampleEditor "memoryNode_00000000" [("name", .str "lookup")]).1
      (by decide)⟩

/-- C8.  For every entry `t` of the trigger catalog, `handleTriggerSelect(t)`
sets the node list to exactly one node of type `t.type` at position (250, 50)
whose data holds every field of `t.initialData` together with `label` and
`description` of `t`; the node count is then 1, `showTriggerPalette` is false,
the trigger palette is not rendered and the node is the selected node. -/
theorem trigger_select_creates_single_node (t : TriggerEntry) (ht : t ∈ triggerCatalog)
    (uuid : String) (st : EditorState) :
    ∃ node, (handleTriggerSelect t uuid st).nodes = [node] ∧
      node.type = .str t.type ∧ node.position = { x := 250, y := 50 } ∧
      (∀ kv ∈ t.initialData, objGet node.data kv.1 = kv.2) ∧
      objGet node.data "label" = .str t.label ∧
      objGet node.data "description" = .str t.description ∧
      (handleTriggerSelect t uuid st).nodes.length = 1 ∧
      (handleTriggerSelect t uuid st).showTriggerPalette = false ∧
      renderedPalette (handleTriggerSelect t uuid st) = .paletteSidebar ∧
      (handleTriggerSelect t uuid st).selectedNode = some node := by
  refine ⟨triggerNode t uuid, rfl, rfl, rfl, ?_, ?_, ?_, rfl, rfl, rfl, rfl⟩
  · simp only [triggerCatalog, List.mem_cons, List.mem_singleton, List.not_mem_nil,
      or_false] at ht
    rcases ht with rfl | rfl | rfl | rfl | rfl | rfl <;>
      simp [triggerNode, formTriggerEntry, objSpread, objSet, objGet]
  · simp only [triggerNode]
    rw [objGet_objSet_other _ _ _ _ (by decide), objGet_objSet_other _ _ _ _ (by decide),
      objGet_objSet_other _ _ _ _ (by decide), objGet_objSet_same]
  · simp only [triggerNode]
    rw [objGet_objSet_other _ _ _ _ (by decide), objGet_objSet_other _ _ _ _ (by decide),
      objGet_objSet_same]

/-- C8, witness: the form trigger of the catalog, selected in the freshly
mounted editor. -/
theorem trigger_select_creates_single_node_witness :
    formTriggerEntry ∈ triggerCatalog ∧
    ∃ node, (handleTriggerSelect formTriggerEntry
        "0a1b2c3d-1111-4222-8333-444444444444" mountedEditor).nodes = [node] ∧
      node.type = .str formTriggerEntry.type ∧ node.position = { x := 250, y := 50 } ∧
      (∀ kv ∈ formTriggerEntry.initialData, objGet node.data kv.1 = kv.2) ∧
      objGet node.data "label" = .str formTriggerEntry.label ∧
      objGet node.data "description" = .str formTriggerEntry.description ∧
      (handleTriggerSelect formTriggerEntry
        "0a1b2c3d-1111-4222-8333-444444444444" mountedEditor).nodes.length = 1 ∧
      (handleTriggerSelect formTriggerEntry
        "0a1b2c3d-1111-4222-8333-444444444444" mountedEditor).showTriggerPalette = false ∧
      renderedPalette (handleTriggerSelect formTriggerEntry
        "0a1b2c3d-1111-4222-8333-444444444444" mountedEditor) = .paletteSidebar ∧
      (handleTriggerSelect formTriggerEntry
        "0a1b2c3d-1111-4222-8333-444444444444" mountedEditor).selectedNode = some node :=
  ⟨by decide,
    trigger_select_creates_single_node formTriggerEntry (by decide)
      "0a1b2c3d-1111-4222-8333-444444444444" mountedEditor⟩

theorem getProp_name_of_id (result id : JVal) (h : getProp result "id" = .ok id) :
    ∃ name, getProp result "name" = .ok name := by
  cases result <;> simp [getProp] at h ⊢

/-- C10.  For a non-blank flow name `handleSave` issues exactly one request,
whose body is `{ name, description, definition: { nodes, edges } }` of the
current state: the update request `PUT /api/workflows/<id>` keyed by the flow
id when the flow id is truthy (present), the create request
`POST /api/workflows` when it is falsy (absent); when the backend answers with
a reply that has an `id`, the flow id becomes that id. -/
theorem handleSave_single_request (backend : HttpRequest → Except String JVal)
    (st : EditorState) (hname : isBlank st.flowName = false) :
    (truthy st.flowId = true →
      (handleSave backend st).2 =
        [{ method := "PUT"
           url := "/api/workflows/" ++ toTemplateString st.flowId
           body := { name := st.flowName, description := "An agentic workflow.",
                     nodes := st.nodes, edges := st.edges } }]) ∧
    (truthy st.flowId = false →
      (handleSave backend st).2 =
        [{ method := "POST"
           url := "/api/workflows"
           body := { name := st.flowName, description := "An agentic workflow.",
                     nodes := st.nodes, edges := st.edges } }]) ∧
    (handleSave backend st).2.length = 1 ∧
    (∀ req result id, (handleSave backend st).2 = [req] → backend req = .ok result →
      getProp result "id" = .ok id → (handleSave backend st).1.flowId = id) := by
  have hreq : (handleSave backend st).2 =
      [if truthy st.flowId then updateWorkflow st.flowId (saveBody st)
       else createWorkflow (saveBody st)] := by
    unfold handleSave
    simp only [hname, Bool.false_eq_true, if_false]
    cases backend (if truthy st.flowId = true then updateWorkflow st.flowId (saveBody st)
        else createWorkflow (saveBody st)) with
    | error e => rfl
    | ok result =>
      cases hid : getProp result "id" with
      | error e => simp only [hid]
      | ok id =>
        obtain ⟨name, hn⟩ := getProp_name_of_id result id hid
        simp only [hid, hn]
  refine ⟨?_, ?_, ?_, ?_⟩
  · intro h; rw [hreq]; simp [h, updateWorkflow, saveBody]
  · intro h; rw [hreq]; simp [h, createWorkflow, saveBody]
  · rw [hreq]; rfl
  · intro req result id hr hb hid
    rw [hreq] at hr
    simp only [List.cons.injEq, and_true] at hr
    obtain ⟨name, hn⟩ := getProp_name_of_id result id hid
    unfold handleSave
    simp only [hname, Bool.false_eq_true, if_false, hr, hb, hid, hn]

/-- C10, witness: a first save of the sample editor (no flow id yet) against
the sample backend, and a save once the id `wf-42` is known. -/
theorem handleSave_single_request_witness :
    isBlank sampleEditor.flowName = false ∧
    (handleSave sampleBackend sampleEditor).2 =
      [{ method := "POST"
         url := "/api/workflows"
         body := { name := "Untitled Agentflow", description := "An agentic workflow.",
                   nodes := [sampleAgent, sampleTool], edges := [] } }] ∧
    (handleSave sampleBackend sampleEditor).1.flowId = .str "wf-42" ∧
    (handleSave sampleBackend { sampleEditor with flowId := .str "wf-42" }).2
      = [{ method := "PUT"
           url := "/api/workflows/wf-42"
           body := { name := "Untitled Agentflow", description := "An agentic workflow.",
                     nodes := [sampleAgent, sampleTool], edges := [] } }] :=
  ⟨by decide,
    (handleSave_single_request sampleBackend sampleEditor (by decide)).2.1 (by decide),
    (handleSave_single_request sampleBackend sampleEditor (by decide)).2.2.2
      (createWorkflow (saveBody sampleEditor)) _ _ (by decide) rfl rfl,
    by decide⟩

/-- C7 (amended).  `onDrop` looks neither at the node list nor at the kind: on
a mounted canvas with an empty node list a drop whose payload parses to a
value other than `null` yields exactly one node, built from that payload.  In
the empty state the regular palette is replaced by the trigger palette exactly
while `showTriggerPalette` is set; and `handleTriggerSelect` yields a node
count of 1. -/
theorem drop_on_empty_editor (st : EditorState) (ev : DropEvent) (v : JVal)
    (hE : st.nodes = []) (hI : st.reactFlowInstance = true)
    (hv : ev.transfer = .json v) (hnn : v ≠ .null) :
    (onDrop ev st).nodes = [dropNode v ev.position ev.uuid] ∧
    (onDrop ev st).nodes.length = 1 ∧
    (renderedPalette st = .triggerPalette ↔ st.showTriggerPalette = true) ∧
    ∀ (t : TriggerEntry) (uuid : String), (handleTriggerSelect t uuid st).nodes.length = 1 := by
  have h1 : (onDrop ev st).nodes = [dropNode v ev.position ev.uuid] := by
    unfold onDrop
    rw [hv]
    cases v <;> simp_all
  refine ⟨h1, by rw [h1]; rfl, ?_, fun _ _ => rfl⟩
  unfold renderedPalette
  rw [hE]
  cases st.showTriggerPalette <;> simp

/-- C7, witness: the drop of a tool entry on the mounted editor after the
trigger palette was closed. -/
theorem drop_on_empty_editor_witness :
    (closeTriggerPalette mountedEditor).nodes = [] ∧
    (closeTriggerPalette mountedEditor).reactFlowInstance = true ∧
    sampleToolDrop.transfer = .json (.obj [("type", .str "toolNode"),
      ("label", .str "Search Apis"), ("description", .str "Searches the API catalogue."),
      ("nodeType", .str "tool"), ("name", .str "search_apis")]) ∧
    ((onDrop sampleToolDrop (closeTriggerPalette mountedEditor)).nodes
        = [dropNode (.obj [("type", .str "toolNode"),
            ("label", .str "Search Apis"), ("description", .str "Searches the API catalogue."),
            ("nodeType", .str "tool"), ("name", .str "search_apis")])
            sampleToolDrop.position sampleToolDrop.uuid] ∧
      (onDrop sampleToolDrop (closeTriggerPalette mountedEditor)).nodes.length = 1 ∧
      (renderedPalette (closeTriggerPalette mountedEditor) = .triggerPalette ↔
        (closeTriggerPalette mountedEditor).showTriggerPalette = true) ∧
      ∀ (t : TriggerEntry) (uuid : String),
        (handleTriggerSelect t uuid (closeTriggerPalette mountedEditor)).nodes.length = 1) :=
  ⟨by decide, by decide, by decide,
    drop_on_empty_editor (closeTriggerPalette mountedEditor) sampleToolDrop _
      (by decide) (by decide) rfl (by decide)⟩

/-- C7, counterexample.  The editor mounts empty with the trigger palette
shown; once that palette is closed the node list is still empty and the
regular palette is rendered, and the drop of a `toolNode` entry is not ignored:
the node list then holds one node, of type `toolNode`. -/
theorem tool_drop_on_empty_editor_adds_node :
    mountedEditor.nodes = [] ∧
    renderedPalette mountedEditor = .triggerPalette ∧
    (closeTriggerPalette mountedEditor).nodes.length = 0 ∧
    renderedPalette (closeTriggerPalette mountedEditor) = .paletteSidebar ∧
    (onDrop sampleToolDrop (closeTriggerPalette mountedEditor)).nodes.length = 1 ∧
    (onDrop sampleToolDrop (closeTriggerPalette mountedEditor)).nodes.map
        (fun n => (n.id, n.type)) = [("toolNode_9f8e7d6c", .str "toolNode")] := by
  decide

theorem jsSubstring_head_length (u : String) (h : 8 ≤ u.length) :
    (jsSubstring u 0 8).length = 8 := by
  have h2 : 8 ≤ u.data.length := h
  show ((u.data.drop 0).take (8 - 0)).length = 8
  rw [List.length_take, List.drop_zero]
  omega

theorem keyId_inj (a b : String × String) (ha : a.2.length = 8) (hb : b.2.length = 8)
    (h : keyId a = keyId b) : a = b := by
  obtain ⟨a1, a2⟩ := a
  obtain ⟨b1, b2⟩ := b
  simp only [keyId] at h
  have hd := congrArg String.data h
  simp only [String.data_append] at hd
  have hlen : a2.data.length = b2.data.length := by
    have h1 : a2.data.length = 8 := ha
    have h2 : b2.data.length = 8 := hb
    rw [h1, h2]
  obtain ⟨h1, h2⟩ := List.append_inj' hd hlen
  have h3 := List.append_cancel_right h1
  have e1 : a1 = b1 := String.ext h3
  have e2 : a2 = b2 := String.ext h2
  rw [e1, e2]

theorem addKey_head (op : AddOp) (key : String × String) (h : addKey op = some key)
    (hlen : 8 ≤ (addUuid op).length) : key.2.length = 8 := by
  cases op with
  | select t u =>
    simp only [addKey, Option.some.injEq] at h
    subst h
    exact jsSubstring_head_length u hlen
  | drop ev =>
    simp only [addKey] at h
    cases ht : ev.transfer with
    | empty => rw [ht] at h; simp at h
    | malformed => rw [ht] at h; simp at h
    | json v =>
      rw [ht] at h
      cases v <;> simp at h <;> (subst h; exact jsSubstring_head_length ev.uuid hlen)

/-- The node list after one addition: untouched, or replaced by one node, or
extended by one node, the new node carrying the id of the key of the
addition. -/
theorem applyAdd_nodes (op : AddOp) (st : EditorState) :
    (applyAdd op st).nodes = st.nodes ∨
    ∃ key n, addKey op = some key ∧ n.id = keyId key ∧
      ((applyAdd op st).nodes = [n] ∨ (applyAdd op st).nodes = st.nodes ++ [n]) := by
  cases op with
  | select t u =>
    right
    exact ⟨_, triggerNode t u, rfl, rfl, Or.inl rfl⟩
  | drop ev =>
    simp only [applyAdd, onDrop, addKey]
    cases ht : ev.transfer with
    | empty => left; rfl
    | malformed => left; simp only []; split <;> rfl
    | json v =>
      cases hI : st.reactFlowInstance with
      | false => left; simp
      | true =>
        cases v
        case null => left; simp
        all_goals
          right
          exact ⟨_, dropNode _ ev.position ev.uuid, rfl, rfl, Or.inr (by simp)⟩

theorem idsFromKeys_mono (K K2 : List (String × String)) (st : EditorState)
    (h : IdsFromKeys K st) (hsub : ∀ k ∈ K, k ∈ K2) : IdsFromKeys K2 st := by
  refine ⟨h.1, ?_⟩
  intro n hn
  obtain ⟨key, hk, h1, h2⟩ := h.2 n hn
  exact ⟨key, hsub key hk, h1, h2⟩

theorem applyAdd_inv (op : AddOp) (K : List (String × String)) (st : EditorState)
    (hInv : IdsFromKeys K st) (hlen : 8 ≤ (addUuid op).length)
    (hnd : (K ++ (addKey op).toList).Nodup) :
    IdsFromKeys (K ++ (addKey op).toList) (applyAdd op st) := by
  have hmono : IdsFromKeys (K ++ (addKey op).toList) st :=
    idsFromKeys_mono K _ st hInv (fun k hk => List.mem_append_left _ hk)
  rcases applyAdd_nodes op st with h | ⟨key, n, hkey, hid, h | h⟩
  · exact ⟨by rw [h]; exact hmono.1, by rw [h]; exact hmono.2⟩
  · have h8 := addKey_head op key hkey hlen
    refine ⟨by rw [h]; simp, ?_⟩
    rw [h]
    intro m hm
    rw [List.mem_singleton] at hm
    subst hm
    exact ⟨key, by simp [hkey], h8, hid⟩
  · have h8 := addKey_head op key hkey hlen
    rw [hkey] at hnd
    simp only [Option.toList_some] at hnd
    have hnotin : key ∉ K := by
      intro hk
      have := List.nodup_append.mp hnd
      exact this.2.2 hk (List.mem_singleton_self _)
    constructor
    · rw [h, List.map_append, List.nodup_append]
      refine ⟨hInv.1, by simp, ?_⟩
      intro x hx1 hx2
      simp only [List.map_cons, List.map_nil, List.mem_singleton] at hx2
      obtain ⟨m, hm, hmx⟩ := List.mem_map.mp hx1
      obtain ⟨k0, hk0, hk8, hmid⟩ := hInv.2 m hm
      have : k0 = key := by
        apply keyId_inj k0 key hk8 h8
        rw [← hmid, ← hid, hmx, hx2]
      exact hnotin (this ▸ hk0)
    · rw [h]
      intro m hm
      rcases List.mem_append.mp hm with hm | hm
      · exact hmono.2 m hm
      · rw [List.mem_singleton] at hm
        subst hm
        exact ⟨key, by simp [hkey], h8, hid⟩

theorem runAdds_inv (ops : List AddOp) (K : List (String × String)) (st : EditorState)
    (hInv : IdsFromKeys K st) (hlen : ∀ op ∈ ops, 8 ≤ (addUuid op).length)
    (hnd : (K ++ ops.filterMap addKey).Nodup) :
    IdsFromKeys (K ++ ops.filterMap addKey) (runAdds ops st) := by
  induction ops generalizing K st with
  | nil => simpa [runAdds] using hInv
  | cons op rest ih =>
    have hsplit : K ++ (op :: rest).filterMap addKey
        = (K ++ (addKey op).toList) ++ rest.filterMap addKey := by
      cases hk : addKey op <;> simp [List.filterMap_cons, hk]
    rw [hsplit] at hnd ⊢
    have hnd1 : (K ++ (addKey op).toList).Nodup := (List.nodup_append.mp hnd).1
    have h1 := applyAdd_inv op K st hInv (hlen op (List.mem_cons_self _ _)) hnd1
    have := ih (K ++ (addKey op).toList) (applyAdd op st) h1
      (fun o ho => hlen o (List.mem_cons_of_mem _ ho)) hnd
    simpa [runAdds] using this

/-- C6 (amended).  For every sequence of node additions (trigger selections
and drops) applied to an editor with no nodes, in which every uuid has at
least 8 characters and the pairs (type text, first 8 characters of the uuid)
of the additions are pairwise distinct, the ids of the nodes in the resulting
node list are pairwise distinct. -/
theorem added_node_ids_distinct (ops : List AddOp) (st : EditorState)
    (hE : st.nodes = [])
    (hlen : ∀ op ∈ ops, 8 ≤ (addUuid op).length)
    (hkeys : (ops.filterMap addKey).Nodup) :
    ((runAdds ops st).nodes.map (fun n => n.id)).Nodup := by
  have h0 : IdsFromKeys [] st := ⟨by rw [hE]; simp, by rw [hE]; simp⟩
  have := runAdds_inv ops [] st h0 hlen (by simpa using hkeys)
  exact this.1

/-- C6, witness: the form trigger selected and the sample tool dropped on the
mounted editor. -/
theorem added_node_ids_distinct_witness :
    mountedEditor.nodes = [] ∧
    (∀ op ∈ sampleAdds, 8 ≤ (addUuid op).length) ∧
    (sampleAdds.filterMap addKey).Nodup ∧
    ((runAdds sampleAdds mountedEditor).nodes.map (fun n => n.id)).Nodup :=
  ⟨by decide, by decide, by decide,
    added_node_ids_distinct sampleAdds mountedEditor (by decide) (by decide) (by decide)⟩

/-- C6, counterexample.  Two drops of the same tool entry draw two different
uuids that agree in their first 8 characters; both nodes get the id
`toolNode_9f8e7d6c`, so the ids of the node list are not pairwise distinct. -/
theorem added_node_ids_can_clash :
    sampleToolDrop.uuid ≠ sampleToolDropAgain.uuid ∧
    (runAdds sampleAddsClash (closeTriggerPalette mountedEditor)).nodes.map (fun n => n.id)
      = ["toolNode_9f8e7d6c", "toolNode_9f8e7d6c"] ∧
    ¬ ((runAdds sampleAddsClash (closeTriggerPalette mountedEditor)).nodes.map
        (fun n => n.id)).Nodup := by
  decide

/-- C12.  For a flow id that is fetched (a truthy id) and whose fetch rejects,
resolves with nothing or resolves with data that has no definition, `loadFlow`
ends in a state (no exception) with an empty node list, an empty edge list,
flow id `null`, the name `Untitled Agentflow`, the trigger palette shown and
the saving flag cleared. -/
theorem loadFlow_failure_resets (id : JVal) (fetched : FetchResult) (st : EditorState)
    (hid : truthy id = true)
    (hfail : (∃ message, fetched = .rejected message) ∨ fetched = .nothing ∨
      (∃ flowData, fetched = .details flowData ∧ flowData.definition = none)) :
    (loadFlow id fetched st).nodes = [] ∧ (loadFlow id fetched st).edges = [] ∧
    (loadFlow id fetched st).flowId = .null ∧
    (loadFlow id fetched st).flowName = "Untitled Agentflow" ∧
    (loadFlow id fetched st).showTriggerPalette = true ∧
    renderedPalette (loadFlow id fetched st) = .triggerPalette ∧
    (loadFlow id fetched st).isSaving = false := by
  have h : ∃ message, loadFlow id fetched st = loadFailed message st := by
    rcases hfail with ⟨m, rfl⟩ | rfl | ⟨d, rfl, hd⟩
    · exact ⟨m, by simp [loadFlow, hid]⟩
    · exact ⟨"Flow with ID " ++ toTemplateString id ++ " not found or has an invalid format.",
        by simp [loadFlow, hid]⟩
    · exact ⟨"Flow with ID " ++ toTemplateString id ++ " not found or has an invalid format.",
        by simp [loadFlow, hid, hd]⟩
  obtain ⟨m, hm⟩ := h
  rw [hm]
  exact ⟨rfl, rfl, rfl, rfl, rfl, rfl, rfl⟩

/-- C12, witness: a rejected fetch of `wf-42` into the sample editor. -/
theorem loadFlow_failure_resets_witness :
    truthy (.str "wf-42") = true ∧
    ((∃ message, FetchResult.rejected "Network Error" = .rejected message) ∨
      FetchResult.rejected "Network Error" = .nothing ∨
      (∃ flowData, FetchResult.rejected "Network Error" = .details flowData ∧
        flowData.definition = none)) ∧
    ((loadFlow (.str "wf-42") (.rejected "Network Error") sampleEditor).nodes = [] ∧
     (loadFlow (.str "wf-42") (.rejected "Network Error") sampleEditor).edges = [] ∧
     (loadFlow (.str "wf-42") (.rejected "Network Error") sampleEditor).flowId = .null ∧
     (loadFlow (.str "wf-42") (.rejected "Network Error") sampleEditor).flowName
        = "Untitled Agentflow" ∧
     (loadFlow (.str "wf-42") (.rejected "Network Error") sampleEditor).showTriggerPalette
        = true ∧
     renderedPalette (loadFlow (.str "wf-42") (.rejected "Network Error") sampleEditor)
        = .triggerPalette ∧
     (loadFlow (.str "wf-42") (.rejected "Network Error") sampleEditor).isSaving = false) :=
  ⟨by decide, Or.inl ⟨_, rfl⟩,
    loadFlow_failure_resets (.str "wf-42") (.rejected "Network Error") sampleEditor
      (by decide) (Or.inl ⟨_, rfl⟩)⟩

/-- C13 (amended).  When the node list has become empty, the effect on the node
count sets `showTriggerPalette` to true in an editor opened without a flow id,
and leaves it as it is in an editor opened on an existing flow id. -/
theorem palette_effect_on_empty (st : EditorState) (hE : st.nodes = []) :
    (truthy st.initialFlowId = false → (paletteEffect st).showTriggerPalette = true) ∧
    (truthy st.initialFlowId = true →
      (paletteEffect st).showTriggerPalette = st.showTriggerPalette) ∧
    (paletteEffect st).nodes = [] := by
  unfold paletteEffect
  rw [hE]
  refine ⟨?_, ?_, ?_⟩
  · intro h; simp [h]
  · intro h; simp [h]
  · cases h : truthy st.initialFlowId <;> simp [hE]

/-- C13, witness: the last node removed in an editor opened without a flow id. -/
theorem palette_effect_on_empty_witness :
    (removeNode "toolNode_9f8e7d6c"
      { closeTriggerPalette mountedEditor with nodes := [sampleTool] }).nodes = [] ∧
    (paletteEffect (removeNode "toolNode_9f8e7d6c"
      { closeTriggerPalette mountedEditor with nodes := [sampleTool] })).showTriggerPalette
      = true :=
  ⟨by decide,
    (palette_effect_on_empty (removeNode "toolNode_9f8e7d6c"
      { closeTriggerPalette mountedEditor with nodes := [sampleTool] }) (by decide)).1
      (by decide)⟩

/-- C13, counterexample.  In an editor opened on the existing flow `wf-42` the
trigger palette is hidden; after its last node is removed the node list is
empty, the effect has run, and `showTriggerPalette` is still false: the
trigger palette is not rendered. -/
theorem empty_node_list_keeps_palette_hidden :
    truthy sampleOpenedEditor.initialFlowId = true ∧
    sampleOpenedEditor.nodes.length = 1 ∧
    (removeNode "formTriggerNode_0a1b2c3d" sampleOpenedEditor).nodes = [] ∧
    (paletteEffect (removeNode "formTriggerNode_0a1b2c3d" sampleOpenedEditor)).showTriggerPalette
      = false ∧
    renderedPalette (paletteEffect (removeNode "formTriggerNode_0a1b2c3d" sampleOpenedEditor))
      = .paletteSidebar := by
  decide

/-- C14 (amended).  For a response (a truthy value) and no error: when `result`
is a non-empty string the modal appends exactly one `ai` entry with that
string; when `result` is falsy and `answer` is a non-empty string it appends
exactly one `ai` entry with `answer`; when `result` is truthy but not a string
it appends nothing, whatever `answer` holds.  Earlier entries are unchanged. -/
theorem modal_appends_agent_message (response : JVal) (chatHistory : List ChatEntry)
    (hr : truthy response = true) :
    (∀ m, readProp response "result" = .str m → m ≠ "" →
      modalEffect response .null chatHistory = chatHistory ++ [{ type := "ai", content := m }]) ∧
    (∀ m, truthy (readProp response "result") = false →
      readProp response "answer" = .str m → m ≠ "" →
      modalEffect response .null chatHistory = chatHistory ++ [{ type := "ai", content := m }]) ∧
    (truthy (readProp response "result") = true →
      (∀ m, readProp response "result" ≠ .str m) →
      modalEffect response .null chatHistory = chatHistory) := by
  have hnull : errorEntries .null = [] := rfl
  have hbase : modalEffect response .null chatHistory =
      chatHistory ++ (match jsOr (readProp response "result") (readProp response "answer") with
        | .str agentMessage =>
            if agentMessage ≠ "" then [{ type := "ai", content := agentMessage }] else []
        | _ => []) := by
    unfold modalEffect responseEntries
    rw [hnull, if_pos hr, List.append_nil]
  rw [hbase]
  refine ⟨?_, ?_, ?_⟩
  · intro m h1 h2
    have ht : truthy (.str m) = true := by simp [truthy, h2]
    simp only [jsOr, h1, ht, if_true]
    simp [h2]
  · intro m h1 h2 h3
    simp only [jsOr, h1, h2]
    simp [h3]
  · intro h1 h2
    simp only [jsOr, h1, if_true]
    cases hres : readProp response "result" with
    | str m => exact absurd hres (h2 m)
    | _ => simp

/-- C14, witness: a response whose `result` is text, one whose `answer` is
text, and the structured response. -/
theorem modal_appends_agent_message_witness :
    modalEffect (.obj [("result", .str "42 rows")]) .null initialChatHistory
      = initialChatHistory ++ [{ type := "ai", content := "42 rows" }] ∧
    modalEffect (.obj [("answer", .str "Hello")]) .null initialChatHistory
      = initialChatHistory ++ [{ type := "ai", content := "Hello" }] ∧
    modalEffect sampleStructuredResponse .null initialChatHistory = initialChatHistory :=
  ⟨(modal_appends_agent_message (.obj [("result", .str "42 rows")]) initialChatHistory
      (by decide)).1 "42 rows" (by decide) (by decide),
   (modal_appends_agent_message (.obj [("answer", .str "Hello")]) initialChatHistory
      (by decide)).2.1 "Hello" (by decide) (by decide) (by decide),
   (modal_appends_agent_message sampleStructuredResponse initialChatHistory
      (by decide)).2.2 (by decide)
      (fun m h => by simp [sampleStructuredResponse, readProp, getProp, objGet] at h)⟩

/-- C14, counterexample.  A response whose `answer` is the non-empty string
`Done.` and whose `result` is an object: no entry is appended. -/
theorem structured_result_hides_answer :
    readProp sampleStructuredResponse "answer" = .str "Done." ∧
    readProp sampleStructuredResponse "result" = .obj [("rows", .num 3)] ∧
    modalEffect sampleStructuredResponse .null initialChatHistory = initialChatHistory := by
  decide

/-- C15 (amended).  For a flow with an id and a rejected execute request,
`handleExecute` ends in a state (no exception) whose execution error is the
`detail` of the reply when that is truthy and `error.message` otherwise, whose
response is `null` and whose executing flag is cleared.  When the recorded
error is a non-empty string, the modal appends exactly one entry
`⚠️ Error: <error>`; when it is an array, the entry reads
`⚠️ Error: An unknown error occurred.`; when it is falsy, nothing is appended. -/
theorem handleExecute_failure_recorded (error : RequestError) (st : EditorState)
    (chatHistory : List ChatEntry) (hid : truthy st.flowId = true) :
    (truthy error.detail = true →
      (handleExecute (.rejected error) st).execError = error.detail) ∧
    (truthy error.detail = false →
      (handleExecute (.rejected error) st).execError = error.message) ∧
    (handleExecute (.rejected error) st).execResponse = .null ∧
    (handleExecute (.rejected error) st).isExecuting = false ∧
    (∀ e, (handleExecute (.rejected error) st).execError = .str e → e ≠ "" →
      modalEffect (handleExecute (.rejected error) st).execResponse
        (handleExecute (.rejected error) st).execError chatHistory
        = chatHistory ++ [{ type := "ai", content := "⚠️ Error: " ++ e }]) ∧
    (∀ xs, (handleExecute (.rejected error) st).execError = .arr xs →
      modalEffect (handleExecute (.rejected error) st).execResponse
        (handleExecute (.rejected error) st).execError chatHistory
        = chatHistory ++ [{ type := "ai", content := "⚠️ Error: An unknown error occurred." }]) ∧
    (truthy (handleExecute (.rejected error) st).execError = false →
      modalEffect (handleExecute (.rejected error) st).execResponse
        (handleExecute (.rejected error) st).execError chatHistory = chatHistory) := by
  have hE : (handleExecute (.rejected error) st).execError = jsOr error.detail error.message := by
    simp [handleExecute, hid]
  have hR : (handleExecute (.rejected error) st).execResponse = .null := by
    simp [handleExecute, hid]
  refine ⟨?_, ?_, hR, ?_, ?_, ?_, ?_⟩
  · intro h; rw [hE]; simp [jsOr, h]
  · intro h; rw [hE]; simp [jsOr, h]
  · simp [handleExecute, hid]
  · intro e he hne
    rw [hR, he]
    have ht : truthy (.str e) = true := by simp [truthy, hne]
    simp only [modalEffect, responseEntries, errorEntries, ht, if_true]
    simp [truthy, readProp, getProp, jsOr, toTemplateString, hne]
  · intro xs he
    rw [hR, he]
    have ht : truthy (.arr xs) = true := rfl
    simp only [modalEffect, responseEntries, errorEntries, ht, if_true]
    simp [truthy, readProp, getProp, jsOr, toTemplateString]
  · intro h
    rw [hR]
    simp only [modalEffect, responseEntries, errorEntries, h]
    simp [truthy]

/-- C15, witness: a rejected request with the detail `Flow not found` on the
opened sample editor. -/
theorem handleExecute_failure_recorded_witness :
    truthy sampleOpenedEditor.flowId = true ∧
    (handleExecute (.rejected sampleNotFoundError) sampleOpenedEditor).execError
      = .str "Flow not found" ∧
    modalEffect
      (handleExecute (.rejected sampleNotFoundError) sampleOpenedEditor).execResponse
      (handleExecute (.rejected sampleNotFoundError) sampleOpenedEditor).execError
      initialChatHistory
      = initialChatHistory ++ [{ type := "ai", content := "⚠️ Error: " ++ "Flow not found" }] :=
  ⟨by decide,
   (handleExecute_failure_recorded sampleNotFoundError sampleOpenedEditor
      initialChatHistory (by decide)).1 (by decide),
   (handleExecute_failure_recorded sampleNotFoundError sampleOpenedEditor
      initialChatHistory (by decide)).2.2.2.2.1 "Flow not found" (by decide) (by decide)⟩

/-- C15, counterexample.  The backend rejects the request with a list of
validation errors as `detail`; `handleExecute` records that list, and the
entry the modal appends reads `An unknown error occurred.`, not the detail. -/
theorem validation_detail_not_shown :
    (handleExecute (.rejected sampleValidationError) sampleOpenedEditor).execError
      = sampleValidationError.detail ∧
    modalEffect
      (handleExecute (.rejected sampleValidationError) sampleOpenedEditor).execResponse
      (handleExecute (.rejected sampleValidationError) sampleOpenedEditor).execError
      initialChatHistory
      = initialChatHistory ++
          [{ type := "ai", content := "⚠️ Error: An unknown error occurred." }] := by
  decide

theorem jsonCloneFields_keys (fs : JObj) (k : String)
    (h : k ∈ (jsonCloneFields fs).map Prod.fst) : k ∈ fs.map Prod.fst := by
  induction fs with
  | nil => simp [jsonCloneFields] at h
  | cons p rest ih =>
    obtain ⟨k1, v⟩ := p
    have hfilter : k ∈ ((jsonCloneFields rest).filter (fun p => p.1 != k1)).map Prod.fst →
        k ∈ rest.map Prod.fst := by
      intro hx
      obtain ⟨q, hq, hqk⟩ := List.mem_map.mp hx
      exact ih (List.mem_map.mpr ⟨q, (List.mem_filter.mp hq).1, hqk⟩)
    cases v <;> simp only [jsonCloneFields, List.map_cons, List.mem_cons] at h ⊢
    all_goals first
      | exact Or.inr (hfilter h)
      | (rcases h with h | h
         · exact Or.inl h
         · exact Or.inr (hfilter h))

theorem jsonCloneFields_nodup (fs : JObj) : ((jsonCloneFields fs).map Prod.fst).Nodup := by
  induction fs with
  | nil => simp [jsonCloneFields]
  | cons p rest ih =>
    obtain ⟨k1, v⟩ := p
    have hsub : (((jsonCloneFields rest).filter (fun p => p.1 != k1)).map Prod.fst).Nodup :=
      (ih.sublist ((List.filter_sublist _).map Prod.fst))
    have hnot : k1 ∉ ((jsonCloneFields rest).filter (fun p => p.1 != k1)).map Prod.fst := by
      intro hx
      obtain ⟨q, hq, hq1⟩ := List.mem_map.mp hx
      have := (List.mem_filter.mp hq).2
      simp [hq1] at this
    cases v <;> simp only [jsonCloneFields, List.map_cons, List.nodup_cons]
    all_goals first
      | exact hsub
      | exact ⟨hnot, hsub⟩

theorem objSet_new (o : JObj) (k : String) (v : JVal) (h : k ∉ o.map Prod.fst) :
    objSet o k v = o ++ [(k, v)] := by
  induction o with
  | nil => rfl
  | cons p rest ih =>
    obtain ⟨k1, v1⟩ := p
    simp only [List.map_cons, List.mem_cons, not_or] at h
    have hne : ¬ k1 = k := fun e => h.1 e.symm
    simp [objSet, hne, ih h.2]

theorem objSpread_nodup (base src : JObj) (hs : (src.map Prod.fst).Nodup)
    (hd : ∀ k ∈ src.map Prod.fst, k ∉ base.map Prod.fst) :
    objSpread base src = base ++ src := by
  induction src generalizing base with
  | nil => simp [objSpread]
  | cons p rest ih =>
    obtain ⟨k, v⟩ := p
    simp only [List.map_cons, List.nodup_cons] at hs
    have hk : k ∉ base.map Prod.fst := hd k (by simp)
    have hstep : objSpread base ((k, v) :: rest) = objSpread (objSet base k v) rest := rfl
    rw [hstep, objSet_new base k v hk, ih (base ++ [(k, v)]) hs.2]
    · simp
    · intro x hx
      simp only [List.map_append, List.map_cons, List.map_nil, List.mem_append,
        List.mem_singleton, not_or]
      exact ⟨hd x (by simp [hx]), fun e => hs.1 (e ▸ hx)⟩

theorem processNode_wireNode_data (n : Node) :
    (processNode (wireNode n)).data =
      objSet (objSet (jsonCloneFields n.data) "onNodeClick" (.fn "onNodeClick"))
        "onSettingsClick" (.fn "onSettingsClick") := by
  simp only [processNode, wireNode]
  rw [objSpread_nodup [] _ (jsonCloneFields_nodup n.data) (by simp)]
  simp

theorem handleSave_request (backend : HttpRequest → Except String JVal) (st : EditorState)
    (hname : isBlank st.flowName = false) :
    (handleSave backend st).2 =
      [if truthy st.flowId then updateWorkflow st.flowId (saveBody st)
       else createWorkflow (saveBody st)] := by
  unfold handleSave
  simp only [hname, Bool.false_eq_true, if_false]
  cases backend (if truthy st.flowId = true then updateWorkflow st.flowId (saveBody st)
      else createWorkflow (saveBody st)) with
  | error e => rfl
  | ok result =>
    cases hid : getProp result "id" with
    | error e => simp only [hid]
    | ok id =>
      obtain ⟨name, hn⟩ := getProp_name_of_id result id hid
      simp only [hid, hn]

/-- C11 (amended).  Against a backend that stores what a save sends and returns
it unchanged, a save as an update followed by a load of the same id yields the
saved edge list, and a node list that pairs off with the saved one in order:
each node has the saved id and position, the JSON form of the saved type, and
data in which every field other than `onNodeClick` and `onSettingsClick` is
the JSON copy of the saved field, while those two hold the callbacks. -/
theorem save_load_round_trip (backend : HttpRequest → Except String JVal) (st : EditorState)
    (hname : isBlank st.flowName = false) (hid : truthy st.flowId = true) :
    saveThenLoad backend st = (st.nodes.map (fun n => processNode (wireNode n)), st.edges) ∧
    (saveThenLoad backend st).1.length = st.nodes.length ∧
    ∀ n ∈ st.nodes,
      (processNode (wireNode n)).id = n.id ∧
      (processNode (wireNode n)).position = n.position ∧
      (processNode (wireNode n)).type = cloneTop n.type ∧
      (∀ k, k ≠ "onNodeClick" → k ≠ "onSettingsClick" →
        objGet (processNode (wireNode n)).data k = cloneTop (objGet n.data k)) ∧
      objGet (processNode (wireNode n)).data "onNodeClick" = .fn "onNodeClick" ∧
      objGet (processNode (wireNode n)).data "onSettingsClick" = .fn "onSettingsClick" := by
  have hreq := (handleSave_request backend st hname)
  have hmain : saveThenLoad backend st
      = (st.nodes.map (fun n => processNode (wireNode n)), st.edges) := by
    unfold saveThenLoad
    have hpair : handleSave backend st = ((handleSave backend st).1, (handleSave backend st).2) :=
      rfl
    rw [hpair, hreq]
    simp [loadFlow, hid, storedDetails, updateWorkflow, saveBody, List.map_map]
  refine ⟨hmain, by rw [hmain]; simp, ?_⟩
  intro n _
  refine ⟨rfl, rfl, rfl, ?_, ?_, ?_⟩
  · intro k h1 h2
    rw [processNode_wireNode_data, objGet_objSet_other _ _ _ _ (Ne.symm h2),
      objGet_objSet_other _ _ _ _ (Ne.symm h1), objGet_jsonCloneFields]
  · rw [processNode_wireNode_data, objGet_objSet_other _ _ _ _ (by decide), objGet_objSet_same]
  · rw [processNode_wireNode_data, objGet_objSet_same]

/-- C11, witness: the form editor with the field `email` is saved and loaded
again; its nodes and edges come back as they were saved, `formElements`
included. -/
theorem save_load_round_trip_witness :
    isBlank sampleFormEditor.flowName = false ∧ truthy sampleFormEditor.flowId = true ∧
    saveThenLoad sampleBackend sampleFormEditor
      = (sampleFormEditor.nodes, sampleFormEditor.edges) ∧
    firstNodeField (saveThenLoad sampleBackend sampleFormEditor).1 "formElements"
      = .arr [.obj [("name", .str "email"), ("label", .str "Email"), ("type", .str "email"),
                    ("required", .bool true)]] ∧
    saveThenLoad sampleBackend sampleFormEditor
      = (sampleFormEditor.nodes.map (fun n => processNode (wireNode n)),
         sampleFormEditor.edges) :=
  ⟨by decide, by decide, by decide, by decide,
    (save_load_round_trip sampleBackend sampleFormEditor (by decide) (by decide)).1⟩

/-- C11, counterexample.  The sample editor with the tool plugged into the
agent is saved and loaded again.  The agent, first in the node list, was saved
without `onNodeClick` and with a tool snapshot that carries `onNodeClick`; it
comes back with `onNodeClick` and with a tool snapshot that has lost it, so
the loaded node list differs from the saved one. -/
theorem round_trip_changes_agent_data :
    isBlank sampleConnectedEditor.flowName = false ∧
    truthy sampleConnectedEditor.flowId = true ∧
    firstNodeField sampleConnectedEditor.nodes "onNodeClick" = .undefined ∧
    firstNodeField (saveThenLoad sampleBackend sampleConnectedEditor).1 "onNodeClick"
      = .fn "onNodeClick" ∧
    firstNodeField sampleConnectedEditor.nodes "tools"
      = .arr [.obj [("label", .str "Search Apis"),
                    ("description", .str "Searches the API catalogue."),
                    ("nodeType", .str "tool"), ("name", .str "search_apis"),
                    ("onNodeClick", .fn "onNodeClick"),
                    ("onSettingsClick", .fn "onSettingsClick")]] ∧
    firstNodeField (saveThenLoad sampleBackend sampleConnectedEditor).1 "tools"
      = .arr [.obj [("label", .str "Search Apis"),
                    ("description", .str "Searches the API catalogue."),
                    ("nodeType", .str "tool"), ("name", .str "search_apis")]] ∧
    (saveThenLoad sampleBackend sampleConnectedEditor).1 ≠ sampleConnectedEditor.nodes := by
  decide

/-- C16, counterexample: for the frame `{"sender": "", "text": "Step 1"}` the
role is `assistant` and not the lower-cased sender, which is empty; for the
frame `{"sender": "Planner", "text": ""}` the text is the raw frame and not
the empty `text`. -/
theorem empty_sender_or_text_falls_back :
    (ChatInterface.inboundMessage asciiEngine sampleNoSenderFrame).role = "assistant" ∧
    (ChatInterface2.inboundMessage asciiEngine sampleNoSenderFrame).role = "assistant" ∧
    asciiEngine.toLowerCase "" = "" ∧
    messageText (ChatInterface.inboundMessage asciiEngine sampleNoTextFrame)
      = .str sampleNoTextFrame.data ∧
    messageText (ChatInterface2.inboundMessage asciiEngine sampleNoTextFrame)
      = .str sampleNoTextFrame.data ∧
    sampleNoTextFrame.data ≠ "" := by
  decide

/-- C16 (amended).  For every transcript and every inbound frame, `onmessage`
(in both chat components) appends exactly one message at the end and leaves
the earlier messages as they are.  For a frame that parses to a value with a
string `sender` and a string `text`, the role is `lowercase(sender)`, or
`assistant` when that is empty; the text is `text`, or, when `text` is empty,
the raw frame (in ChatInterface2 the empty text is kept for the types
`final_answer` and `agent_message`).  For a frame that is not valid JSON the
message has the role `assistant` and the raw frame as text. -/
theorem onmessage_appends_one (E : Engine) (frame : Frame) (st : ChatState) :
    (ChatInterface.onMessage E frame st).messages
      = st.messages ++ [ChatInterface.inboundMessage E frame] ∧
    (ChatInterface2.onMessage E frame st).messages
      = st.messages ++ [ChatInterface2.inboundMessage E frame] ∧
    (∀ parsed s t, frame.parsed = some parsed →
      getProp parsed "sender" = .ok (.str s) →
      readProp parsed "text" = .str t →
      (ChatInterface.inboundMessage E frame).role
        = (if E.toLowerCase s = "" then "assistant" else E.toLowerCase s) ∧
      messageText (ChatInterface.inboundMessage E frame)
        = (if t = "" then .str frame.data else .str t) ∧
      (ChatInterface2.inboundMessage E frame).role
        = (if E.toLowerCase s = "" then "assistant" else E.toLowerCase s) ∧
      messageText (ChatInterface2.inboundMessage E frame)
        = (if t = "" ∧ isAnswerFrame parsed = false then .str frame.data else .str t)) ∧
    (frame.parsed = none →
      (ChatInterface.inboundMessage E frame).role = "assistant" ∧
      messageText (ChatInterface.inboundMessage E frame) = .str frame.data ∧
      (ChatInterface2.inboundMessage E frame).role = "assistant" ∧
      messageText (ChatInterface2.inboundMessage E frame) = .str frame.data) := by
  refine ⟨rfl, rfl, ?_, ?_⟩
  · intro parsed s t hp hs ht
    have hrole : senderRole E parsed
        = some (if E.toLowerCase s = "" then "assistant" else E.toLowerCase s) := by
      simp only [senderRole, hs]
    have htext : ∀ w : JVal, jsOr (.str t) w = if t = "" then w else .str t := by
      intro w
      by_cases h0 : t = ""
      · simp [jsOr, truthy, h0]
      · simp [jsOr, truthy, h0]
    refine ⟨?_, ?_, ?_, ?_⟩
    · simp only [ChatInterface.inboundMessage, hp, hrole]
    · simp only [ChatInterface.inboundMessage, hp, hrole, ht, htext]
      by_cases h0 : t = "" <;> simp [messageText, readProp, getProp, objGet, h0]
    · simp only [ChatInterface2.inboundMessage, hp, hrole]
      split <;> rfl
    · simp only [ChatInterface2.inboundMessage, hp, hrole, ht, htext]
      by_cases hty : isAnswerFrame parsed = true
      · have hty2 := hty
        simp only [isAnswerFrame] at hty2
        simp only [hty2, if_true]
        by_cases h0 : t = "" <;> simp [messageText, readProp, getProp, objGet, h0, hty]
      · have hty2 := hty
        simp only [isAnswerFrame] at hty2
        simp only [hty2, if_false]
        by_cases h0 : t = "" <;> simp [messageText, readProp, getProp, objGet, h0, hty]
  · intro hp
    simp [ChatInterface.inboundMessage, ChatInterface2.inboundMessage, hp, rawMessage,
      messageText, readProp, getProp, objGet]

/-- C16, witness: a frame of the sender `Planner` and a frame that is not
JSON, on the connecting sample chat. -/
theorem onmessage_appends_one_witness :
    (ChatInterface.onMessage asciiEngine samplePlannerFrame sampleConnectingChat).messages
      = sampleConnectingChat.messages ++
          [{ role := "planner",
             content := .obj [("type", .str "answer"), ("text", .str "Step 1")] }] ∧
    ((ChatInterface.inboundMessage asciiEngine samplePlainFrame).role = "assistant" ∧
      messageText (ChatInterface.inboundMessage asciiEngine samplePlainFrame) = .str "pong" ∧
      (ChatInterface2.inboundMessage asciiEngine samplePlainFrame).role = "assistant" ∧
      messageText (ChatInterface2.inboundMessage asciiEngine samplePlainFrame) = .str "pong") :=
  ⟨by decide,
    (onmessage_appends_one asciiEngine samplePlainFrame sampleConnectingChat).2.2.2 rfl⟩

/-- C17, the defect.  The builder has one socket and it is open; a further
`connectWebSocket` is not a no-op: it creates a second socket and moves
`ws.current` to it, the first socket stays open, and two sockets of the
conversation are connecting or open. -/
theorem builder_connect_while_open_adds_socket :
    currentOpen sampleRunningBuilder.sockets sampleRunningBuilder.ws = true ∧
    liveSockets sampleRunningBuilder.sockets = 1 ∧
    (SuperAgentBuilder.connectWebSocket
        (.ok "ws://localhost:8000/ws?session_id=s-2&token=t0") sampleRunningBuilder).sockets
      = [{ url := "ws://localhost:8000/ws?session_id=s-1&token=t0", readyState := .OPEN },
         { url := "ws://localhost:8000/ws?session_id=s-2&token=t0", readyState := .CONNECTING }] ∧
    (SuperAgentBuilder.connectWebSocket
        (.ok "ws://localhost:8000/ws?session_id=s-2&token=t0") sampleRunningBuilder).ws
      = some 1 ∧
    liveSockets (SuperAgentBuilder.connectWebSocket
        (.ok "ws://localhost:8000/ws?session_id=s-2&token=t0") sampleRunningBuilder).sockets
      = 2 := by
  decide

/-- The sibling path: in the chat component `connectWebSocket` is a no-op
while the current socket is open. -/
theorem chat_connect_while_open_noop (props : ChatProps) (newSessionId : JVal)
    (st : ChatState) (h : currentOpen st.sockets st.ws = true) :
    ChatInterface.connectWebSocket props newSessionId st = st := by
  unfold ChatInterface.connectWebSocket
  cases truthy props.token <;> simp [h]

/-- C18 (amended).  For a turn issued while the current socket is not open: in
the chat component a signed-in user's non-blank turn sends no frame but is
appended to the transcript and posted to the ask endpoint (with an agent id)
or the rag endpoint (without); in the builder `handleUserReply` sends nothing
and leaves the state as it is. -/
theorem turn_while_socket_not_open (props : ChatProps) (query : String) (st : ChatState)
    (hq : isBlank query = false) (hauth : props.isAuthenticated = true)
    (hno : currentOpen st.sockets st.ws = false) :
    (ChatInterface.handleSendMessage props query st).2
      = [.post (if truthy props.agentId then ChatInterface.API_ASK_URL
                else ChatInterface.API_RAG_URL)
          [("query", .str query), ("lang", .str "en"), ("agent_id", props.agentId)]] ∧
    (ChatInterface.handleSendMessage props query st).1.messages
      = st.messages ++ [{ role := "user", content := .obj [("text", .str query)] }] ∧
    (∀ b : SuperAgentBuilder.BuilderState, currentOpen b.sockets b.ws = false →
      SuperAgentBuilder.handleUserReply b = (b, [])) := by
  refine ⟨?_, ?_, ?_⟩
  · simp [ChatInterface.handleSendMessage, hq, hauth, hno]
  · simp [ChatInterface.handleSendMessage, hq, hauth, hno]
  · intro b hb
    simp [SuperAgentBuilder.handleUserReply, hb]

/-- C18, witness: the turn `hello` on the sample chat, whose socket is still
connecting. -/
theorem turn_while_socket_not_open_witness :
    isBlank "hello" = false ∧ sampleChatProps.isAuthenticated = true ∧
    currentOpen sampleConnectingChat.sockets sampleConnectingChat.ws = false ∧
    ((ChatInterface.handleSendMessage sampleChatProps "hello" sampleConnectingChat).2
      = [.post (if truthy sampleChatProps.agentId then ChatInterface.API_ASK_URL
                else ChatInterface.API_RAG_URL)
          [("query", .str "hello"), ("lang", .str "en"),
           ("agent_id", sampleChatProps.agentId)]] ∧
    (ChatInterface.handleSendMessage sampleChatProps "hello" sampleConnectingChat).1.messages
      = sampleConnectingChat.messages ++
          [{ role := "user", content := .obj [("text", .str "hello")] }] ∧
    (∀ b : SuperAgentBuilder.BuilderState, currentOpen b.sockets b.ws = false →
      SuperAgentBuilder.handleUserReply b = (b, []))) :=
  ⟨by decide, by decide, by decide,
    turn_while_socket_not_open sampleChatProps "hello" sampleConnectingChat
      (by decide) (by decide) (by decide)⟩

/-- C18, counterexample.  The socket of the sample chat is still connecting;
the turn `hello` is not rejected: a request to the rag endpoint is emitted. -/
theorem turn_while_connecting_is_posted :
    sampleConnectingChat.sockets.map (fun s => s.readyState) = [.CONNECTING] ∧
    (ChatInterface.handleSendMessage sampleChatProps "hello" sampleConnectingChat).2
      = [.post "http://localhost:8000/api/rag"
          [("query", .str "hello"), ("lang", .str "en"), ("agent_id", .null)]] := by
  decide

/-- C19.  In both chat components the closure of the channel appends exactly
one message, of role `system` and text `The interactive session has ended.`,
and marks the session non-interactive; a channel error appends exactly one
message, of role `assistant`, with the connection-lost notice.  Earlier
messages are unchanged. -/
theorem channel_close_and_error_notices (st : ChatState) :
    (ChatInterface.onClose st).messages = st.messages ++ [sessionEndedMessage] ∧
    (ChatInterface.onClose st).isInteractiveSession = false ∧
    (ChatInterface2.onClose st).messages = st.messages ++ [sessionEndedMessage] ∧
    (ChatInterface2.onClose st).isInteractiveSession = false ∧
    (ChatInterface.onError st).messages = st.messages ++ [connectionLostMessage] ∧
    (ChatInterface2.onError st).messages = st.messages ++ [connectionLostMessage] ∧
    sessionEndedMessage.role = "system" ∧
    messageText sessionEndedMessage = .str "The interactive session has ended." ∧
    connectionLostMessage.role = "assistant" ∧
    messageText connectionLostMessage
      = .str "Sorry, I lost connection with my team. Please try again." :=
  ⟨rfl, rfl, rfl, rfl, rfl, rfl, rfl, rfl, rfl, rfl⟩

theorem includesChars_iff (s sub : List Char) : includesChars s sub = true ↔ sub <:+: s := by
  induction s with
  | nil =>
    simp only [includesChars, List.isPrefixOf_iff_prefix, List.prefix_nil, List.infix_nil]
  | cons c cs ih =>
    simp only [includesChars, Bool.or_eq_true, List.isPrefixOf_iff_prefix, ih,
      List.infix_cons_iff]

theorem includesChars_nil (s : List Char) : includesChars s [] = true :=
  (includesChars_iff s []).mpr List.nil_infix

theorem jsIncludes_eq (a b : String) : jsIncludes a b = decide (b.data <:+: a.data) := by
  by_cases h : b.data <:+: a.data
  · simp [jsIncludes, h, (includesChars_iff a.data b.data).mpr h]
  · have : includesChars a.data b.data = false := by
      cases hc : includesChars a.data b.data with
      | false => rfl
      | true => exact absurd ((includesChars_iff a.data b.data).mp hc) h
    simp [jsIncludes, h, this]

theorem matchesSearch_eq (E : Engine) (s : String) (e : TriggerEntry) :
    matchesSearch E s e = keptBySearch E s e.label (.str e.description) := by
  simp only [matchesSearch, keptBySearch, containsLowered, jsIncludes_eq]

theorem matchesNode_text (E : Engine) (s : String) (e : PaletteEntry) (d : String)
    (hd : e.description = .str d) :
    matchesNode E s e = .ok (keptBySearch E s e.label e.description) := by
  simp only [matchesNode, keptBySearch, containsLowered, jsIncludes_eq, hd]
  by_cases h : (E.toLowerCase s).data <:+: (E.toLowerCase e.label).data <;> simp [h]

theorem matchesNode_empty (E : Engine) (e : PaletteEntry) : matchesNode E "" e = .ok true := by
  have h : (E.toLowerCase "").data = [] := by rw [E.lower_empty]
  simp [matchesNode, jsIncludes_eq, h]

theorem matchesSearch_empty (E : Engine) (e : TriggerEntry) : matchesSearch E "" e = true := by
  have h : (E.toLowerCase "").data = [] := by rw [E.lower_empty]
  simp [matchesSearch, jsIncludes_eq, h]

theorem filterNodes_text (E : Engine) (s : String) (l : List PaletteEntry)
    (h : ∀ e ∈ l, ∃ d, e.description = .str d) :
    filterNodes E s l = .ok (l.filter (fun e => keptBySearch E s e.label e.description)) := by
  induction l with
  | nil => rfl
  | cons e rest ih =>
    obtain ⟨d, hd⟩ := h e (List.mem_cons_self _ _)
    have hrest := ih (fun x hx => h x (List.mem_cons_of_mem _ hx))
    simp only [filterNodes, matchesNode_text E s e d hd, hrest, List.filter_cons]

theorem filterNodes_empty (E : Engine) (l : List PaletteEntry) : filterNodes E "" l = .ok l := by
  induction l with
  | nil => rfl
  | cons e rest ih => simp [filterNodes, matchesNode_empty, ih]

theorem searchSections_text (E : Engine) (s : String) (sections : List PaletteSection)
    (h : ∀ cat ∈ sections, ∀ e ∈ cat.nodes, ∃ d, e.description = .str d) :
    searchSections E s sections = .ok (sections.map (fun cat =>
      { cat with nodes := cat.nodes.filter (fun e => keptBySearch E s e.label e.description) })) := by
  induction sections with
  | nil => rfl
  | cons c rest ih =>
    have hc := filterNodes_text E s c.nodes (h c (List.mem_cons_self _ _))
    have hrest := ih (fun x hx => h x (List.mem_cons_of_mem _ hx))
    simp [searchSections, hc, hrest]

theorem searchSections_empty (E : Engine) (sections : List PaletteSection) :
    searchSections E "" sections = .ok sections := by
  induction sections with
  | nil => rfl
  | cons c rest ih => simp [searchSections, filterNodes_empty, ih]

theorem allTriggers_filtered (E : Engine) (searchTerm : String) (cats : List TriggerCategory) :
    allTriggers (filteredTriggers E searchTerm cats)
      = (allTriggers cats).filter (matchesSearch E searchTerm) := by
  induction cats with
  | nil => rfl
  | cons c rest ih =>
    simp only [allTriggers, filteredTriggers, List.map_cons, List.flatten_cons,
      List.filter_append] at ih ⊢
    rw [← ih]
    cases hf : c.triggers.filter (matchesSearch E searchTerm) with
    | nil => simp [List.filter_cons, hf]
    | cons x xs => simp [List.filter_cons, hf]

theorem allNodes_filtered (p : PaletteEntry → Bool) (sections : List PaletteSection) :
    allNodes ((sections.map (fun cat => { cat with nodes := cat.nodes.filter p })).filter
      (fun cat => cat.nodes.length > 0 || cat.sectionTitle == "Tools"))
      = (allNodes sections).filter p := by
  induction sections with
  | nil => rfl
  | cons c rest ih =>
    simp only [allNodes, List.map_cons, List.flatten_cons, List.filter_append] at ih ⊢
    rw [← ih]
    cases hf : c.nodes.filter p with
    | nil =>
      by_cases ht : c.sectionTitle = "Tools"
      · simp [List.filter_cons, hf, ht]
      · simp [List.filter_cons, hf, ht]
    | cons x xs => simp [List.filter_cons, hf]

theorem allNodes_kept (sections : List PaletteSection) :
    allNodes (sections.filter (fun cat => cat.nodes.length > 0 || cat.sectionTitle == "Tools"))
      = allNodes sections := by
  have := allNodes_filtered (fun _ => true) sections
  simpa using this

/-- C20, counterexample: a tool that the backend lists without a description
becomes a palette entry whose description is `undefined`; with the search term
`gemini`, which its label does not contain, the filter of the regular palette
raises instead of returning a filtered catalog. -/
theorem search_raises_on_tool_without_description :
    (refreshToolsForPalette [sampleBareTool]).map
        (fun tools => tools.map (fun e => (e.label, e.description)))
      = some [("Search Apis", .undefined)] ∧
    (refreshToolsForPalette [sampleBareTool]).map
        (fun tools => sectionsShown
          (filteredPaletteNodes asciiEngine "LangChain" "gemini" (paletteNodes tools)))
      = some none := by
  decide

/-- C20 (amended).  For every list of trigger categories, every list of
palette sections whose entries of the active category have a string
description, and every search term: both filters return, and the entries they
keep are, in their original order, exactly the entries (of the active
category, for the regular palette) whose lower-cased label or lower-cased
description contains the lower-cased term.  The empty term keeps every entry,
whatever the descriptions; and every section of the regular catalog is of the
active category `LangChain`. -/
theorem palette_filter_keeps_matches (E : Engine) (searchTerm activeCategory : String)
    (cats : List TriggerCategory) (sections : List PaletteSection)
    (hdesc : ∀ cat ∈ sections, cat.category = activeCategory →
      ∀ e ∈ cat.nodes, ∃ d, e.description = .str d) :
    allTriggers (filteredTriggers E searchTerm cats)
      = (allTriggers cats).filter
          (fun e => keptBySearch E searchTerm e.label (.str e.description)) ∧
    (∃ shown, filteredPaletteNodes E activeCategory searchTerm sections = .ok shown ∧
      allNodes shown
        = (allNodes (sections.filter (fun cat => cat.category == activeCategory))).filter
            (fun e => keptBySearch E searchTerm e.label e.description)) ∧
    (∀ (label : String) (description : JVal),
      keptBySearch E searchTerm label description = true ↔
        ((E.toLowerCase searchTerm).data <:+: (E.toLowerCase label).data ∨
         ∃ d, description = .str d ∧
           (E.toLowerCase searchTerm).data <:+: (E.toLowerCase d).data)) ∧
    allTriggers (filteredTriggers E "" cats) = allTriggers cats ∧
    (∀ anySections : List PaletteSection,
      ∃ shown, filteredPaletteNodes E activeCategory "" anySections = .ok shown ∧
        allNodes shown
          = allNodes (anySections.filter (fun cat => cat.category == activeCategory))) ∧
    (∀ dynamicTools : List PaletteEntry,
      (paletteNodes dynamicTools).filter (fun cat => cat.category == "LangChain")
        = paletteNodes dynamicTools) := by
  have hall : ∀ l : List TriggerEntry, l.filter (matchesSearch E "") = l := by
    intro l
    exact List.filter_eq_self.mpr (fun e _ => matchesSearch_empty E e)
  have hfun : matchesSearch E searchTerm
      = fun e => keptBySearch E searchTerm e.label (.str e.description) :=
    funext (fun e => matchesSearch_eq E searchTerm e)
  refine ⟨?_, ?_, ?_, ?_, ?_, ?_⟩
  · rw [allTriggers_filtered, hfun]
  · have hsec : ∀ cat ∈ sections.filter (fun cat => cat.category == activeCategory),
        ∀ e ∈ cat.nodes, ∃ d, e.description = .str d := by
      intro cat hcat e he
      have hm := List.mem_filter.mp hcat
      exact hdesc cat hm.1 (by simpa using hm.2) e he
    refine ⟨_, ?_, allNodes_filtered _ _⟩
    simp only [filteredPaletteNodes, searchSections_text E searchTerm _ hsec]
  · intro label description
    cases description <;> simp [keptBySearch, containsLowered]
  · rw [allTriggers_filtered, hall]
  · intro anySections
    refine ⟨_, ?_, allNodes_kept _⟩
    simp only [filteredPaletteNodes, searchSections_empty]
  · intro dynamicTools
    simp [paletteNodes]

/-- C20, witness: the theorem at the trigger catalog and the static regular
catalog, searched for `GPT`. -/
theorem palette_filter_keeps_matches_witness :
    (∀ cat ∈ paletteNodes [], cat.category = "LangChain" →
      ∀ e ∈ cat.nodes, ∃ d, e.description = .str d) ∧
    (sectionsShown (filteredPaletteNodes asciiEngine "LangChain" "GPT" (paletteNodes []))).map
        (fun shown => (allNodes shown).map (fun e => e.label)) = some ["OpenAI Chat"] ∧
    allTriggers (filteredTriggers asciiEngine "FORM" triggerNodes) = [formTriggerEntry] ∧
    allTriggers (filteredTriggers asciiEngine "GPT" triggerNodes)
      = (allTriggers triggerNodes).filter
          (fun e => keptBySearch asciiEngine "GPT" e.label (.str e.description)) :=
  ⟨by simp [paletteNodes], by decide, by decide,
    (palette_filter_keeps_matches asciiEngine "GPT" "LangChain" triggerNodes (paletteNodes [])
      (by simp [paletteNodes])).1⟩

/-! ## WebSocket url -/

theorem splitDoubleSlash_single (l : List Char) : ∀ (p : Bool) (cur : List Char),
    hasDoubleSlash l p = false →
    splitDoubleSlash l p cur = [(if p then '/' :: cur else cur).reverse ++ l] := by
  induction l with
  | nil => intro p cur _; simp [splitDoubleSlash]
  | cons c rest ih =>
    intro p cur h
    simp only [hasDoubleSlash, Bool.or_eq_false_iff, Bool.and_eq_false_iff] at h
    obtain ⟨h1, h2⟩ := h
    by_cases hc : c = '/'
    · subst hc
      simp only [decide_True] at h1 h2
      have hp : p = false := by simpa using h1
      subst hp
      simp [splitDoubleSlash, ih true cur h2]
    · simp only [hc, decide_False] at h2
      cases p
      · simp [splitDoubleSlash, hc, ih false (c :: cur) h2]
      · simp [splitDoubleSlash, hc, ih false (c :: '/' :: cur) h2]

theorem stripProtocol_http (h : String) : stripProtocol ("http://" ++ h) = h := by
  have : ("http://" ++ h).data = 'h' :: 't' :: 't' :: 'p' :: ':' :: '/' :: '/' :: h.data := rfl
  simp [stripProtocol, jsStartsWith, this, List.isPrefixOf]

theorem stripProtocol_https (h : String) : stripProtocol ("https://" ++ h) = h := by
  have : ("https://" ++ h).data =
      'h' :: 't' :: 't' :: 'p' :: 's' :: ':' :: '/' :: '/' :: h.data := rfl
  simp [stripProtocol, jsStartsWith, this, List.isPrefixOf]

theorem secondSegment_http (h : String) (hh : hasDoubleSlash h.data false = false) :
    secondSegment ("http://" ++ h) = h := by
  have : ("http://" ++ h).data = 'h' :: 't' :: 't' :: 'p' :: ':' :: '/' :: '/' :: h.data := rfl
  simp [secondSegment, this, splitDoubleSlash, splitDoubleSlash_single h.data false [] hh]

theorem secondSegment_https (h : String) (hh : hasDoubleSlash h.data false = false) :
    secondSegment ("https://" ++ h) = h := by
  have : ("https://" ++ h).data =
      'h' :: 't' :: 't' :: 'p' :: 's' :: ':' :: '/' :: '/' :: h.data := rfl
  simp [secondSegment, this, splitDoubleSlash, splitDoubleSlash_single h.data false [] hh]

theorem wsProtocol_http (h : String) : wsProtocol ("http://" ++ h) = "ws" := by
  have : ("http://" ++ h).data = 'h' :: 't' :: 't' :: 'p' :: ':' :: '/' :: '/' :: h.data := rfl
  simp [wsProtocol, jsStartsWith, this, List.isPrefixOf]

theorem wsProtocol_https (h : String) : wsProtocol ("https://" ++ h) = "wss" := by
  have : ("https://" ++ h).data =
      'h' :: 't' :: 't' :: 'p' :: 's' :: ':' :: '/' :: '/' :: h.data := rfl
  simp [wsProtocol, jsStartsWith, this, List.isPrefixOf]

/-- C21, counterexample: with the non-empty stored token `undefined` the
function of api.js returns no url, and for the base `https://example.com//v1`
the function of api/chat.js uses the host `example.com`, which is not the base
without its protocol. -/
theorem stored_undefined_token_gets_no_url :
    returnedUrl (Api.getWebSocketUrl "http://127.0.0.1:8000" (some "undefined") (.str "s1"))
      = none ∧
    returnedUrl (ApiChat.getWebSocketUrl "https://example.com//v1" (some "t0") (.str "s1"))
      = some "wss://example.com/ws?session_id=s1&token=t0" ∧
    stripProtocol "https://example.com//v1" = "example.com//v1" := by
  decide

/-- C21 (amended).  For a base url `http://h` or `https://h`, a session id and
a non-empty stored token `t`: the function of api.js returns
`<p>://h/ws?session_id=<s>&token=<t>` unless `t` is the text `undefined`, and
the function of api/chat.js returns the same url when `h` holds no `//`;
`<p>` is `wss` for `https://h` and `ws` for `http://h`.  For any base the
function of api.js removes a leading protocol and picks `wss` exactly when
the base starts with `https`.  Without a token, or with an empty one, both
throw; api.js also throws for the token `undefined`. -/
theorem websocket_url_shape (h : String) (secure : Bool) (sid : JVal) (t : String)
    (ht : t ≠ "") :
    (t ≠ "undefined" →
      Api.getWebSocketUrl ((if secure then "https://" else "http://") ++ h) (some t) sid =
        .ok ((if secure then "wss" else "ws") ++ "://" ++ h ++ "/ws?session_id=" ++
          toTemplateString sid ++ "&token=" ++ t)) ∧
    (hasDoubleSlash h.data false = false →
      ApiChat.getWebSocketUrl ((if secure then "https://" else "http://") ++ h) (some t) sid =
        .ok ((if secure then "wss" else "ws") ++ "://" ++ h ++ "/ws?session_id=" ++
          toTemplateString sid ++ "&token=" ++ t)) ∧
    (∀ base, t ≠ "undefined" →
      Api.getWebSocketUrl base (some t) sid =
        .ok ((if jsStartsWith base "https" then "wss" else "ws") ++ "://" ++
          stripProtocol base ++ "/ws?session_id=" ++ toTemplateString sid ++ "&token=" ++ t)) ∧
    (∀ base,
      returnedUrl (Api.getWebSocketUrl base none sid) = none ∧
      returnedUrl (Api.getWebSocketUrl base (some "") sid) = none ∧
      returnedUrl (Api.getWebSocketUrl base (some "undefined") sid) = none ∧
      returnedUrl (ApiChat.getWebSocketUrl base none sid) = none ∧
      returnedUrl (ApiChat.getWebSocketUrl base (some "") sid) = none) := by
  refine ⟨?_, ?_, ?_, ?_⟩
  · intro hu
    cases secure
    · simp [Api.getWebSocketUrl, ht, hu, wsProtocol_http, stripProtocol_http]
    · simp [Api.getWebSocketUrl, ht, hu, wsProtocol_https, stripProtocol_https]
  · intro hh
    cases secure
    · simp [ApiChat.getWebSocketUrl, ht, wsProtocol_http, secondSegment_http h hh]
    · simp [ApiChat.getWebSocketUrl, ht, wsProtocol_https, secondSegment_https h hh]
  · intro base hu
    simp [Api.getWebSocketUrl, ht, hu, wsProtocol]
  · intro base
    simp [Api.getWebSocketUrl, ApiChat.getWebSocketUrl, returnedUrl]

/-- C21, witness: the theorem at the development base url, the session `s1`
and the token `t0`. -/
theorem websocket_url_shape_witness :
    "t0" ≠ "" ∧
    ("t0" ≠ "undefined" →
      Api.getWebSocketUrl ((if false then "https://" else "http://") ++ "127.0.0.1:8000")
          (some "t0") (.str "s1") =
        .ok ((if false then "wss" else "ws") ++ "://" ++ "127.0.0.1:8000" ++
          "/ws?session_id=" ++ toTemplateString (.str "s1") ++ "&token=" ++ "t0")) :=
  ⟨by decide, (websocket_url_shape "127.0.0.1:8000" false (.str "s1") "t0" (by decide)).1⟩

/-- C29.  The two implementations of `getWebSocketUrl` disagree on the stored
token `undefined` (api.js throws, api/chat.js returns a url carrying
`token=undefined`) and on a base url that holds a second `//`. -/
theorem websocket_urls_disagree :
    returnedUrl (Api.getWebSocketUrl "http://127.0.0.1:8000" (some "undefined") (.str "s1"))
      = none ∧
    returnedUrl (ApiChat.getWebSocketUrl "http://127.0.0.1:8000" (some "undefined") (.str "s1"))
      = some "ws://127.0.0.1:8000/ws?session_id=s1&token=undefined" ∧
    returnedUrl (Api.getWebSocketUrl "https://example.com//v1" (some "t0") (.str "s1"))
      = some "wss://example.com//v1/ws?session_id=s1&token=t0" ∧
    returnedUrl (ApiChat.getWebSocketUrl "https://example.com//v1" (some "t0") (.str "s1"))
      = some "wss://example.com/ws?session_id=s1&token=t0" := by
  decide

/-! ## Tool parameters -/

/-- C22.  Renaming the required parameter `city` to the name of the other
required parameter `country` leaves one property and the required list
`country, country`: the list has a duplicate, although it had none before. -/
theorem rename_onto_required_duplicates :
    requiredIsSet sampleWeatherTool = true ∧
    (tasksChanged (TaskManager.handleParamChange [sampleWeatherTool] 0 "city" "country" "name"
        (.str "country"))).map
      (fun ts => ts.map (fun t =>
        (objKeys t.params_schema.properties, t.params_schema.required, requiredIsSet t)))
      = some [(["country"], ["country", "country"], false)] := by
  decide

/-- C27.  On a tool whose only parameter is `param2`, `addParameter` computes
the name `param2` again: the tool still has one parameter, and the type and
description of `param2` are replaced by those of a new parameter. -/
theorem addParameter_overwrites_param2 :
    (objKeys sampleCounterTool.params_schema.properties).length = 1 ∧
    objGet sampleCounterTool.params_schema.properties "param2" =
      .obj [("type", .str "integer"), ("description", .str "limit")] ∧
    (tasksChanged (TaskManager.addParameter [sampleCounterTool] 0)).map
      (fun ts => ts.map (fun t => t.params_schema.properties))
      = some [[("param2", .obj [("type", .str "string"), ("description", .str "")])]] := by
  decide

/-! ## Form elements -/

/-- C28.  Two additions, the removal of the first element and one more
addition, from the initial data of a form trigger, give two elements that are
both named `field2`. -/
theorem form_element_names_clash :
    formElementsOf formTriggerEntry.initialData = [] ∧
    formElementNames
      (runFormEdits [.add, .add, .remove 0, .add] formTriggerEntry.initialData)
      = [.str "field2", .str "field2"] := by
  decide

/-! ## Registered node kinds -/

/-- C23.  Four entries of the trigger catalog have a type that is no key of
`nodeTypes`; a node made from the `webhookTriggerNode` entry by
`handleTriggerSelect` has such a type. -/
theorem trigger_kinds_not_registered :
    (triggerCatalog.map (fun e => e.type)).filter (fun t => !isRegistered t)
      = ["webhookTriggerNode", "scheduleTriggerNode", "apiTriggerNode",
         "executedTriggerNode"] ∧
    (triggerCatalog.filter (fun e => e.type == "webhookTriggerNode")).map
      (fun e => ((triggerNode e "0a1b2c3d").type, isRegistered e.type))
      = [(.str "webhookTriggerNode", false)] := by
  decide

/-! ## Preview chat -/

/-- C30.  In an authenticated preview of the agent `agent-7`, the turn `hello`
issues one `/api/ask` request whose payload is the query and the language,
with no `agent_id`: the agent id is passed as a fifth argument, which
`askQuestion` does not have. -/
theorem preview_request_lacks_agent_id :
    samplePreview.isEmbedded = false ∧
    AgentPreviewChat.optProp samplePreview.agent "id" = .str "agent-7" ∧
    AgentPreviewChat.handleSendMessage "http://127.0.0.1:8000" samplePreview "hello"
      = [{ url := "/api/ask", payload := [("query", .str "hello"), ("lang", .str "en")] }] ∧
    (AgentPreviewChat.handleSendMessage "http://127.0.0.1:8000" samplePreview "hello").map
      (fun r => objGet r.payload "agent_id") = [.undefined] := by
  decide

/-! ## Frame of a configuration attach -/

theorem plain_clone :
    (∀ v : JVal, plainVal v = true → jsonClone v = v) ∧
    (∀ xs : List JVal, plainItems xs = true → jsonCloneItems xs = xs) ∧
    (∀ fs : List (String × JVal), plainFields fs = true → jsonCloneFields fs = fs) := by
  have key : ∀ n : Nat,
      (∀ v : JVal, sizeOf v ≤ n → plainVal v = true → jsonClone v = v) ∧
      (∀ xs : List JVal, sizeOf xs ≤ n → plainItems xs = true → jsonCloneItems xs = xs) ∧
      (∀ fs : List (String × JVal), sizeOf fs ≤ n → plainFields fs = true →
        jsonCloneFields fs = fs) := by
    intro n
    induction n with
    | zero =>
      refine ⟨?_, ?_, ?_⟩
      · intro v hv; cases v <;> simp at hv
      · intro xs hxs _; cases xs with
        | nil => rfl
        | cons x xs => simp at hxs
      · intro fs hfs _; cases fs with
        | nil => rfl
        | cons x xs => simp at hfs
    | succ n ih =>
      obtain ⟨ihv, ihx, ihf⟩ := ih
      refine ⟨?_, ?_, ?_⟩
      · intro v hv hp
        cases v with
        | arr xs =>
          simp only [plainVal] at hp
          simp only [JVal.arr.sizeOf_spec] at hv
          simp only [jsonClone]
          rw [ihx xs (by omega) hp]
        | obj fs =>
          simp only [plainVal] at hp
          simp only [JVal.obj.sizeOf_spec] at hv
          simp only [jsonClone]
          rw [ihf fs (by omega) hp]
        | _ => simp [jsonClone]
      · intro xs hxs hp
        cases xs with
        | nil => rfl
        | cons x rest =>
          simp only [plainItems, Bool.and_eq_true] at hp
          simp only [List.cons.sizeOf_spec] at hxs
          have h1 := ihv x (by omega) hp.1
          have h2 := ihx rest (by omega) hp.2
          cases x <;> simp_all [jsonCloneItems, plainVal]
      · intro fs hfs hp
        cases fs with
        | nil => rfl
        | cons p rest =>
          obtain ⟨k, v⟩ := p
          simp only [plainFields, Bool.and_eq_true] at hp
          simp only [List.cons.sizeOf_spec, Prod.mk.sizeOf_spec] at hfs
          have h1 := ihv v (by omega) hp.1.1
          have h2 := ihf rest (by omega) hp.2
          have hfil : rest.filter (fun p => p.1 != k) = rest := by
            rw [List.filter_eq_self]
            intro q hq
            have := hp.1.2
            simp only [Bool.not_eq_true', List.any_eq_false] at this
            have hq2 := this q hq
            simpa [bne] using hq2
          have hv0 := hp.1.1
          cases v with
          | undefined => simp [plainVal] at hv0
          | fn t => simp [plainVal] at hv0
          | _ => simp only [jsonCloneFields, h2, hfil, h1]
  exact ⟨fun v => (key (sizeOf v)).1 v (le_refl _),
    fun xs => (key (sizeOf xs)).2.1 xs (le_refl _),
    fun fs => (key (sizeOf fs)).2.2 fs (le_refl _)⟩

theorem cloneTop_plain (v : JVal) (h : plainVal v = true) : cloneTop v = v := by
  cases v <;> simp_all [cloneTop, plainVal, jsonClone]
  · rename_i xs; exact plain_clone.2.1 xs h
  · rename_i fs; exact plain_clone.2.2 fs h

theorem mapNodes_ok (f : Node → Except String Node) (l l2 : List Node)
    (h : mapNodes f l = .ok l2) : List.Forall₂ (fun a b => f a = .ok b) l l2 := by
  induction l generalizing l2 with
  | nil =>
    simp only [mapNodes, Except.ok.injEq] at h
    subst h
    exact List.Forall₂.nil
  | cons a rest ih =>
    simp only [mapNodes] at h
    cases hfa : f a with
    | error e => rw [hfa] at h; simp at h
    | ok m =>
      rw [hfa] at h
      cases hr : mapNodes f rest with
      | error e => rw [hr] at h; simp at h
      | ok ms =>
        rw [hr] at h
        simp only [Except.ok.injEq] at h
        subst h
        exact List.Forall₂.cons hfa (ih ms hr)

theorem attachConfig_frame (th : Option String) (src : Option Node) (a b : Node)
    (h : attachConfig th src a = .ok b) :
    b.id = a.id ∧ b.type = a.type ∧ b.position = a.position ∧
    ∀ k, k ≠ slotKey th → objGet b.data k = cloneTop (objGet a.data k) := by
  unfold attachConfig at h
  by_cases ht : th = some "tool"
  · simp only [ht, if_true] at h
    have hslot : slotKey th = "tools" := by simp [slotKey, ht]
    rw [hslot]
    cases he : existingToolsOf (jsonCloneFields a.data) with
    | error e => rw [he] at h; simp at h
    | ok ts =>
      rw [he] at h
      simp only at h
      cases hs : someSameName src ts with
      | error e => rw [hs] at h; simp at h
      | ok same =>
        rw [hs] at h
        cases same with
        | true =>
          simp only [Except.ok.injEq] at h
          subst h
          exact ⟨rfl, rfl, rfl, fun k _ => objGet_jsonCloneFields a.data k⟩
        | false =>
          cases src with
          | none => simp at h
          | some s =>
            simp only [Except.ok.injEq] at h
            subst h
            refine ⟨rfl, rfl, rfl, fun k hk => ?_⟩
            show objGet (objSet (jsonCloneFields a.data) "tools" _) k = _
            rw [objGet_objSet_other _ _ _ _ (Ne.symm hk), objGet_jsonCloneFields]
  · simp only [ht, if_false] at h
    have hslot : slotKey th = th.getD "null" := by simp [slotKey, ht]
    rw [hslot]
    cases src with
    | none => simp at h
    | some s =>
      simp only [Except.ok.injEq] at h
      subst h
      refine ⟨rfl, rfl, rfl, fun k hk => ?_⟩
      show objGet (objSet (jsonCloneFields a.data) _ _) k = _
      rw [objGet_objSet_other _ _ _ _ (Ne.symm hk), objGet_jsonCloneFields]

/-- C25.  Frame of a configuration attach: when `onConnect` on a configuration
socket of an aiAgentNode returns, the node list has the same length and
order; a node whose id is not the target id is returned as it is; a node with
the target id keeps its id, type and position, and every field of its data
that is JSON-serialisable and is not the attached slot (`data[h]` for
chatModel and memory, `data.tools` for tool) keeps its value. -/
theorem config_attach_frame (st st1 : EditorState) (c : Connection)
    (hA : isAiAgent (getNode st.nodes c.target) = true)
    (hh : isConfigHandle c.targetHandle = true)
    (hok : onConnect c st = .ok st1) :
    st1.nodes.length = st.nodes.length ∧
    List.Forall₂ (AttachFrame c.target c.targetHandle) st.nodes st1.nodes := by
  unfold onConnect at hok
  by_cases hI : st.reactFlowInstance = true
  · simp only [hI, Bool.not_true, Bool.false_eq_true, if_false, hA, hh, Bool.and_self,
      if_true] at hok
    cases hm : mapNodes (fun node =>
        if some node.id = c.target then
          attachConfig c.targetHandle (getNode st.nodes c.source) node
        else .ok node) st.nodes with
    | error e => rw [hm] at hok; simp at hok
    | ok nds =>
      rw [hm] at hok
      simp only [Except.ok.injEq] at hok
      subst hok
      have hrel := mapNodes_ok _ _ _ hm
      have hframe : List.Forall₂ (AttachFrame c.target c.targetHandle) st.nodes nds := by
        refine List.Forall₂.imp ?_ hrel
        intro a b hab
        by_cases hai : some a.id = c.target
        · simp only [hai, if_true] at hab
          obtain ⟨h1, h2, h3, h4⟩ := attachConfig_frame _ _ _ _ hab
          refine ⟨h1, h2, h3, fun hne => absurd hai hne, fun k hk hp => ?_⟩
          rw [h4 k hk, cloneTop_plain _ hp]
        · simp only [hai, if_false, Except.ok.injEq] at hab
          subst hab
          exact ⟨rfl, rfl, rfl, fun _ => rfl, fun _ _ _ => rfl⟩
      exact ⟨hframe.length_eq.symm, hframe⟩
  · simp [hI] at hok

/-- C25, witness: the theorem at the sample editor, for the connection of the
sample tool to the `tool` socket of the sample agent. -/
theorem config_attach_frame_witness :
    isAiAgent (getNode sampleEditor.nodes sampleToolConnection.target) = true ∧
    isConfigHandle sampleToolConnection.targetHandle = true ∧
    onConnect sampleToolConnection sampleEditor = .ok sampleToolAttached ∧
    sampleToolAttached.nodes.length = sampleEditor.nodes.length ∧
    List.Forall₂ (AttachFrame sampleToolConnection.target sampleToolConnection.targetHandle)
      sampleEditor.nodes sampleToolAttached.nodes :=
  ⟨by decide, by decide, rfl,
    config_attach_frame sampleEditor sampleToolAttached sampleToolConnection
      (by decide) (by decide) rfl⟩

/-- C26, counterexample: connecting the sample tool node to the `chatModel`
socket of the sample agent succeeds and stores the data of the tool node in
`data.chatModel`, in an editor that holds no chatModelNode at all. -/
theorem chat_model_slot_takes_tool_data :
    sampleTool.type = .str "toolNode" ∧
    sampleEditor.nodes.all (fun n => !strictEq n.type (.str "chatModelNode")) = true ∧
    ((outcome (onConnect sampleKindMismatch sampleEditor)).bind
      (fun s => (getNode s.nodes (some "aiAgentNode_1a2b3c4d")).map
        (fun a => (objGet a.data "chatModel", readProp (objGet a.data "chatModel") "nodeType"))))
      = some (.obj sampleTool.data, .str "tool") := by
  decide

/-- C26 (amended).  A connection to a configuration socket of an aiAgentNode
stores the data of the node the source id resolves to, whatever the kind of
that node: on `chatModel` or `memory` the slot holds that data afterwards, and
on `tool`, when the source has a string name that no listed tool carries, that
data is the last element of `data.tools`, after the clones of the previous
elements. -/
theorem slot_takes_source_of_any_kind (st : EditorState) (src tgt : String)
    (sh : Option String) (S : Node)
    (hI : st.reactFlowInstance = true)
    (hA : isAiAgent (getNode st.nodes (some tgt)) = true)
    (hS : getNode st.nodes (some src) = some S) :
    (∀ h, h = "chatModel" ∨ h = "memory" →
      ∃ st1, onConnect ⟨some src, some tgt, sh, some h⟩ st = .ok st1 ∧
        ∀ c ∈ st1.nodes, c.id = tgt → objGet c.data h = .obj S.data) ∧
    (∀ n, objGet S.data "name" = .str n →
      (∀ a ∈ st.nodes, a.id = tgt →
        toolsListed a.data = true ∧ countNamed n (toolsOf a.data) = 0) →
      ∃ st1, onConnect ⟨some src, some tgt, sh, some "tool"⟩ st = .ok st1 ∧
        ∀ c ∈ st1.nodes, c.id = tgt → ∃ a ∈ st.nodes, a.id = tgt ∧
          toolsOf c.data = jsonCloneItems (toolsOf a.data) ++ [.obj S.data]) := by
  constructor
  · intro h hh
    obtain ⟨st1, h1, hrel, _, _⟩ := onConnect_slot st src tgt h sh S hh hI hA hS
    refine ⟨st1, h1, fun c hc hct => ?_⟩
    obtain ⟨a, _, hac⟩ := forall2_mem_right _ _ _ hrel c hc
    exact hac.2.2.2 (by rw [← hac.1]; exact hct)
  · intro n hn hwf
    obtain ⟨st1, h1, hrel, _⟩ := onConnect_tool st src tgt sh S n hI hA hS hn
      (fun a ha hat => (hwf a ha hat).1)
    refine ⟨st1, h1, fun c hc hct => ?_⟩
    obtain ⟨a, ha, hac⟩ := forall2_mem_right _ _ _ hrel c hc
    have hat : a.id = tgt := by rw [← hac.1]; exact hct
    refine ⟨a, ha, hat, ?_⟩
    have := (hac.2.2.2 hat).2.2.1
    rw [this, (hwf a ha hat).2]
    simp

/-- C26, witness: the theorem at the sample editor, with the sample tool node
(kind `toolNode`) as the source. -/
theorem slot_takes_source_of_any_kind_witness :
    sampleTool.type = .str "toolNode" ∧
    sampleEditor.reactFlowInstance = true ∧
    isAiAgent (getNode sampleEditor.nodes (some "aiAgentNode_1a2b3c4d")) = true ∧
    getNode sampleEditor.nodes (some "toolNode_9f8e7d6c") = some sampleTool ∧
    ∀ h, h = "chatModel" ∨ h = "memory" →
      ∃ st1, onConnect ⟨some "toolNode_9f8e7d6c", some "aiAgentNode_1a2b3c4d", none, some h⟩
          sampleEditor = .ok st1 ∧
        ∀ c ∈ st1.nodes, c.id = "aiAgentNode_1a2b3c4d" →
          objGet c.data h = .obj sampleTool.data :=
  ⟨by decide, by decide, by decide, by decide,
    (slot_takes_source_of_any_kind sampleEditor "toolNode_9f8e7d6c" "aiAgentNode_1a2b3c4d"
      none sampleTool (by decide) (by decide) (by decide)).1⟩

/-! ## Source normalisation -/

theorem afterLastSlash_of_not_mem (l : List Char) (h : '/' ∉ l) : afterLastSlash l = l := by
  cases l with
  | nil => rfl
  | cons c rest =>
    have h1 : '/' ∉ rest := fun hm => h (List.mem_cons_of_mem _ hm)
    have h2 : c ≠ '/' := fun hc => h (by rw [hc]; exact List.mem_cons_self _ _)
    simp [afterLastSlash, h1, h2]

theorem getLast_cons_of_some (a : List Char) (l : List (List Char)) (x : List Char)
    (h : l.getLast? = some x) : (a :: l).getLast? = some x := by
  cases l with
  | nil => simp at h
  | cons b rest => rw [List.getLast?_cons_cons]; exact h

theorem splitChar_last (l : List Char) : ∀ cur : List Char,
    (splitChar '/' l cur).getLast? =
      some (if '/' ∈ l then afterLastSlash l else cur.reverse ++ l) := by
  induction l with
  | nil => intro cur; simp [splitChar]
  | cons c rest ih =>
    intro cur
    by_cases hc : c = '/'
    · subst hc
      simp only [splitChar, if_true]
      rw [getLast_cons_of_some _ _ _ (ih [])]
      simp [afterLastSlash]
    · have hmem : ('/' ∈ c :: rest) ↔ '/' ∈ rest := by
        simp [List.mem_cons, Ne.symm hc]
      simp only [splitChar, hc, if_false]
      rw [ih (c :: cur)]
      by_cases hr : '/' ∈ rest
      · simp [hmem, hr, afterLastSlash]
      · simp [hmem, hr]

theorem lastSegment_eq (raw : String) : lastSegment raw = ⟨afterLastSlash raw.data⟩ := by
  unfold lastSegment
  rw [splitChar_last raw.data []]
  by_cases h : '/' ∈ raw.data
  · simp [h]
  · simp [h, afterLastSlash_of_not_mem raw.data h]

theorem isPrefixOf_eq_take (p l : List Char) : p.isPrefixOf l = (l.take p.length == p) := by
  rw [Bool.eq_iff_iff, List.isPrefixOf_iff_prefix, List.prefix_iff_eq_take, beq_iff_eq]
  exact eq_comm

theorem isHttpUrl_eq (raw : String) : isHttpUrl raw = startsWithHttp raw := by
  simp only [isHttpUrl, startsWithHttp, jsStartsWith, isPrefixOf_eq_take]
  rfl

theorem normalizeOne_skipped (E : Engine) (hostname : String → Option String) (s : JVal)
    (ht : textual s = true)
    (h : rawText s = none ∨ ∃ r, rawText s = some r ∧ sourceKey E r = "") :
    normalizeOne E hostname s = .ok none := by
  unfold normalizeOne
  by_cases hs : truthy s = true
  · simp only [hs, Bool.not_true, Bool.false_eq_true, if_false]
    unfold textual at ht
    unfold rawText at h
    simp only [hs, if_true] at h
    cases hraw : rawOf s with
    | str r =>
      rw [hraw] at h
      by_cases hr : r = ""
      · simp [truthy, hr]
      · have hkey : sourceKey E r = "" := by
          rcases h with h | ⟨r2, h1, h2⟩
          · simp [hr] at h
          · simp only [hr, if_false, Option.some.injEq] at h1
            rw [h1]; exact h2
        have htr : truthy (.str r) = true := by simp [truthy, hr]
        simp only [htr, Bool.not_true, Bool.false_eq_true, if_false]
        unfold sourceKey at hkey
        rw [← isHttpUrl_eq] at hkey
        by_cases hu : isHttpUrl r = true
        · simp only [hu, if_true] at hkey ⊢
          simp [hkey]
        · simp only [hu, Bool.false_eq_true, if_false, ← lastSegment_eq] at hkey ⊢
          simp [hkey]
    | _ => rw [hraw] at ht; simp_all
  · simp [hs]

theorem normalizeOne_kept (E : Engine) (hostname : String → Option String) (s : JVal)
    (r : String) (h : rawText s = some r) (hk : sourceKey E r ≠ "") :
    ∃ e, normalizeOne E hostname s = .ok (some (sourceKey E r, e)) ∧ e.raw = r := by
  unfold rawText at h
  by_cases hs : truthy s = true
  · simp only [hs, if_true] at h
    cases hraw : rawOf s with
    | str r2 =>
      rw [hraw] at h
      by_cases hr : r2 = ""
      · simp [hr] at h
      · simp only [hr, if_false, Option.some.injEq] at h
        subst h
        have htr : truthy (.str r2) = true := by simp [truthy, hr]
        unfold normalizeOne
        simp only [hs, hraw, htr, Bool.not_true, Bool.false_eq_true, if_false]
        unfold sourceKey at hk ⊢
        rw [← isHttpUrl_eq] at hk ⊢
        by_cases hu : isHttpUrl r2 = true
        · simp only [hu, if_true] at hk ⊢
          simp only [hk, if_false]
          exact ⟨_, rfl, rfl⟩
        · simp only [hu, Bool.false_eq_true, if_false, ← lastSegment_eq] at hk ⊢
          simp only [hk, if_false]
          exact ⟨_, rfl, rfl⟩
    | _ => rw [hraw] at h; simp at h
  · simp [hs] at h

theorem keyedRaws_cons (E : Engine) (s : JVal) (rest : List JVal) :
    keyedRaws E (s :: rest) =
      (match rawText s with
        | some r => if sourceKey E r = "" then keyedRaws E rest else r :: keyedRaws E rest
        | none => keyedRaws E rest) := by
  unfold keyedRaws
  cases hr : rawText s with
  | none => simp [List.filterMap_cons, hr]
  | some r =>
    by_cases hk : sourceKey E r = "" <;> simp [List.filterMap_cons, hr, List.filter_cons, hk]

theorem normalizeLoop_keepUnseen (E : Engine) (hostname : String → Option String)
    (l : List JVal) : ∀ (seen : List String) (out : List SourceEntry),
    (∀ s ∈ l, textual s = true) →
    ∃ res, normalizeLoop E hostname l seen out = .ok res ∧
      res.map (fun e => e.raw) = out.map (fun e => e.raw) ++ keepUnseen E seen (keyedRaws E l) := by
  induction l with
  | nil => intro seen out _; exact ⟨out, rfl, by simp [keyedRaws, keepUnseen]⟩
  | cons s rest ih =>
    intro seen out h
    have hrest : ∀ x ∈ rest, textual x = true := fun x hx => h x (List.mem_cons_of_mem _ hx)
    have hs := h s (List.mem_cons_self _ _)
    rw [keyedRaws_cons]
    cases hr : rawText s with
    | none =>
      have hone := normalizeOne_skipped E hostname s hs (Or.inl hr)
      simp only [normalizeLoop, hone]
      exact ih seen out hrest
    | some r =>
      by_cases hk : sourceKey E r = ""
      · have hone := normalizeOne_skipped E hostname s hs (Or.inr ⟨r, hr, hk⟩)
        simp only [normalizeLoop, hone, hk, if_true]
        exact ih seen out hrest
      · obtain ⟨e, hone, hraw⟩ := normalizeOne_kept E hostname s r hr hk
        simp only [normalizeLoop, hone, hk, if_false, keepUnseen]
        by_cases hseen : seen.contains (sourceKey E r) = true
        · simp only [hseen, if_true]
          exact ih seen out hrest
        · simp only [hseen, Bool.false_eq_true, if_false]
          obtain ⟨res, h1, h2⟩ := ih (sourceKey E r :: seen) (out ++ [e]) hrest
          refine ⟨res, h1, ?_⟩
          rw [h2]
          simp [hraw]

theorem keepUnseen_mem (E : Engine) (rs : List String) : ∀ (seen : List String),
    ∀ r ∈ keepUnseen E seen rs, r ∈ rs ∧ sourceKey E r ∉ seen := by
  induction rs with
  | nil => intro seen r hr; simp [keepUnseen] at hr
  | cons x rest ih =>
    intro seen r hr
    by_cases hmem : sourceKey E x ∈ seen
    · have hgoal : keepUnseen E seen (x :: rest) = keepUnseen E seen rest := by
        simp [keepUnseen, hmem]
      rw [hgoal] at hr
      obtain ⟨h1, h2⟩ := ih seen r hr
      exact ⟨List.mem_cons_of_mem _ h1, h2⟩
    · have hgoal : keepUnseen E seen (x :: rest)
          = x :: keepUnseen E (sourceKey E x :: seen) rest := by
        simp [keepUnseen, hmem]
      rw [hgoal] at hr
      rcases List.mem_cons.mp hr with rfl | hr
      · exact ⟨List.mem_cons_self _ _, hmem⟩
      · obtain ⟨h1, h2⟩ := ih _ r hr
        exact ⟨List.mem_cons_of_mem _ h1, fun hm => h2 (List.mem_cons_of_mem _ hm)⟩

theorem keepUnseen_nodup (E : Engine) (rs : List String) : ∀ (seen : List String),
    ((keepUnseen E seen rs).map (sourceKey E)).Nodup := by
  induction rs with
  | nil => intro seen; simp [keepUnseen]
  | cons x rest ih =>
    intro seen
    by_cases hmem : sourceKey E x ∈ seen
    · have hgoal : keepUnseen E seen (x :: rest) = keepUnseen E seen rest := by
        simp [keepUnseen, hmem]
      rw [hgoal]
      exact ih seen
    · have hgoal : keepUnseen E seen (x :: rest)
          = x :: keepUnseen E (sourceKey E x :: seen) rest := by
        simp [keepUnseen, hmem]
      rw [hgoal, List.map_cons, List.nodup_cons]
      refine ⟨?_, ih _⟩
      intro hm
      obtain ⟨r, hr, hkr⟩ := List.mem_map.mp hm
      have := (keepUnseen_mem E rest _ r hr).2
      exact this (by rw [hkr]; exact List.mem_cons_self _ _)

theorem keepUnseen_sublist (E : Engine) (rs : List String) : ∀ (seen : List String),
    (keepUnseen E seen rs).Sublist rs := by
  induction rs with
  | nil => intro seen; simp [keepUnseen]
  | cons x rest ih =>
    intro seen
    by_cases hmem : sourceKey E x ∈ seen
    · have hgoal : keepUnseen E seen (x :: rest) = keepUnseen E seen rest := by
        simp [keepUnseen, hmem]
      rw [hgoal]
      exact List.Sublist.cons _ (ih seen)
    · have hgoal : keepUnseen E seen (x :: rest)
          = x :: keepUnseen E (sourceKey E x :: seen) rest := by
        simp [keepUnseen, hmem]
      rw [hgoal]
      exact List.Sublist.cons₂ _ (ih _)

theorem keepUnseen_first (E : Engine) (rs : List String) : ∀ (seen : List String),
    ∀ c ∈ rs, sourceKey E c ∉ seen →
      ∃ r ∈ keepUnseen E seen rs,
        rs.find? (fun x => sourceKey E x == sourceKey E c) = some r := by
  induction rs with
  | nil => intro seen c hc; simp at hc
  | cons x rest ih =>
    intro seen c hc hns
    by_cases hxc : sourceKey E x = sourceKey E c
    · have hmem : sourceKey E x ∉ seen := by rw [hxc]; exact hns
      refine ⟨x, ?_, ?_⟩
      · simp [keepUnseen, hmem]
      · rw [List.find?_cons_of_pos]
        simp [hxc]
    · have hcr : c ∈ rest := by
        rcases List.mem_cons.mp hc with rfl | h
        · exact absurd rfl hxc
        · exact h
      have hfind : (x :: rest).find? (fun y => sourceKey E y == sourceKey E c) =
          rest.find? (fun y => sourceKey E y == sourceKey E c) := by
        rw [List.find?_cons_of_neg]
        simp [hxc]
      rw [hfind]
      by_cases hmem : sourceKey E x ∈ seen
      · obtain ⟨r, hr, hf⟩ := ih seen c hcr hns
        exact ⟨r, by simpa [keepUnseen, hmem] using hr, hf⟩
      · have hns2 : sourceKey E c ∉ sourceKey E x :: seen := by
          intro hm
          rcases List.mem_cons.mp hm with h | h
          · exact hxc h.symm
          · exact hns h
        obtain ⟨r, hr, hf⟩ := ih _ c hcr hns2
        refine ⟨r, ?_, hf⟩
        have hgoal : keepUnseen E seen (x :: rest)
            = x :: keepUnseen E (sourceKey E x :: seen) rest := by
          simp [keepUnseen, hmem]
        rw [hgoal]
        exact List.mem_cons_of_mem _ hr

theorem keyedRaws_of_strings (E : Engine) (raws : List String) :
    keyedRaws E (raws.map JVal.str) =
      raws.filter (fun r => r != "" && sourceKey E r != "") := by
  induction raws with
  | nil => rfl
  | cons r rest ih =>
    rw [List.map_cons, keyedRaws_cons, ih]
    by_cases hr : r = ""
    · simp [rawText, truthy, rawOf, hr, List.filter_cons]
    · by_cases hk : sourceKey E r = ""
      · simp [rawText, truthy, rawOf, hr, hk, List.filter_cons]
      · simp [rawText, truthy, rawOf, hr, hk, List.filter_cons]

/-- C24, counterexample: for a source list that holds the object
`{id: 42, title: "Report"}` the raw value is the number 42, which has no
`split`: the memo raises and there is no normalised list. -/
theorem numeric_id_source_raises :
    rawOf sampleNumberedSource = .num 42 ∧
    entriesShown (normalized asciiEngine sampleHostname [sampleNumberedSource]) = none := by
  decide

/-- C24 (amended).  Normalisation dedupes: for sources whose raw value is a
string (strings, numbers, booleans, and objects whose first truthy field among
source, url, id, name is a string), `normalized` returns a list in which no
two entries have the same key, where the key is the lower-cased raw string
for an http(s) url and the lower-cased last path segment otherwise; the raw
strings of the list are a sublist of the raw strings of the sources that pass
the guards (non-empty raw string, non-empty key), in input order, and for
every such raw string the list holds the first one with that key.  For a list
of string sources the raw strings that pass the guards are the non-empty
strings with a non-empty key. -/
theorem normalized_keeps_first_of_each_key (E : Engine) (hostname : String → Option String)
    (sources : List JVal) (htext : ∀ s ∈ sources, textual s = true) :
    ∃ out, normalized E hostname sources = .ok out ∧
      (out.map (fun e => sourceKey E e.raw)).Nodup ∧
      (out.map (fun e => e.raw)).Sublist (keyedRaws E sources) ∧
      (∀ r ∈ keyedRaws E sources, ∃ e ∈ out,
        (keyedRaws E sources).find? (fun x => sourceKey E x == sourceKey E r) = some e.raw) ∧
      (∀ raws : List String, sources = raws.map JVal.str →
        keyedRaws E sources = raws.filter (fun r => r != "" && sourceKey E r != "")) := by
  obtain ⟨out, hout, hraws⟩ := normalizeLoop_keepUnseen E hostname sources [] [] htext
  simp only [List.map_nil, List.nil_append] at hraws
  refine ⟨out, hout, ?_, ?_, ?_, ?_⟩
  · have h := keepUnseen_nodup E (keyedRaws E sources) []
    rw [← hraws, List.map_map] at h
    exact h
  · rw [hraws]
    exact keepUnseen_sublist E _ []
  · intro r hr
    obtain ⟨x, hx, hf⟩ := keepUnseen_first E _ [] r hr (by simp)
    rw [← hraws] at hx
    obtain ⟨e, he, hex⟩ := List.mem_map.mp hx
    exact ⟨e, he, by rw [hf, hex]⟩
  · intro raws hs
    rw [hs]
    exact keyedRaws_of_strings E raws

/-- C24, witness: the theorem at the sample source list, whose third source
repeats the first url in another case and whose last source repeats the file
name of the second. -/
theorem normalized_keeps_first_of_each_key_witness :
    (∀ s ∈ sampleSources, textual s = true) ∧
    (entriesShown (normalized asciiEngine sampleHostname sampleSources)).map
        (fun out => out.map (fun e => (e.raw, e.display, e.type)))
      = some [("https://docs.example.com/guide", "docs.example.com", "url"),
              ("uploads/report.pdf", "report.pdf", "pdf")] ∧
    ∃ out, normalized asciiEngine sampleHostname sampleSources = .ok out ∧
      (out.map (fun e => sourceKey asciiEngine e.raw)).Nodup ∧
      (out.map (fun e => e.raw)).Sublist (keyedRaws asciiEngine sampleSources) ∧
      (∀ r ∈ keyedRaws asciiEngine sampleSources, ∃ e ∈ out,
        (keyedRaws asciiEngine sampleSources).find?
          (fun x => sourceKey asciiEngine x == sourceKey asciiEngine r) = some e.raw) ∧
      (∀ raws : List String, sampleSources = raws.map JVal.str →
        keyedRaws asciiEngine sampleSources
          = raws.filter (fun r => r != "" && sourceKey asciiEngine r != "")) :=
  ⟨by decide, by decide,
    normalized_keeps_first_of_each_key asciiEngine sampleHostname sampleSources (by decide)⟩

end FlowEditor
